import Mathlib

/-!
# arduino-home-assistant: device types and their serializer

A shallow embedding of `src/device-types/HASwitch.cpp`, `HABinarySensor.cpp`,
`HAHVAC.cpp` and of the interface declared in `DeviceTypeSerializer.h`.

Conventions of the embedding:

* a C string (`const char*`) is a `String`, one `Char` per `char`, and `strlen`
  is `String.length`; a pointer that the code tests against `nullptr` is an
  `Option`;
* `uint16_t` and `uint8_t` values are naturals reduced modulo `2^16` and `2^8`
  at every assignment;
* a `double` is a `Double`: a rational, an infinity or NaN, with the IEEE
  comparison results the code observes;
* the transport is a log of the calls made on it together with a response
  function that decides the result of each call;
* a `bool` function with a bare `return;`, or whose body runs off its end,
  returns `none`: no value is returned. Running off the end of a function with
  a result type is undefined behaviour in C++: a caller that reaches this point
  has the outcome `undefined`;
* a character buffer declared with a size the code computes (`suffixLength`)
  holds the string copied into it when the string and its terminator fit; a
  copy that does not fit writes past the end of the buffer, and the outcome of
  the call is `undefined`. A buffer filled by a function whose body is not in
  the tree (`generateTopic`, `serialize`, `tempToStr`) is the string that
  function gives.
-/

namespace AHA

/-- Value stored in a `uint16_t`. -/
def u16 (n : Nat) : Nat := n % 65536

/-- Value stored in a `uint8_t`. -/
def u8 (n : Nat) : Nat := n % 256

/-! ## Outcomes and buffers -/

/-- The outcome of a call that can leave the behaviour C++ defines. `returned a`:
the call returns and leaves the state `a`. `undefined a`: in the state `a` the
execution did something whose behaviour the language does not define (a write
past the end of a buffer, a function with a result type that runs off its
end); nothing is known of what follows. -/
inductive Outcome (α : Type) where
  | returned (a : α) : Outcome α
  | undefined (a : α) : Outcome α

namespace Outcome

/-- The statement after a call: it runs when the call returned. -/
def andThen {α : Type} (o : Outcome α) (f : α → Outcome α) : Outcome α :=
  match o with
  | .returned a => f a
  | .undefined a => .undefined a

/-- Whether the call returned. -/
def isReturned {α : Type} : Outcome α → Bool
  | .returned _ => true
  | .undefined _ => false

/-- The state the call left, or the state in which it left defined behaviour. -/
def state {α : Type} : Outcome α → α
  | .returned a => a
  | .undefined a => a

end Outcome

/-- The string `s` copied with `strcpy` and `strcat` into a character buffer
declared with `size` bytes: the buffer holds `s` when `s` and its terminator
fit; otherwise the copy writes past the end of the buffer (`none`). -/
def copyToBuffer (size : Nat) (s : String) : Option String :=
  if s.length + 1 ≤ size then some s else none

/-! ## Doubles -/

/-- A C `double`, as far as comparisons can tell. -/
inductive Double where
  | nan : Double
  | negInf : Double
  | posInf : Double
  | fin (q : ℚ) : Double
deriving DecidableEq

namespace Double

/-- The integer constant `n` converted to `double`. -/
def ofInt (n : Int) : Double := .fin n

/-- C `a == b`. -/
def eq : Double → Double → Bool
  | .fin p, .fin q => decide (p = q)
  | .posInf, .posInf => true
  | .negInf, .negInf => true
  | _, _ => false

/-- C `a != b`. -/
def ne (a b : Double) : Bool := !(eq a b)

/-- C `a <= b`. -/
def le : Double → Double → Bool
  | .nan, _ => false
  | _, .nan => false
  | .negInf, _ => true
  | _, .posInf => true
  | .fin p, .fin q => decide (p ≤ q)
  | _, _ => false

/-- C `a >= b`. -/
def ge (a b : Double) : Bool := le b a

end Double

/-! ## Transport -/

/-- A call on the publish/subscribe transport (`HAMqtt`). -/
inductive MqttOp where
  | publish (topic payload : String) (retain : Bool) : MqttOp
  | beginPublish (topic : String) (length : Nat) (retain : Bool) : MqttOp
  | writePayload (data : String) : MqttOp
  | endPublish : MqttOp
  | subscribe (topic : String) : MqttOp
deriving DecidableEq, Repr

/-- Modelled from the spec: `HADevice` (its source is not in the tree), the
device descriptor: its unique id, the value of `calculateSerializedLength()`
and the outcome of `serialize(buffer)` (buffer contents, returned length). -/
structure HADevice where
  uniqueId : String
  calculateSerializedLength : Nat
  serialize : String × Nat

/-- Modelled from the spec: `HAMqtt` (its source is not in the tree), the
transport interface of section 6. `respond` gives the result of a call from
the calls made before it; `log` is the sequence of calls made so far. -/
structure HAMqtt where
  discoveryPrefix : String
  device : Option HADevice
  respond : List MqttOp → MqttOp → Bool
  log : List MqttOp

namespace HAMqtt

/-- `mqtt()->getDevice()`. -/
def getDevice (m : HAMqtt) : Option HADevice := m.device

/-- One call on the transport: it is appended to the log and answered. -/
def call (m : HAMqtt) (op : MqttOp) : Bool × HAMqtt :=
  (m.respond m.log op, { m with log := m.log ++ [op] })

/-- `publish(topic, payload, retained)`. -/
def publish (m : HAMqtt) (topic payload : String) (retained : Bool) : Bool × HAMqtt :=
  m.call (.publish topic payload retained)

/-- `beginPublish(topic, length, retained)`. -/
def beginPublish (m : HAMqtt) (topic : String) (length : Nat) (retained : Bool) : Bool × HAMqtt :=
  m.call (.beginPublish topic length retained)

/-- `writePayload(data, length)`. -/
def writePayload (m : HAMqtt) (data : String) : HAMqtt :=
  (m.call (.writePayload data)).2

/-- `endPublish()`. -/
def endPublish (m : HAMqtt) : HAMqtt :=
  (m.call .endPublish).2

/-- `subscribe(topic)`. -/
def subscribe (m : HAMqtt) (topic : String) : Bool × HAMqtt :=
  m.call (.subscribe topic)

end HAMqtt

/-- Modelled from the spec: `BaseDeviceType` (its source is not in the tree),
the part of an entity shared by all kinds: the transport it borrows, the
component kind, the object id and whether a distinct availability topic is
configured. -/
structure BaseDeviceType where
  mqtt : HAMqtt
  componentName : String
  name : String
  isAvailabilityConfigured : Bool

/-! ## DeviceTypeSerializer -/

namespace DeviceTypeSerializer

/-- Modelled from the spec: `DeviceTypeSerializer::ConfigTopic`, declared in
the header and defined in the missing `DeviceTypeSerializer.cpp`. -/
def ConfigTopic : String := "config"

/-- Modelled from the spec: `DeviceTypeSerializer::AvailabilityTopic`. -/
def AvailabilityTopic : String := "avty"

/-- Modelled from the spec: `DeviceTypeSerializer::StateTopic`, the suffix of
the scenario `.../relay1/stat_t`. -/
def StateTopic : String := "stat_t"

/-- Modelled from the spec: `DeviceTypeSerializer::CommandTopic`, the suffix
of the scenario `.../relay1/cmd_t`. -/
def CommandTopic : String := "cmd_t"

/-- Modelled from the spec: `DeviceTypeSerializer::StateOn`, the literal
"ON". -/
def StateOn : String := "ON"

/-- Modelled from the spec: `DeviceTypeSerializer::StateOff`, the literal
"OFF". -/
def StateOff : String := "OFF"

/-- Modelled from the spec: `DeviceTypeSerializer::calculateTopicLength`,
declared in `DeviceTypeSerializer.h` with result type `uint16_t`; its body is
not in the tree. The topic is `discovery/component/objectId/suffix` with three
slashes; an empty object id or suffix gives zero. -/
def calculateTopicLength (discovery component objectId suffix : String)
    (includeNullTerminator : Bool) : Nat :=
  if objectId.length = 0 ∨ suffix.length = 0 then 0
  else
    u16 (discovery.length + 1 + component.length + 1 + objectId.length + 1 + suffix.length
      + (if includeNullTerminator then 1 else 0))

/-- Modelled from the spec: `DeviceTypeSerializer::generateTopic`, declared in
`DeviceTypeSerializer.h` with result type `uint16_t`; its body is not in the
tree. It gives the buffer contents and the returned length, which counts the
terminator; with an empty object id or suffix nothing is written and the
result is zero. -/
def generateTopic (discovery component objectId suffix : String) : String × Nat :=
  if objectId.length = 0 ∨ suffix.length = 0 then ("", 0)
  else
    let output := discovery ++ "/" ++ component ++ "/" ++ objectId ++ "/" ++ suffix
    (output, u16 (output.length + 1))

end DeviceTypeSerializer

/-- Length of the topic `discovery/component/objectId/suffix` of an entity,
before any reduction to 16 bits. -/
def topicLen (dt : BaseDeviceType) (suffix : String) : Nat :=
  dt.mqtt.discoveryPrefix.length + 1 + dt.componentName.length + 1 + dt.name.length + 1
    + suffix.length

/-- A field of a discovery document, named after the data it carries; the two
passes record the fields they visit under these names. -/
inductive Field where
  | base : Field
  | beginJson : Field
  | endJson : Field
  | name : Field
  | uniqueId : Field
  | device : Field
  | availability : Field
  | topic (suffix : String) : Field
  | deviceClass : Field
  | minTemp : Field
  | maxTemp : Field
  | tempStep : Field
  | label : Field
  | temperatureUnit : Field
deriving DecidableEq, Repr

/-- The calls that account for the braces of the document rather than for one
of its fields. -/
def Field.isDelimiter : Field → Bool
  | .base => true
  | .beginJson => true
  | .endJson => true
  | _ => false

/-- The calculation pass: the running `uint16_t size` and, as a record of the
pass, each `size += n` with the field it stands for. -/
structure Sizing where
  size : Nat
  terms : List (Field × Nat)

namespace Sizing

/-- `uint16_t size = 0;` -/
def start : Sizing := ⟨0, []⟩

/-- `size += n;` for the field `f`. -/
def add (s : Sizing) (f : Field) (n : Nat) : Sizing :=
  ⟨u16 (s.size + n), s.terms ++ [(f, n)]⟩

/-- Several `size += n;` in a row. -/
def addAll (s : Sizing) (l : List (Field × Nat)) : Sizing :=
  l.foldl (fun acc p => acc.add p.1 p.2) s

/-- The block repeated for every topic reference of a calculation pass:
`topicLength = calculateTopicLength(componentName(), name(), suffix, false)`,
`return 0` when it is zero, otherwise `size += topicLength + decorators`. -/
def addTopic (s : Sizing) (dt : BaseDeviceType) (suffix : String) (decorators : Nat) :
    Option Sizing :=
  let topicLength := DeviceTypeSerializer.calculateTopicLength dt.mqtt.discoveryPrefix
    dt.componentName dt.name suffix false
  if topicLength = 0 then none
  else some (s.add (.topic suffix) (topicLength + decorators))

/-- The fields of a pass, in the order their sizes were added. -/
def fields (s : Sizing) : List Field := s.terms.map Prod.fst

/-- The fields a calculation pass added up, in order, the braces aside; an
early `return 0` leaves none. -/
def documentFields (pass : Option Sizing) : List Field :=
  match pass with
  | none => []
  | some s => s.fields.filter fun f => !f.isDelimiter

end Sizing

/-- The write pass: what each write call put on the open message, in order,
with the field the call stands for. -/
abbrev Stream := List (Field × String)

namespace Stream

/-- The bytes on the wire. -/
def bytes (out : Stream) : String := String.join (out.map Prod.snd)

/-- Number of bytes on the wire. -/
def length (out : Stream) : Nat := (out.map fun p => p.2.length).sum

/-- The fields of a pass, in the order they were written. -/
def fields (out : Stream) : List Field := out.map Prod.fst

/-- Per write call, the field and the number of bytes written. -/
def sizes (out : Stream) : List (Field × Nat) := out.map fun p => (p.1, p.2.length)

/-- The fields a write pass emitted, in order, the braces aside. -/
def documentFields (out : Stream) : List Field :=
  out.fields.filter fun f => !f.isDelimiter

end Stream

/-- Modelled from the spec: the per-field helpers of `DeviceTypeSerializer`
(declared in `DeviceTypeSerializer.h`, bodies not in the tree) and
`HAUtils::tempToStr`. For each field: the size its `calculate...` function
returns and the bytes its `mqttWrite...` function writes. The availability
helpers come in the two call shapes the sources use: with the entity
(`HASwitch`, `HAHVAC`) and with transport, component and object id
(`HABinarySensor`). -/
structure FieldHelpers where
  calculateBaseJsonDataSize : Nat
  mqttWriteBeginningJson : String
  mqttWriteEndJson : String
  calculateNameFieldSize : String → Nat
  mqttWriteNameField : String → String
  calculateUniqueIdFieldSize : Option HADevice → String → Nat
  mqttWriteUniqueIdField : Option HADevice → String → String
  calculateDeviceFieldSize : String → Nat
  mqttWriteDeviceField : String → String
  calculateAvailabilityFieldSize : BaseDeviceType → Nat
  mqttWriteAvailabilityField : BaseDeviceType → String
  calculateAvailabilityFieldSizeOf : HAMqtt → String → String → Nat
  mqttWriteAvailabilityFieldOf : HAMqtt → String → String → String
  tempToStr : Double → String

/-- Every `calculate...FieldSize` helper returns exactly the number of bytes
its `mqttWrite...` counterpart writes. -/
structure FieldHelpers.Consistent (H : FieldHelpers) : Prop where
  base : H.calculateBaseJsonDataSize
    = H.mqttWriteBeginningJson.length + H.mqttWriteEndJson.length
  name : ∀ n, H.calculateNameFieldSize n = (H.mqttWriteNameField n).length
  uniqueId : ∀ d n, H.calculateUniqueIdFieldSize d n = (H.mqttWriteUniqueIdField d n).length
  device : ∀ sd, H.calculateDeviceFieldSize sd = (H.mqttWriteDeviceField sd).length
  availability : ∀ dt,
    H.calculateAvailabilityFieldSize dt = (H.mqttWriteAvailabilityField dt).length
  availabilityOf : ∀ m c n,
    H.calculateAvailabilityFieldSizeOf m c n = (H.mqttWriteAvailabilityFieldOf m c n).length

/-- The availability helper reads the configuration of the entity (component,
object id, availability setting) and of the transport (discovery prefix,
device), not the calls made on the transport so far nor the answers it gave:
the log and the responses are the model's record of the transport, which the
code has no access to. -/
structure FieldHelpers.ReadsConfiguration (H : FieldHelpers) : Prop where
  availability : ∀ dt1 dt2 : BaseDeviceType,
    dt1.componentName = dt2.componentName → dt1.name = dt2.name →
    dt1.isAvailabilityConfigured = dt2.isAvailabilityConfigured →
    dt1.mqtt.discoveryPrefix = dt2.mqtt.discoveryPrefix →
    dt1.mqtt.device = dt2.mqtt.device →
    H.calculateAvailabilityFieldSize dt1 = H.calculateAvailabilityFieldSize dt2

namespace DeviceTypeSerializer

/-- Modelled from the spec: `DeviceTypeSerializer::mqttWriteConstCharField`
(body not in the tree). Following the `Field format` comments of the sources,
`"key":"[VALUE]"`, it writes the JSON prefix, the value and the closing
quote. -/
def mqttWriteConstCharField (f : Field) (jsonPrefix value : String) : Stream :=
  [(f, jsonPrefix ++ value ++ "\"")]

/-- Modelled from the spec: `DeviceTypeSerializer::mqttWriteTopicField` (body
not in the tree), after the block `HABinarySensor::writeSerializedData` spells
out for its state topic: size the topic with its terminator, give up when the
size is zero, generate it, give up when it is empty, and write it as a
constant field. -/
def mqttWriteTopicField (dt : BaseDeviceType) (jsonPrefix topicSuffix : String) :
    Bool × Stream :=
  let topicSize := calculateTopicLength dt.mqtt.discoveryPrefix dt.componentName dt.name
    topicSuffix true
  if topicSize = 0 then (false, [])
  else
    let topic := (generateTopic dt.mqtt.discoveryPrefix dt.componentName dt.name topicSuffix).1
    if topic.length = 0 then (false, [])
    else (true, mqttWriteConstCharField (.topic topicSuffix) jsonPrefix topic)

/-- Modelled from the spec: `DeviceTypeSerializer::mqttPublishMessage` (body
not in the tree), after the block `HABinarySensor::publishState` spells out:
size the topic, give up when the size is zero, generate it, give up when it is
empty, and publish the data retained. -/
def mqttPublishMessage (dt : BaseDeviceType) (topicSuffix data : String) : Bool × HAMqtt :=
  let topicSize := calculateTopicLength dt.mqtt.discoveryPrefix dt.componentName dt.name
    topicSuffix true
  if topicSize = 0 then (false, dt.mqtt)
  else
    let topic := (generateTopic dt.mqtt.discoveryPrefix dt.componentName dt.name topicSuffix).1
    if topic.length = 0 then (false, dt.mqtt)
    else dt.mqtt.publish topic data true

/-- Modelled from the spec: `DeviceTypeSerializer::mqttSubscribeTopic` (body
not in the tree): size and generate the topic as `mqttPublishMessage` does and
subscribe to it. -/
def mqttSubscribeTopic (dt : BaseDeviceType) (topicSuffix : String) : Bool × HAMqtt :=
  let topicSize := calculateTopicLength dt.mqtt.discoveryPrefix dt.componentName dt.name
    topicSuffix true
  if topicSize = 0 then (false, dt.mqtt)
  else
    let topic := (generateTopic dt.mqtt.discoveryPrefix dt.componentName dt.name topicSuffix).1
    if topic.length = 0 then (false, dt.mqtt)
    else dt.mqtt.subscribe topic

end DeviceTypeSerializer

/-- Modelled from the spec: the constructor of `BaseDeviceType` (its source is
not in the tree): a fresh entity has no distinct availability topic. -/
def BaseDeviceType.new (mqtt : HAMqtt) (componentName name : String) : BaseDeviceType :=
  ⟨mqtt, componentName, name, false⟩

/-! ## HASwitch -/

/-- The switch entity of `HASwitch.cpp`. `_stateCallback` tells whether a
callback is registered; `stateCallbackCalls` records the states it was called
with. -/
structure HASwitch where
  base : BaseDeviceType
  _stateCallback : Bool
  _currentState : Bool
  stateCallbackCalls : List Bool

namespace HASwitch

open DeviceTypeSerializer

/-- `HASwitch::HASwitch(name, initialState, mqtt)`. -/
def new (name : String) (initialState : Bool) (mqtt : HAMqtt) : HASwitch :=
  ⟨BaseDeviceType.new mqtt "switch" name, false, initialState, []⟩

/-- The entity after a transport call left the transport in state `m`. -/
def withMqtt (sw : HASwitch) (m : HAMqtt) : HASwitch :=
  { sw with base := { sw.base with mqtt := m } }

/-- `HASwitch::publishState`. -/
def publishState (sw : HASwitch) (state : Bool) : Bool × HASwitch :=
  if sw.base.name.length = 0 then (false, sw)
  else
    let r := mqttPublishMessage sw.base StateTopic (if state then StateOn else StateOff)
    (r.1, sw.withMqtt r.2)

/-- `HASwitch::setState`. -/
def setState (sw : HASwitch) (state : Bool) : Bool × HASwitch :=
  if sw._currentState = state then (true, sw)
  else
    let r := sw.publishState state
    if r.1 then
      let sw1 := { r.2 with _currentState := state }
      let sw2 :=
        if sw1._stateCallback then
          { sw1 with stateCallbackCalls := sw1.stateCallbackCalls ++ [state] }
        else sw1
      (true, sw2)
    else (false, r.2)

/-- The calculation pass of `HASwitch::calculateSerializedLength`; `none` is
an early `return 0`. -/
def calculateSerializedLengthPass (H : FieldHelpers) (sw : HASwitch)
    (serializedDevice : Option String) : Option Sizing :=
  match serializedDevice with
  | none => none
  | some sd =>
    match sw.base.mqtt.getDevice with
    | none => none
    | some device => do
      let size := Sizing.start
      let size := size.add .base H.calculateBaseJsonDataSize
      let size := size.add .name (H.calculateNameFieldSize sw.base.name)
      let size := size.add .uniqueId (H.calculateUniqueIdFieldSize (some device) sw.base.name)
      let size := size.add .device (H.calculateDeviceFieldSize sd)
      let size := size.add .availability (H.calculateAvailabilityFieldSize sw.base)
      -- cmd topic
      let size ← size.addTopic sw.base CommandTopic 10
      -- state topic
      let size ← size.addTopic sw.base StateTopic 12
      pure size

/-- `HASwitch::calculateSerializedLength`. -/
def calculateSerializedLength (H : FieldHelpers) (sw : HASwitch)
    (serializedDevice : Option String) : Nat :=
  match calculateSerializedLengthPass H sw serializedDevice with
  | none => 0
  | some size => size.size

/-- `HASwitch::writeSerializedData`: the returned value and what was written. -/
def writeSerializedData (H : FieldHelpers) (sw : HASwitch)
    (serializedDevice : Option String) : Bool × Stream :=
  match serializedDevice with
  | none => (false, [])
  | some sd =>
    let out : Stream := [(.beginJson, H.mqttWriteBeginningJson)]
    -- command topic
    let out := out ++ (mqttWriteTopicField sw.base "\"cmd_t\":\"" CommandTopic).2
    -- state topic
    let out := out ++ (mqttWriteTopicField sw.base ",\"stat_t\":\"" StateTopic).2
    let out := out ++ [(.name, H.mqttWriteNameField sw.base.name)]
    let out := out ++ [(.uniqueId, H.mqttWriteUniqueIdField sw.base.mqtt.getDevice sw.base.name)]
    let out := out ++ [(.availability, H.mqttWriteAvailabilityField sw.base)]
    let out := out ++ [(.device, H.mqttWriteDeviceField sd)]
    let out := out ++ [(.endJson, H.mqttWriteEndJson)]
    (true, out)

end HASwitch

/-! ## HABinarySensor -/

/-- The binary sensor entity of `HABinarySensor.cpp`. -/
structure HABinarySensor where
  base : BaseDeviceType
  _class : Option String
  _currentState : Bool

namespace HABinarySensor

open DeviceTypeSerializer

/-- `HABinarySensor::HABinarySensor(name, initialState, mqtt)`. -/
def new (name : String) (initialState : Bool) (mqtt : HAMqtt) : HABinarySensor :=
  ⟨BaseDeviceType.new mqtt "binary_sensor" name, none, initialState⟩

/-- `HABinarySensor::HABinarySensor(name, deviceClass, initialState, mqtt)`. -/
def newWithClass (name : String) (deviceClass : Option String) (initialState : Bool)
    (mqtt : HAMqtt) : HABinarySensor :=
  ⟨BaseDeviceType.new mqtt "binary_sensor" name, deviceClass, initialState⟩

/-- The entity after a transport call left the transport in state `m`. -/
def withMqtt (bs : HABinarySensor) (m : HAMqtt) : HABinarySensor :=
  { bs with base := { bs.base with mqtt := m } }

/-- `HABinarySensor::publishState`. -/
def publishState (bs : HABinarySensor) (state : Bool) : Bool × HABinarySensor :=
  if bs.base.name.length = 0 then (false, bs)
  else
    let topicSize := calculateTopicLength bs.base.mqtt.discoveryPrefix bs.base.componentName
      bs.base.name StateTopic true
    if topicSize = 0 then (false, bs)
    else
      let topic := (generateTopic bs.base.mqtt.discoveryPrefix bs.base.componentName
        bs.base.name StateTopic).1
      if topic.length = 0 then (false, bs)
      else
        let r := bs.base.mqtt.publish topic (if state then StateOn else StateOff) true
        (r.1, bs.withMqtt r.2)

/-- `HABinarySensor::setState`. -/
def setState (bs : HABinarySensor) (state : Bool) : Bool × HABinarySensor :=
  if state = bs._currentState then (true, bs)
  else if bs.base.name.length = 0 then (false, bs)
  else
    let r := bs.publishState state
    if r.1 then (true, { r.2 with _currentState := state })
    else (false, r.2)

/-- The calculation pass of `HABinarySensor::calculateSerializedLength`;
`none` is an early `return 0`. -/
def calculateSerializedLengthPass (H : FieldHelpers) (bs : HABinarySensor)
    (serializedDevice : Option String) : Option Sizing :=
  match serializedDevice with
  | none => none
  | some sd =>
    match bs.base.mqtt.getDevice with
    | none => none
    | some device => do
      let size := Sizing.start
      let size := size.add .base H.calculateBaseJsonDataSize
      let size := size.add .name (H.calculateNameFieldSize bs.base.name)
      let size := size.add .uniqueId (H.calculateUniqueIdFieldSize (some device) bs.base.name)
      let size := size.add .device (H.calculateDeviceFieldSize sd)
      let size :=
        if bs.base.isAvailabilityConfigured then
          size.add .availability (H.calculateAvailabilityFieldSizeOf bs.base.mqtt
            bs.base.componentName bs.base.name)
        else size
      -- state topic
      let size ← size.addTopic bs.base StateTopic 11
      -- device class
      let size :=
        match bs._class with
        | some cls => size.add .deviceClass (cls.length + 13)
        | none => size
      pure size

/-- `HABinarySensor::calculateSerializedLength`. -/
def calculateSerializedLength (H : FieldHelpers) (bs : HABinarySensor)
    (serializedDevice : Option String) : Nat :=
  match calculateSerializedLengthPass H bs serializedDevice with
  | none => 0
  | some size => size.size

/-- `HABinarySensor::writeSerializedData`: the returned value and what was
written; a block the code skips writes nothing. -/
def writeSerializedData (H : FieldHelpers) (bs : HABinarySensor)
    (serializedDevice : Option String) : Bool × Stream :=
  match serializedDevice with
  | none => (false, [])
  | some sd =>
    let out : Stream := [(.beginJson, H.mqttWriteBeginningJson)]
    -- state topic
    let topicSize := calculateTopicLength bs.base.mqtt.discoveryPrefix bs.base.componentName
      bs.base.name StateTopic true
    if topicSize = 0 then (false, out)
    else
      let topic := (generateTopic bs.base.mqtt.discoveryPrefix bs.base.componentName
        bs.base.name StateTopic).1
      if topic.length = 0 then (false, out)
      else
        let out := out ++ mqttWriteConstCharField (.topic StateTopic) "\"stat_t\":\"" topic
        -- device class
        let out := out ++
          (match bs._class with
          | some cls => mqttWriteConstCharField .deviceClass ",\"dev_cla\":\"" cls
          | none => [])
        let out := out ++ [(.name, H.mqttWriteNameField bs.base.name)]
        let out := out ++
          [(.uniqueId, H.mqttWriteUniqueIdField bs.base.mqtt.getDevice bs.base.name)]
        let out := out ++
          (if bs.base.isAvailabilityConfigured then
            [(.availability, H.mqttWriteAvailabilityFieldOf bs.base.mqtt
              bs.base.componentName bs.base.name)]
          else [])
        let out := out ++ [(.device, H.mqttWriteDeviceField sd)]
        let out := out ++ [(.endJson, H.mqttWriteEndJson)]
        (true, out)

end HABinarySensor

/-! ## HAHVAC -/

/-- Modelled from the spec: `HAHVAC::Action` (declared in the missing
`HAHVAC.h`): the six actions of the state machine; `invalid` stands for any
other value an `Action` variable may hold. -/
inductive Action where
  | OffAction : Action
  | HeatingAction : Action
  | CoolingAction : Action
  | DryingAction : Action
  | IdleAction : Action
  | FanAction : Action
  | invalid (raw : Nat) : Action
deriving DecidableEq, Repr

/-- Modelled from the spec: `HAHVAC::TemperatureUnit` (declared in the missing
`HAHVAC.h`). -/
inductive TemperatureUnit where
  | DefaultUnit : TemperatureUnit
  | CelsiusUnit : TemperatureUnit
  | FahrenheitUnit : TemperatureUnit
deriving DecidableEq, Repr

/-- A call of one of the climate callbacks, with its argument. -/
inductive HVACCallbackCall where
  | auxHeating (state : Bool) : HVACCallbackCall
  | away (state : Bool) : HVACCallbackCall
  | hold (state : Bool) : HVACCallbackCall
  | targetTemp (temperature : Double) : HVACCallbackCall
deriving DecidableEq

/-- The climate entity of `HAHVAC.cpp`. A `...Callback` field tells whether
that callback is registered; `callbackCalls` records the calls made. -/
structure HAHVAC where
  base : BaseDeviceType
  _uniqueId : Option String
  _features : Nat
  _temperatureUnit : TemperatureUnit
  _action : Action
  _auxHeatingCallback : Bool
  _auxHeatingState : Bool
  _awayCallback : Bool
  _awayState : Bool
  _holdCallback : Bool
  _holdState : Bool
  _currentTemperature : Double
  _minTemp : Double
  _maxTemp : Double
  _tempStep : Double
  _targetTemperature : Double
  _targetTempCallback : Bool
  _label : Option String
  callbackCalls : List HVACCallbackCall

namespace HAHVAC

open DeviceTypeSerializer

/-- `HAHVAC::ActionTopic`. -/
def ActionTopic : String := "at"

/-- `HAHVAC::AuxCommandTopic`. -/
def AuxCommandTopic : String := "act"

/-- `HAHVAC::AuxStateTopic`. -/
def AuxStateTopic : String := "ast"

/-- `HAHVAC::AwayCommandTopic`. -/
def AwayCommandTopic : String := "amct"

/-- `HAHVAC::AwayStateTopic`. -/
def AwayStateTopic : String := "amst"

/-- `HAHVAC::HoldCommandTopic`. -/
def HoldCommandTopic : String := "hct"

/-- `HAHVAC::HoldStateTopic`. -/
def HoldStateTopic : String := "hst"

/-- `HAHVAC::TargetTemperatureCommandTopic`. -/
def TargetTemperatureCommandTopic : String := "ttct"

/-- `HAHVAC::TargetTemperatureStateTopic`. -/
def TargetTemperatureStateTopic : String := "ttst"

/-- `HAHVAC::CurrentTemperatureTopic`. -/
def CurrentTemperatureTopic : String := "ctt"

/-- Modelled from the spec: `HAHVAC::AuxHeatingFeature` (declared in the
missing `HAHVAC.h`); the four feature flags are independent bits. -/
def AuxHeatingFeature : Nat := 1

/-- Modelled from the spec: `HAHVAC::AwayModeFeature`. -/
def AwayModeFeature : Nat := 2

/-- Modelled from the spec: `HAHVAC::HoldFeature`. -/
def HoldFeature : Nat := 4

/-- Modelled from the spec: `HAHVAC::CurrentTemperatureFeature`. -/
def CurrentTemperatureFeature : Nat := 8

/-- The test `_features & flag`. -/
def hasFeature (h : HAHVAC) (flag : Nat) : Bool := (h._features &&& flag) != 0

/-- `HAHVAC::HAHVAC(uniqueId, features, mqtt)`. -/
def new (uniqueId : String) (features : Nat) (mqtt : HAMqtt) : HAHVAC :=
  { base := BaseDeviceType.new mqtt "climate" uniqueId
    _uniqueId := some uniqueId
    _features := features
    _temperatureUnit := .DefaultUnit
    _action := .OffAction
    _auxHeatingCallback := false
    _auxHeatingState := false
    _awayCallback := false
    _awayState := false
    _holdCallback := false
    _holdState := false
    _currentTemperature := .ofInt 255
    _minTemp := .ofInt 255
    _maxTemp := .ofInt 255
    _tempStep := .ofInt 1
    _targetTemperature := .ofInt 255
    _targetTempCallback := false
    _label := none
    callbackCalls := [] }

/-- The entity after a transport call left the transport in state `m`. -/
def withMqtt (h : HAHVAC) (m : HAMqtt) : HAHVAC :=
  { h with base := { h.base with mqtt := m } }

/-- The `switch` of `HAHVAC::publishAction`: the string copied into
`actionStr`, or `none` in the `default` case. -/
def actionStr : Action → Option String
  | .OffAction => some "off"
  | .HeatingAction => some "heating"
  | .CoolingAction => some "cooling"
  | .DryingAction => some "drying"
  | .IdleAction => some "idle"
  | .FanAction => some "fan"
  | .invalid _ => none

/-- `HAHVAC::publishAction`. -/
def publishAction (h : HAHVAC) (action : Action) : Bool × HAHVAC :=
  if h.base.name.length = 0 then (false, h)
  else
    match actionStr action with
    | none => (false, h)
    | some str =>
      let r := mqttPublishMessage h.base ActionTopic str
      (r.1, h.withMqtt r.2)

/-- `HAHVAC::publishAuxHeatingState`. -/
def publishAuxHeatingState (h : HAHVAC) (state : Bool) : Bool × HAHVAC :=
  if !(h.hasFeature AuxHeatingFeature) || h.base.name.length = 0 then (false, h)
  else
    let r := mqttPublishMessage h.base AuxStateTopic (if state then StateOn else StateOff)
    (r.1, h.withMqtt r.2)

/-- `HAHVAC::publishAwayState`. -/
def publishAwayState (h : HAHVAC) (state : Bool) : Bool × HAHVAC :=
  if !(h.hasFeature AwayModeFeature) || h.base.name.length = 0 then (false, h)
  else
    let r := mqttPublishMessage h.base AwayStateTopic (if state then StateOn else StateOff)
    (r.1, h.withMqtt r.2)

/-- `HAHVAC::publishHoldState`. -/
def publishHoldState (h : HAHVAC) (state : Bool) : Bool × HAHVAC :=
  if !(h.hasFeature HoldFeature) || h.base.name.length = 0 then (false, h)
  else
    let r := mqttPublishMessage h.base HoldStateTopic (if state then StateOn else StateOff)
    (r.1, h.withMqtt r.2)

/-- `HAHVAC::publishCurrentTemperature`. -/
def publishCurrentTemperature (H : FieldHelpers) (h : HAHVAC) (temperature : Double) :
    Bool × HAHVAC :=
  if !(h.hasFeature CurrentTemperatureFeature) || h.base.name.length = 0 then (false, h)
  else if Double.ge temperature (.ofInt 255) then (false, h)
  else
    let str := H.tempToStr temperature
    let r := mqttPublishMessage h.base CurrentTemperatureTopic str
    (r.1, h.withMqtt r.2)

/-- `HAHVAC::publishTargetTemperature`. -/
def publishTargetTemperature (H : FieldHelpers) (h : HAHVAC) (temperature : Double) :
    Bool × HAHVAC :=
  if h.base.name.length = 0 then (false, h)
  else if Double.ge temperature (.ofInt 255) then (false, h)
  else
    let str := H.tempToStr temperature
    let r := mqttPublishMessage h.base TargetTemperatureStateTopic str
    (r.1, h.withMqtt r.2)

/-- `HAHVAC::setAction`. -/
def setAction (h : HAHVAC) (action : Action) : Bool × HAHVAC :=
  if h._action = action then (true, h)
  else
    let r := h.publishAction action
    if r.1 then (true, { r.2 with _action := action })
    else (false, r.2)

/-- `HAHVAC::setAuxHeatingState`. -/
def setAuxHeatingState (h : HAHVAC) (state : Bool) : Bool × HAHVAC :=
  if !(h.hasFeature AuxHeatingFeature) then (false, h)
  else if h._auxHeatingState = state then (true, h)
  else
    let r := h.publishAuxHeatingState state
    if r.1 then
      let h1 := { r.2 with _auxHeatingState := state }
      let h2 :=
        if h1._auxHeatingCallback then
          { h1 with callbackCalls := h1.callbackCalls ++ [.auxHeating h1._auxHeatingState] }
        else h1
      (true, h2)
    else (false, r.2)

/-- `HAHVAC::setAwayState`. The guard on the feature ends in a bare `return;`:
no value is returned there. -/
def setAwayState (h : HAHVAC) (state : Bool) : Option Bool × HAHVAC :=
  if !(h.hasFeature AwayModeFeature) then (none, h)
  else if h._awayState = state then (some true, h)
  else
    let r := h.publishAwayState state
    if r.1 then
      let h1 := { r.2 with _awayState := state }
      let h2 :=
        if h1._awayCallback then
          { h1 with callbackCalls := h1.callbackCalls ++ [.away h1._awayState] }
        else h1
      (some true, h2)
    else (some false, r.2)

/-- `HAHVAC::setHoldState`. The guard on the feature ends in a bare `return;`:
no value is returned there. -/
def setHoldState (h : HAHVAC) (state : Bool) : Option Bool × HAHVAC :=
  if !(h.hasFeature HoldFeature) then (none, h)
  else if h._holdState = state then (some true, h)
  else
    let r := h.publishHoldState state
    if r.1 then
      let h1 := { r.2 with _holdState := state }
      let h2 :=
        if h1._holdCallback then
          { h1 with callbackCalls := h1.callbackCalls ++ [.hold h1._holdState] }
        else h1
      (some true, h2)
    else (some false, r.2)

/-- `HAHVAC::setCurrentTemperature`. The guard on the feature ends in a bare
`return;`: no value is returned there. -/
def setCurrentTemperature (H : FieldHelpers) (h : HAHVAC) (temperature : Double) :
    Option Bool × HAHVAC :=
  if !(h.hasFeature CurrentTemperatureFeature) then (none, h)
  else if Double.eq h._currentTemperature temperature then (some true, h)
  else
    let r := h.publishCurrentTemperature H temperature
    if r.1 then (some true, { r.2 with _currentTemperature := temperature })
    else (some false, r.2)

/-- `HAHVAC::setMinTemp`. -/
def setMinTemp (h : HAHVAC) (minTemp : Double) : Bool × HAHVAC :=
  if Double.ge minTemp (.ofInt 255) || Double.le minTemp (.ofInt (-255)) then (false, h)
  else (true, { h with _minTemp := minTemp })

/-- `HAHVAC::setMaxTemp`. -/
def setMaxTemp (h : HAHVAC) (maxTemp : Double) : Bool × HAHVAC :=
  if Double.ge maxTemp (.ofInt 255) || Double.le maxTemp (.ofInt (-255)) then (false, h)
  else (true, { h with _maxTemp := maxTemp })

/-- `HAHVAC::setTempStep`. -/
def setTempStep (h : HAHVAC) (tempStep : Double) : Bool × HAHVAC :=
  if Double.le tempStep (.ofInt 0) || Double.ge tempStep (.ofInt 255) then (false, h)
  else (true, { h with _tempStep := tempStep })

/-- `HAHVAC::setTargetTemperature`. -/
def setTargetTemperature (H : FieldHelpers) (h : HAHVAC) (temperature : Double) :
    Bool × HAHVAC :=
  if Double.eq h._targetTemperature temperature then (true, h)
  else
    let r := h.publishTargetTemperature H temperature
    if r.1 then
      let h1 := { r.2 with _targetTemperature := temperature }
      let h2 :=
        if h1._targetTempCallback then
          { h1 with callbackCalls := h1.callbackCalls ++ [.targetTemp h1._targetTemperature] }
        else h1
      (true, h2)
    else (false, r.2)

/-- The calculation pass of `HAHVAC::calculateSerializedLength`; `none` is an
early `return 0`. -/
def calculateSerializedLengthPass (H : FieldHelpers) (h : HAHVAC)
    (serializedDevice : Option String) : Option Sizing :=
  match serializedDevice, h._uniqueId with
  | some sd, some uniqueId =>
    match h.base.mqtt.getDevice with
    | none => none
    | some _ => do
      let size := Sizing.start
      let size := size.add .base H.calculateBaseJsonDataSize
      let size := size.add .uniqueId (H.calculateUniqueIdFieldSize h.base.mqtt.getDevice uniqueId)
      let size := size.add .device (H.calculateDeviceFieldSize sd)
      let size := size.add .availability (H.calculateAvailabilityFieldSize h.base)
      -- action topic
      let size ← size.addTopic h.base ActionTopic 10
      -- aux heating
      let size ←
        (if h.hasFeature AuxHeatingFeature then do
          let size ← size.addTopic h.base AuxCommandTopic 15
          size.addTopic h.base AuxStateTopic 16
        else pure size)
      -- away mode
      let size ←
        (if h.hasFeature AwayModeFeature then do
          let size ← size.addTopic h.base AwayCommandTopic 21
          size.addTopic h.base AwayStateTopic 22
        else pure size)
      -- hold
      let size ←
        (if h.hasFeature HoldFeature then do
          let size ← size.addTopic h.base HoldCommandTopic 16
          size.addTopic h.base HoldStateTopic 17
        else pure size)
      -- current temperature
      let size ←
        (if h.hasFeature CurrentTemperatureFeature then
          size.addTopic h.base CurrentTemperatureTopic 17
        else pure size)
      -- min temp
      let size :=
        if Double.ne h._minTemp (.ofInt 255) then
          size.add .minTemp ((H.tempToStr h._minTemp).length + 14)
        else size
      -- max temp
      let size :=
        if Double.ne h._maxTemp (.ofInt 255) then
          size.add .maxTemp ((H.tempToStr h._maxTemp).length + 14)
        else size
      -- temp step
      let size := size.add .tempStep ((H.tempToStr h._tempStep).length + 15)
      -- name
      let size :=
        match h._label with
        | some label => size.add .label (label.length + 10)
        | none => size
      -- target temperature
      let size ← size.addTopic h.base TargetTemperatureCommandTopic 16
      let size ← size.addTopic h.base TargetTemperatureStateTopic 17
      -- temperature unit
      let size :=
        if h._temperatureUnit ≠ .DefaultUnit then size.add .temperatureUnit (15 + 1)
        else size
      pure size
  | _, _ => none

/-- `HAHVAC::calculateSerializedLength`. -/
def calculateSerializedLength (H : FieldHelpers) (h : HAHVAC)
    (serializedDevice : Option String) : Nat :=
  match calculateSerializedLengthPass H h serializedDevice with
  | none => 0
  | some size => size.size

/-- `HAHVAC::writeSerializedData`: the returned value and what was written; a
block the code skips writes nothing. The body ends without a `return`
statement, so after writing the document no value is returned. -/
def writeSerializedData (H : FieldHelpers) (h : HAHVAC)
    (serializedDevice : Option String) : Option Bool × Stream :=
  match serializedDevice, h._uniqueId with
  | some sd, some uniqueId =>
    let out : Stream := [(.beginJson, H.mqttWriteBeginningJson)]
    -- action topic
    let out := out ++ (mqttWriteTopicField h.base "\"act_t\":\"" ActionTopic).2
    -- aux heating
    let out := out ++
      (if h.hasFeature AuxHeatingFeature then
        (mqttWriteTopicField h.base ",\"aux_cmd_t\":\"" AuxCommandTopic).2
          ++ (mqttWriteTopicField h.base ",\"aux_stat_t\":\"" AuxStateTopic).2
      else [])
    -- away mode
    let out := out ++
      (if h.hasFeature AwayModeFeature then
        (mqttWriteTopicField h.base ",\"away_mode_cmd_t\":\"" AwayCommandTopic).2
          ++ (mqttWriteTopicField h.base ",\"away_mode_stat_t\":\"" AwayStateTopic).2
      else [])
    -- hold
    let out := out ++
      (if h.hasFeature HoldFeature then
        (mqttWriteTopicField h.base ",\"hold_cmd_t\":\"" HoldCommandTopic).2
          ++ (mqttWriteTopicField h.base ",\"hold_stat_t\":\"" HoldStateTopic).2
      else [])
    -- current temperature topic
    let out := out ++
      (if h.hasFeature CurrentTemperatureFeature then
        (mqttWriteTopicField h.base ",\"curr_temp_t\":\"" CurrentTemperatureTopic).2
      else [])
    -- min temp
    let out := out ++
      (if Double.ne h._minTemp (.ofInt 255) then
        mqttWriteConstCharField .minTemp ",\"min_temp\":\"" (H.tempToStr h._minTemp)
      else [])
    -- max temp
    let out := out ++
      (if Double.ne h._maxTemp (.ofInt 255) then
        mqttWriteConstCharField .maxTemp ",\"max_temp\":\"" (H.tempToStr h._maxTemp)
      else [])
    -- temp step
    let out := out ++
      mqttWriteConstCharField .tempStep ",\"temp_step\":\"" (H.tempToStr h._tempStep)
    -- label (name)
    let out := out ++
      (match h._label with
      | some label => mqttWriteConstCharField .label ",\"name\":\"" label
      | none => [])
    -- target temperature
    let out := out ++
      (mqttWriteTopicField h.base ",\"temp_cmd_t\":\"" TargetTemperatureCommandTopic).2
    let out := out ++
      (mqttWriteTopicField h.base ",\"temp_stat_t\":\"" TargetTemperatureStateTopic).2
    -- temperature unit
    let out := out ++
      (if h._temperatureUnit ≠ .DefaultUnit then
        mqttWriteConstCharField .temperatureUnit ",\"temp_unit\":\""
          (if h._temperatureUnit = .CelsiusUnit then "C" else "F")
      else [])
    let out := out ++ [(.uniqueId, H.mqttWriteUniqueIdField h.base.mqtt.getDevice uniqueId)]
    let out := out ++ [(.availability, H.mqttWriteAvailabilityField h.base)]
    let out := out ++ [(.device, H.mqttWriteDeviceField sd)]
    let out := out ++ [(.endJson, H.mqttWriteEndJson)]
    (none, out)
  | _, _ => (some false, [])

end HAHVAC

/-! ## Connection and inbound messages -/

namespace HAMqtt

/-- The transport after the calls `ops` were made on it. -/
def appendLog (m : HAMqtt) (ops : List MqttOp) : HAMqtt :=
  { m with log := m.log ++ ops }

/-- The `writePayload` calls of a write pass, one per write of the pass. -/
def writeStream (m : HAMqtt) (out : Stream) : HAMqtt :=
  out.foldl (fun acc p => acc.writePayload p.2) m

/-- The calls `ops`, made after the calls `done`, each with the result the
transport gave it. -/
def resultsFrom (respond : List MqttOp → MqttOp → Bool) (done : List MqttOp) :
    List MqttOp → List (MqttOp × Bool)
  | [] => []
  | op :: rest => (op, respond done op) :: resultsFrom respond (done ++ [op]) rest

/-- The calls made on the transport so far, each with the result it got. -/
def results (m : HAMqtt) : List (MqttOp × Bool) :=
  resultsFrom m.respond [] m.log

end HAMqtt

/-- A call that belongs to the streaming triplet of a discovery document:
begin, write, end. -/
def MqttOp.isDiscovery : MqttOp → Bool
  | .beginPublish _ _ _ => true
  | .writePayload _ => true
  | .endPublish => true
  | _ => false

namespace HAUtils

/-- Modelled from the spec: `HAUtils::endsWith` (its source is not in the
tree): whether the string `str` ends with `suffix`. -/
def endsWith (str suffix : String) : Bool :=
  suffix.data.isSuffixOf str.data

end HAUtils

namespace BaseDeviceType

open DeviceTypeSerializer

/-- Modelled from the spec: `BaseDeviceType::publishAvailability` (its source
is not in the tree). An entity that reports to a distinct availability topic
publishes its availability literal there, retained; any other entity sends
nothing. The literal (`DeviceTypeSerializer::Online` or `Offline`, whose values
and choice are not in the tree) is the argument `availability`. -/
def publishAvailability (dt : BaseDeviceType) (availability : String) : HAMqtt :=
  if dt.isAvailabilityConfigured then
    (mqttPublishMessage dt AvailabilityTopic availability).2
  else dt.mqtt

/-- Modelled from the spec: `BaseDeviceType::isMyTopic` (its source is not in
the tree), the command router of section 4.4: the topic ends with the object id
and the expected suffix, each after a slash, as `HASwitch::onMqttMessage`
spells the test out; an entity with an empty object id matches nothing. -/
def isMyTopic (dt : BaseDeviceType) (topic expectedTopic : String) : Bool :=
  if dt.name.length = 0 then false
  else HAUtils.endsWith topic ("/" ++ dt.name ++ "/" ++ expectedTopic)

end BaseDeviceType

namespace HASwitch

open DeviceTypeSerializer

/-- `HASwitch::publishConfig`. -/
def publishConfig (H : FieldHelpers) (sw : HASwitch) : HASwitch :=
  match sw.base.mqtt.getDevice with
  | none => sw
  | some device =>
    let deviceLength := device.calculateSerializedLength
    if deviceLength = 0 then sw
    else
      let serializedDevice := device.serialize.1
      if device.serialize.2 = 0 then sw
      else
        let topicLength := calculateTopicLength sw.base.mqtt.discoveryPrefix
          sw.base.componentName sw.base.name ConfigTopic true
        let dataLength := sw.calculateSerializedLength H (some serializedDevice)
        if topicLength = 0 ∨ dataLength = 0 then sw
        else
          let topic := (generateTopic sw.base.mqtt.discoveryPrefix sw.base.componentName
            sw.base.name ConfigTopic).1
          if topic.length = 0 then sw
          else
            let r := sw.base.mqtt.beginPublish topic dataLength true
            if r.1 then
              let sw1 := sw.withMqtt r.2
              let w := sw1.writeSerializedData H (some serializedDevice)
              let sw2 := sw1.withMqtt (sw1.base.mqtt.writeStream w.2)
              sw2.withMqtt sw2.base.mqtt.endPublish
            else sw.withMqtt r.2

/-- `HASwitch::onMqttConnected`; `availability` is the literal
`publishAvailability` would send. -/
def onMqttConnected (H : FieldHelpers) (availability : String) (sw : HASwitch) : HASwitch :=
  if sw.base.name.length = 0 then sw
  else
    let sw1 := sw.publishConfig H
    let sw2 := (sw1.publishState sw1._currentState).2
    let sw3 := sw2.withMqtt (sw2.base.publishAvailability availability)
    sw3.withMqtt (mqttSubscribeTopic sw3.base CommandTopic).2

/-- The `uint8_t suffixLength` of `HASwitch::onMqttMessage`, the declared size
of the buffer `suffix`. -/
def suffixLength (sw : HASwitch) : Nat :=
  u8 (sw.base.name.length + CommandTopic.length + 3)

/-- The string `HASwitch::onMqttMessage` builds in `suffix`: a slash, the
object id, a slash, the command suffix. -/
def commandSuffix (sw : HASwitch) : String :=
  "/" ++ sw.base.name ++ "/" ++ CommandTopic

/-- `HASwitch::onMqttMessage`. The buffer `char suffix[suffixLength]` is
filled before the topic is tested; when the string built in it does not fit,
the copy overruns the buffer and the outcome is undefined. -/
def onMqttMessage (sw : HASwitch) (topic _payload : String) (length : Nat) :
    Outcome HASwitch :=
  if sw.base.name.length = 0 then .returned sw
  else
    let suffixLength := sw.suffixLength
    match copyToBuffer suffixLength sw.commandSuffix with
    | none => .undefined sw
    | some suffix =>
      if HAUtils.endsWith topic suffix then
        let onState := decide (length = StateOn.length)
        .returned (sw.setState onState).2
      else .returned sw

end HASwitch

/-- A call on a switch from outside: a (re)connection, a state change or an
inbound message. -/
inductive SwitchCall where
  | onMqttConnected : SwitchCall
  | setState (state : Bool) : SwitchCall
  | onMqttMessage (topic payload : String) (length : Nat) : SwitchCall

namespace HASwitch

open DeviceTypeSerializer

/-- One call on the switch. -/
def step (H : FieldHelpers) (availability : String) (sw : HASwitch) :
    SwitchCall → Outcome HASwitch
  | .onMqttConnected => .returned (sw.onMqttConnected H availability)
  | .setState state => .returned (sw.setState state).2
  | .onMqttMessage topic payload length => sw.onMqttMessage topic payload length

/-- A sequence of calls on the switch, one after the other; a call is made when
the calls before it returned. -/
def run (H : FieldHelpers) (availability : String) (sw : HASwitch) :
    List SwitchCall → Outcome HASwitch
  | [] => .returned sw
  | call :: calls => (step H availability sw call).andThen fun sw1 => run H availability sw1 calls

/-- The state topic of the switch. -/
def stateTopic (sw : HASwitch) : String :=
  (generateTopic sw.base.mqtt.discoveryPrefix sw.base.componentName sw.base.name StateTopic).1

/-- The payload of a successful publish to the topic `topic`. -/
def publishedOn (topic : String) : MqttOp × Bool → Option String
  | (.publish t payload _, true) => if t = topic then some payload else none
  | _ => none

/-- The state payloads that were successfully published, oldest first: what
the hub has seen of the state of the switch. -/
def publishedStates (sw : HASwitch) : List String :=
  sw.base.mqtt.results.filterMap (publishedOn sw.stateTopic)

end HASwitch

namespace HABinarySensor

open DeviceTypeSerializer

/-- `HABinarySensor::publishConfig`. -/
def publishConfig (H : FieldHelpers) (bs : HABinarySensor) : HABinarySensor :=
  match bs.base.mqtt.getDevice with
  | none => bs
  | some device =>
    let deviceLength := device.calculateSerializedLength
    if deviceLength = 0 then bs
    else
      let serializedDevice := device.serialize.1
      if device.serialize.2 = 0 then bs
      else
        let topicLength := calculateTopicLength bs.base.mqtt.discoveryPrefix
          bs.base.componentName bs.base.name ConfigTopic true
        let dataLength := bs.calculateSerializedLength H (some serializedDevice)
        if topicLength = 0 ∨ dataLength = 0 then bs
        else
          let topic := (generateTopic bs.base.mqtt.discoveryPrefix bs.base.componentName
            bs.base.name ConfigTopic).1
          if topic.length = 0 then bs
          else
            let r := bs.base.mqtt.beginPublish topic dataLength true
            if r.1 then
              let bs1 := bs.withMqtt r.2
              let w := bs1.writeSerializedData H (some serializedDevice)
              let bs2 := bs1.withMqtt (bs1.base.mqtt.writeStream w.2)
              bs2.withMqtt bs2.base.mqtt.endPublish
            else bs.withMqtt r.2

/-- `HABinarySensor::onMqttConnected`; `availability` is the literal
`publishAvailability` would send. -/
def onMqttConnected (H : FieldHelpers) (availability : String) (bs : HABinarySensor) :
    HABinarySensor :=
  if bs.base.name.length = 0 then bs
  else
    let bs1 := bs.publishConfig H
    let bs2 := (bs1.publishState bs1._currentState).2
    bs2.withMqtt (bs2.base.publishAvailability availability)

end HABinarySensor

namespace HAHVAC

open DeviceTypeSerializer

/-- `HAHVAC::publishConfig`. After an accepted begin-publish it calls
`writeSerializedData`; when that call writes the document and runs off its end
without a `return` statement, the outcome is undefined after the writes, and
`endPublish` is reached only when `writeSerializedData` returned a value. -/
def publishConfig (H : FieldHelpers) (h : HAHVAC) : Outcome HAHVAC :=
  match h.base.mqtt.getDevice with
  | none => .returned h
  | some device =>
    let deviceLength := device.calculateSerializedLength
    if deviceLength = 0 then .returned h
    else
      let serializedDevice := device.serialize.1
      if device.serialize.2 = 0 then .returned h
      else
        let topicLength := calculateTopicLength h.base.mqtt.discoveryPrefix
          h.base.componentName h.base.name ConfigTopic true
        let dataLength := h.calculateSerializedLength H (some serializedDevice)
        if topicLength = 0 ∨ dataLength = 0 then .returned h
        else
          let topic := (generateTopic h.base.mqtt.discoveryPrefix h.base.componentName
            h.base.name ConfigTopic).1
          if topic.length = 0 then .returned h
          else
            let r := h.base.mqtt.beginPublish topic dataLength true
            if r.1 then
              let h1 := h.withMqtt r.2
              let w := h1.writeSerializedData H (some serializedDevice)
              let h2 := h1.withMqtt (h1.base.mqtt.writeStream w.2)
              match w.1 with
              | none => .undefined h2
              | some _ => .returned (h2.withMqtt h2.base.mqtt.endPublish)
            else .returned (h.withMqtt r.2)

/-- `HAHVAC::subscribeTopics`. -/
def subscribeTopics (h : HAHVAC) : HAHVAC :=
  -- aux heating
  let h1 :=
    if h.hasFeature AuxHeatingFeature then
      h.withMqtt (mqttSubscribeTopic h.base AuxCommandTopic).2
    else h
  -- away mode
  let h2 :=
    if h1.hasFeature AwayModeFeature then
      h1.withMqtt (mqttSubscribeTopic h1.base AwayCommandTopic).2
    else h1
  -- hold
  let h3 :=
    if h2.hasFeature HoldFeature then
      h2.withMqtt (mqttSubscribeTopic h2.base HoldCommandTopic).2
    else h2
  h3.withMqtt (mqttSubscribeTopic h3.base TargetTemperatureCommandTopic).2

/-- `HAHVAC::onMqttConnected`. The statements after `publishConfig()` run when
that call returned. -/
def onMqttConnected (H : FieldHelpers) (h : HAHVAC) : Outcome HAHVAC :=
  if h.base.name.length = 0 then .returned h
  else
    (h.publishConfig H).andThen fun h1 =>
      let h2 := (h1.publishAction h1._action).2
      let h3 := (h2.publishAuxHeatingState h2._auxHeatingState).2
      let h4 := (h3.publishAwayState h3._awayState).2
      let h5 := (h4.publishHoldState h4._holdState).2
      let h6 := (h5.publishCurrentTemperature H h5._currentTemperature).2
      let h7 := (h6.publishTargetTemperature H h6._targetTemperature).2
      .returned h7.subscribeTopics

/-- `HAHVAC::onMqttMessage`. `strToTemp` is `HAUtils::strToTemp`, whose source
is not in the tree; it is applied to the first `length` bytes of the
payload. -/
def onMqttMessage (H : FieldHelpers) (strToTemp : String → Double) (h : HAHVAC)
    (topic payload : String) (length : Nat) : HAHVAC :=
  if h.base.isMyTopic topic AuxCommandTopic then
    let state := decide (length = StateOn.length)
    (h.setAuxHeatingState state).2
  else if h.base.isMyTopic topic AwayCommandTopic then
    let state := decide (length = StateOn.length)
    (h.setAwayState state).2
  else if h.base.isMyTopic topic HoldCommandTopic then
    let state := decide (length = StateOn.length)
    (h.setHoldState state).2
  else if h.base.isMyTopic topic TargetTemperatureCommandTopic then
    let src := payload.take length
    (h.setTargetTemperature H (strToTemp src)).2
  else h

end HAHVAC

namespace DeviceTypeSerializer

/-- The calls `mqttPublishMessage` makes on the transport: the retained
publish, or none when the size of the topic is zero. -/
def publishCalls (dt : BaseDeviceType) (topicSuffix data : String) : List MqttOp :=
  if calculateTopicLength dt.mqtt.discoveryPrefix dt.componentName dt.name topicSuffix true = 0
  then []
  else [.publish (generateTopic dt.mqtt.discoveryPrefix dt.componentName dt.name
    topicSuffix).1 data true]

/-- The calls `mqttSubscribeTopic` makes on the transport: the subscription, or
none when the size of the topic is zero. -/
def subscribeCalls (dt : BaseDeviceType) (topicSuffix : String) : List MqttOp :=
  if calculateTopicLength dt.mqtt.discoveryPrefix dt.componentName dt.name topicSuffix true = 0
  then []
  else [.subscribe (generateTopic dt.mqtt.discoveryPrefix dt.componentName dt.name
    topicSuffix).1]

end DeviceTypeSerializer

/-- The topic of an entity with the suffix `suffix`, as `generateTopic` writes
it. -/
def BaseDeviceType.topic (dt : BaseDeviceType) (suffix : String) : String :=
  (DeviceTypeSerializer.generateTopic dt.mqtt.discoveryPrefix dt.componentName dt.name suffix).1

/-- The calls `HASwitch::onMqttConnected` makes after `publishConfig`: the
state publish, the availability publish and the subscription to the command
topic. -/
def HASwitch.connectCalls (availability : String) (sw : HASwitch) : List MqttOp :=
  DeviceTypeSerializer.publishCalls sw.base DeviceTypeSerializer.StateTopic
      (if sw._currentState then DeviceTypeSerializer.StateOn else DeviceTypeSerializer.StateOff)
    ++ (if sw.base.isAvailabilityConfigured = true then
          DeviceTypeSerializer.publishCalls sw.base DeviceTypeSerializer.AvailabilityTopic
            availability
        else [])
    ++ DeviceTypeSerializer.subscribeCalls sw.base DeviceTypeSerializer.CommandTopic

/-- The calls `HABinarySensor::onMqttConnected` makes after `publishConfig`:
the state publish and the availability publish. -/
def HABinarySensor.connectCalls (availability : String) (bs : HABinarySensor) : List MqttOp :=
  DeviceTypeSerializer.publishCalls bs.base DeviceTypeSerializer.StateTopic
      (if bs._currentState then DeviceTypeSerializer.StateOn else DeviceTypeSerializer.StateOff)
    ++ (if bs.base.isAvailabilityConfigured = true then
          DeviceTypeSerializer.publishCalls bs.base DeviceTypeSerializer.AvailabilityTopic
            availability
        else [])

/-- The state publishes `HAHVAC::onMqttConnected` makes after `publishConfig`:
the action, the aux heating, away and hold states with their feature, and the
current and target temperatures unless they are 255 or greater (a NaN is
published). -/
def HAHVAC.statePublishCalls (H : FieldHelpers) (h : HAHVAC) : List MqttOp :=
  (match HAHVAC.actionStr h._action with
    | some str => DeviceTypeSerializer.publishCalls h.base HAHVAC.ActionTopic str
    | none => [])
    ++ (if h.hasFeature HAHVAC.AuxHeatingFeature = true then
          DeviceTypeSerializer.publishCalls h.base HAHVAC.AuxStateTopic
            (if h._auxHeatingState then DeviceTypeSerializer.StateOn
              else DeviceTypeSerializer.StateOff)
        else [])
    ++ (if h.hasFeature HAHVAC.AwayModeFeature = true then
          DeviceTypeSerializer.publishCalls h.base HAHVAC.AwayStateTopic
            (if h._awayState then DeviceTypeSerializer.StateOn
              else DeviceTypeSerializer.StateOff)
        else [])
    ++ (if h.hasFeature HAHVAC.HoldFeature = true then
          DeviceTypeSerializer.publishCalls h.base HAHVAC.HoldStateTopic
            (if h._holdState then DeviceTypeSerializer.StateOn
              else DeviceTypeSerializer.StateOff)
        else [])
    ++ (if h.hasFeature HAHVAC.CurrentTemperatureFeature = true
            ∧ Double.ge h._currentTemperature (.ofInt 255) = false then
          DeviceTypeSerializer.publishCalls h.base HAHVAC.CurrentTemperatureTopic
            (H.tempToStr h._currentTemperature)
        else [])
    ++ (if Double.ge h._targetTemperature (.ofInt 255) = false then
          DeviceTypeSerializer.publishCalls h.base HAHVAC.TargetTemperatureStateTopic
            (H.tempToStr h._targetTemperature)
        else [])

/-- The calls of `HAHVAC::subscribeTopics`. -/
def HAHVAC.subscribeTopicsCalls (h : HAHVAC) : List MqttOp :=
  (if h.hasFeature HAHVAC.AuxHeatingFeature = true then
      DeviceTypeSerializer.subscribeCalls h.base HAHVAC.AuxCommandTopic else [])
    ++ (if h.hasFeature HAHVAC.AwayModeFeature = true then
      DeviceTypeSerializer.subscribeCalls h.base HAHVAC.AwayCommandTopic else [])
    ++ (if h.hasFeature HAHVAC.HoldFeature = true then
      DeviceTypeSerializer.subscribeCalls h.base HAHVAC.HoldCommandTopic else [])
    ++ DeviceTypeSerializer.subscribeCalls h.base HAHVAC.TargetTemperatureCommandTopic

/-- The calls `HAHVAC::onMqttConnected` makes after `publishConfig`: the state
publishes, then the subscriptions. -/
def HAHVAC.connectCalls (H : FieldHelpers) (h : HAHVAC) : List MqttOp :=
  h.statePublishCalls H ++ h.subscribeTopicsCalls

/-! ## Buffers and bounds -/

/-- The size of the buffer `char actionStr[8]` of `HAHVAC::publishAction`. -/
def HAHVAC.actionStrSize : Nat := 8

/-- A finite double strictly between the integers `lo` and `hi`. -/
def Double.strictlyBetween (lo hi : Int) : Double → Bool
  | .fin q => decide ((lo : ℚ) < q ∧ q < (hi : ℚ))
  | _ => false

/-- A call of one of the three bounds setters of a climate entity. -/
inductive BoundsCall where
  | setMinTemp (minTemp : Double) : BoundsCall
  | setMaxTemp (maxTemp : Double) : BoundsCall
  | setTempStep (tempStep : Double) : BoundsCall

/-- One call of a bounds setter on the climate entity. -/
def HAHVAC.applyBounds (h : HAHVAC) : BoundsCall → HAHVAC
  | .setMinTemp minTemp => (h.setMinTemp minTemp).2
  | .setMaxTemp maxTemp => (h.setMaxTemp maxTemp).2
  | .setTempStep tempStep => (h.setTempStep tempStep).2

/-- A sequence of calls of the bounds setters, one after the other. -/
def HAHVAC.runBounds (h : HAHVAC) (calls : List BoundsCall) : HAHVAC :=
  calls.foldl HAHVAC.applyBounds h

/-! ## Layout of the documents -/

/-- The fields of the binary sensor document that both passes go through in
the same order, the state topic and the device class, with the number of bytes
of each. -/
def HABinarySensor.bodyTerms (bs : HABinarySensor) : List (Field × Nat) :=
  [(.topic DeviceTypeSerializer.StateTopic,
      topicLen bs.base DeviceTypeSerializer.StateTopic + 11)]
    ++ (match bs._class with
        | some cls => [(.deviceClass, cls.length + 13)]
        | none => [])

/-- The fields of the climate document that both passes go through in the same
order, from the action topic to the temperature unit, with the number of bytes
of each. -/
def HAHVAC.bodyTerms (H : FieldHelpers) (h : HAHVAC) : List (Field × Nat) :=
  [(.topic HAHVAC.ActionTopic, topicLen h.base HAHVAC.ActionTopic + 10)]
    ++ (if h.hasFeature HAHVAC.AuxHeatingFeature = true then
          [(.topic HAHVAC.AuxCommandTopic, topicLen h.base HAHVAC.AuxCommandTopic + 15),
           (.topic HAHVAC.AuxStateTopic, topicLen h.base HAHVAC.AuxStateTopic + 16)]
        else [])
    ++ (if h.hasFeature HAHVAC.AwayModeFeature = true then
          [(.topic HAHVAC.AwayCommandTopic, topicLen h.base HAHVAC.AwayCommandTopic + 21),
           (.topic HAHVAC.AwayStateTopic, topicLen h.base HAHVAC.AwayStateTopic + 22)]
        else [])
    ++ (if h.hasFeature HAHVAC.HoldFeature = true then
          [(.topic HAHVAC.HoldCommandTopic, topicLen h.base HAHVAC.HoldCommandTopic + 16),
           (.topic HAHVAC.HoldStateTopic, topicLen h.base HAHVAC.HoldStateTopic + 17)]
        else [])
    ++ (if h.hasFeature HAHVAC.CurrentTemperatureFeature = true then
          [(.topic HAHVAC.CurrentTemperatureTopic,
            topicLen h.base HAHVAC.CurrentTemperatureTopic + 17)]
        else [])
    ++ (if Double.ne h._minTemp (.ofInt 255) = true then
          [(.minTemp, (H.tempToStr h._minTemp).length + 14)]
        else [])
    ++ (if Double.ne h._maxTemp (.ofInt 255) = true then
          [(.maxTemp, (H.tempToStr h._maxTemp).length + 14)]
        else [])
    ++ [(.tempStep, (H.tempToStr h._tempStep).length + 15)]
    ++ (match h._label with
        | some label => [(.label, label.length + 10)]
        | none => [])
    ++ [(.topic HAHVAC.TargetTemperatureCommandTopic,
          topicLen h.base HAHVAC.TargetTemperatureCommandTopic + 16),
        (.topic HAHVAC.TargetTemperatureStateTopic,
          topicLen h.base HAHVAC.TargetTemperatureStateTopic + 17)]
    ++ (if h._temperatureUnit ≠ .DefaultUnit then [(.temperatureUnit, 16)] else [])

/-- The suffixes of the topics whose length `HAHVAC::calculateSerializedLength`
asks for, in the order of the pass. -/
def HAHVAC.sizedTopics (h : HAHVAC) : List String :=
  [HAHVAC.ActionTopic]
    ++ (if h.hasFeature HAHVAC.AuxHeatingFeature = true then
          [HAHVAC.AuxCommandTopic, HAHVAC.AuxStateTopic]
        else [])
    ++ (if h.hasFeature HAHVAC.AwayModeFeature = true then
          [HAHVAC.AwayCommandTopic, HAHVAC.AwayStateTopic]
        else [])
    ++ (if h.hasFeature HAHVAC.HoldFeature = true then
          [HAHVAC.HoldCommandTopic, HAHVAC.HoldStateTopic]
        else [])
    ++ (if h.hasFeature HAHVAC.CurrentTemperatureFeature = true then
          [HAHVAC.CurrentTemperatureTopic]
        else [])
    ++ [HAHVAC.TargetTemperatureCommandTopic, HAHVAC.TargetTemperatureStateTopic]

/-! ## Sample instances -/

/-- Modelled from the spec: the field helpers as section 4.2 and the key table
of section 6 describe them: braces, `name` (omitted when empty), `uniq_id`
(device unique id, `_`, object id), `dev` (the serialized device embedded as it
is) and `avty_t` (only with a distinct availability topic). The temperature
rendering, which the spec leaves open, shows the integer part of a
non-negative finite value. -/
def specHelpers : FieldHelpers where
  calculateBaseJsonDataSize := 2
  mqttWriteBeginningJson := "\x7b"
  mqttWriteEndJson := "\x7d"
  calculateNameFieldSize := fun n => if n.length = 0 then 0 else n.length + 10
  mqttWriteNameField := fun n => if n.length = 0 then "" else ",\"name\":\"" ++ n ++ "\""
  calculateUniqueIdFieldSize := fun d n =>
    match d with
    | none => 0
    | some dev => dev.uniqueId.length + n.length + 14
  mqttWriteUniqueIdField := fun d n =>
    match d with
    | none => ""
    | some dev => ",\"uniq_id\":\"" ++ dev.uniqueId ++ "_" ++ n ++ "\""
  calculateDeviceFieldSize := fun sd => sd.length + 7
  mqttWriteDeviceField := fun sd => ",\"dev\":" ++ sd
  calculateAvailabilityFieldSize := fun dt =>
    if dt.isAvailabilityConfigured then
      (DeviceTypeSerializer.generateTopic dt.mqtt.discoveryPrefix dt.componentName dt.name
        DeviceTypeSerializer.AvailabilityTopic).1.length + 12
    else 0
  mqttWriteAvailabilityField := fun dt =>
    if dt.isAvailabilityConfigured then
      ",\"avty_t\":\"" ++ (DeviceTypeSerializer.generateTopic dt.mqtt.discoveryPrefix
        dt.componentName dt.name DeviceTypeSerializer.AvailabilityTopic).1 ++ "\""
    else ""
  calculateAvailabilityFieldSizeOf := fun m c n =>
    (DeviceTypeSerializer.generateTopic m.discoveryPrefix c n
      DeviceTypeSerializer.AvailabilityTopic).1.length + 12
  mqttWriteAvailabilityFieldOf := fun m c n =>
    ",\"avty_t\":\"" ++ (DeviceTypeSerializer.generateTopic m.discoveryPrefix c n
      DeviceTypeSerializer.AvailabilityTopic).1 ++ "\""
  tempToStr := fun t =>
    match t with
    | .fin q => Nat.repr q.floor.toNat
    | _ => "nan"

/-- A device descriptor with unique id `dev1`. -/
def sampleDevice : HADevice :=
  ⟨"dev1", 15, ("\x7b\"ids\":\"dev1\"\x7d", 15)⟩

/-- A transport with discovery prefix `homeassistant` whose every call
succeeds. -/
def okMqtt : HAMqtt := ⟨"homeassistant", some sampleDevice, fun _ _ => true, []⟩

/-- A transport with discovery prefix `homeassistant` whose every call
fails. -/
def failingMqtt : HAMqtt := ⟨"homeassistant", some sampleDevice, fun _ _ => false, []⟩

/-- The switch `relay1`, off, on a transport whose every call succeeds. -/
def relay1 : HASwitch := HASwitch.new "relay1" false okMqtt

/-- The switch `relay1`, off, on a transport whose every call fails. -/
def relay1Offline : HASwitch := HASwitch.new "relay1" false failingMqtt

/-- The binary sensor `door1`, off, on a transport whose every call fails. -/
def door1Offline : HABinarySensor := HABinarySensor.new "door1" false failingMqtt

/-- The climate entity `hvac1` with every feature, on a transport whose every
call fails. -/
def hvac1Offline : HAHVAC := HAHVAC.new "hvac1" 15 failingMqtt

/-- The climate entity `hvac1` with every feature, on a transport whose every
call succeeds. -/
def hvac1 : HAHVAC := HAHVAC.new "hvac1" 15 okMqtt

/-- The climate entity `hvac0` without any feature, on a transport whose every
call succeeds. -/
def hvac0 : HAHVAC := HAHVAC.new "hvac0" 0 okMqtt

/-- The serialized form of `sampleDevice`. -/
def sampleSerializedDevice : String := sampleDevice.serialize.1

/-- An object id of 30000 characters. -/
def longName : String := "".pushn 'a' 30000

/-- A switch whose object id has 30000 characters. -/
def longSwitch : HASwitch := HASwitch.new longName false okMqtt

/-- A binary sensor whose object id has 30000 characters. -/
def longSensor : HABinarySensor := HABinarySensor.new longName false okMqtt

/-- A climate entity without features whose unique id has 30000 characters. -/
def longHVAC : HAHVAC := HAHVAC.new longName 0 okMqtt

/-- A switch with an empty object id. -/
def anonymousSwitch : HASwitch := HASwitch.new "" false okMqtt

/-- A binary sensor with an empty object id. -/
def anonymousSensor : HABinarySensor := HABinarySensor.new "" false okMqtt

/-- A climate entity without features and with an empty unique id. -/
def anonymousHVAC : HAHVAC := HAHVAC.new "" 0 okMqtt

/-- The climate entity `hvac1` set to degrees Celsius. -/
def hvac1Celsius : HAHVAC := { hvac1 with _temperatureUnit := .CelsiusUnit }

/-- An object id of 65507 characters: the state topic of a switch of this name
on `okMqtt` has 65535 characters, 65536 with its terminator. -/
def edgeName : String := "".pushn 'a' 65507

/-- A switch whose object id has 65507 characters. -/
def edgeSwitch : HASwitch := HASwitch.new edgeName false okMqtt

/-- The binary sensor `door1` of device class `door`, with a distinct
availability topic. -/
def door1 : HABinarySensor :=
  { HABinarySensor.newWithClass "door1" (some "door") false okMqtt with
    base := { BaseDeviceType.new okMqtt "binary_sensor" "door1" with
      isAvailabilityConfigured := true } }

/-- The climate entity `hvac1` with every feature, bounds of 16 and 30 degrees
Celsius and a label. -/
def hvac1Full : HAHVAC :=
  { hvac1 with
    _temperatureUnit := .CelsiusUnit
    _minTemp := .ofInt 16
    _maxTemp := .ofInt 30
    _label := some "Living room" }

/-- The switch `kitchen`, off, on a transport whose every call succeeds. -/
def kitchen : HASwitch := HASwitch.new "kitchen" false okMqtt

/-- A discovery string of 65514 characters: with it the state topic of a switch
`relay1` has 65535 characters, 65536 with its terminator. -/
def longDiscovery : String := "".pushn 'h' 65514

/-- The switch `relay1`, off, on a transport whose every call succeeds and
whose discovery string has 65514 characters. -/
def relay1Far : HASwitch :=
  HASwitch.new "relay1" false ⟨longDiscovery, some sampleDevice, fun _ _ => true, []⟩

/-- A transport with discovery prefix `homeassistant` and no device, whose
every call succeeds. -/
def noDeviceMqtt : HAMqtt := ⟨"homeassistant", none, fun _ _ => true, []⟩

/-- A transport with discovery prefix `homeassistant` that refuses every
begin-publish and accepts every other call. -/
def refusingMqtt : HAMqtt :=
  ⟨"homeassistant", some sampleDevice,
    fun _ op => match op with
      | .beginPublish _ _ _ => false
      | _ => true,
    []⟩

/-- The switch `relay1`, off, on a transport without a device. -/
def relay1NoDevice : HASwitch := HASwitch.new "relay1" false noDeviceMqtt

/-- The switch `relay1`, off, on a transport that refuses every
begin-publish. -/
def relay1Refused : HASwitch := HASwitch.new "relay1" false refusingMqtt

/-- The climate entity `hvac1` with every feature and a minimum temperature of
16 degrees, on a transport without a device. -/
def hvac1NoDevice : HAHVAC := { HAHVAC.new "hvac1" 15 noDeviceMqtt with _minTemp := .ofInt 16 }

/-- A transport with discovery prefix `homeassistant` on which every second
call fails: a call succeeds when an even number of calls were made before
it. -/
def flakyMqtt : HAMqtt :=
  ⟨"homeassistant", some sampleDevice, fun done _ => done.length % 2 == 0, []⟩

/-- The switch `relay1`, off, on the transport on which every second call
fails. -/
def relay1Flaky : HASwitch := HASwitch.new "relay1" false flakyMqtt

/-- An object id of 65510 characters: with the discovery prefix
`homeassistant`, the component `switch` and the suffix `cmd_t` its topic has
65537 characters. -/
def longObjectId : String := "".pushn 'a' 65510

/-- An object id of 248 characters: with the command suffix, two slashes and the
terminator it needs 256 bytes. -/
def wideName : String := "".pushn 'a' 248

/-- A switch whose object id has 248 characters. -/
def wideSwitch : HASwitch := HASwitch.new wideName false okMqtt

/-- A climate entity without features whose unique id has 65510 characters: its
action topic on `okMqtt` has 65535 characters, 65536 with its terminator. -/
def edgeActionHVAC : HAHVAC := HAHVAC.new longObjectId 0 okMqtt

/-- The climate entity `hvac1` in another runtime state: heating, aux heating,
away mode and hold on, 21 degrees measured and 22 degrees wanted. -/
def hvac1Busy : HAHVAC :=
  { hvac1 with
    _action := .HeatingAction
    _auxHeatingState := true
    _awayState := true
    _holdState := true
    _currentTemperature := .ofInt 21
    _targetTemperature := .ofInt 22 }

/-- The climate entity `hvac1` after it was set to heating, with aux heating
on, 21 degrees measured and 22 degrees wanted, each through its setter on
`okMqtt`. -/
def hvac1Heating : HAHVAC :=
  ((((hvac1.setAction .HeatingAction).2.setAuxHeatingState true).2.setCurrentTemperature
    specHelpers (.ofInt 21)).2.setTargetTemperature specHelpers (.ofInt 22)).2

end AHA

/-! # Theorems -/

namespace AHA

/-! ## Arithmetic and strings -/

theorem u16_of_lt {n : Nat} (h : n < 65536) : u16 n = n :=
  Nat.mod_eq_of_lt h

theorem u16_add_u16_left (a b : Nat) : u16 (u16 a + b) = u16 (a + b) := by
  unfold u16
  omega

theorem String.length_ne_zero_of_ne_empty {s : String} (h : s ≠ "") : s.length ≠ 0 := by
  obtain ⟨l⟩ := s
  intro h0
  apply h
  have hl : l = [] := List.length_eq_zero.mp h0
  subst hl
  rfl

theorem length_longObjectId : longObjectId.length = 65510 := by
  simp [longObjectId]

/-! ## Topic builder -/

namespace DeviceTypeSerializer

theorem generateTopic_length_of_nonempty {discovery component objectId suffix : String}
    (hid : objectId.length ≠ 0) (hsuf : suffix.length ≠ 0) :
    (generateTopic discovery component objectId suffix).1.length
      = discovery.length + 1 + component.length + 1 + objectId.length + 1 + suffix.length := by
  have h1 : "/".length = 1 := rfl
  simp only [generateTopic, hid, hsuf, or_self, if_false, String.length_append, h1]

theorem calculateTopicLength_of_fit {discovery component objectId suffix : String}
    (hid : objectId.length ≠ 0) (hsuf : suffix.length ≠ 0) (t : Bool)
    (hfit : discovery.length + 1 + component.length + 1 + objectId.length + 1 + suffix.length + 1
      < 65536) :
    calculateTopicLength discovery component objectId suffix t
      = discovery.length + 1 + component.length + 1 + objectId.length + 1 + suffix.length
        + (if t then 1 else 0) := by
  simp only [calculateTopicLength, hid, hsuf, or_self, if_false]
  apply u16_of_lt
  split <;> omega

/-- C5 (as amended): for every discovery prefix, component, non-empty object
id and non-empty suffix whose topic with its terminator is shorter than 65536
bytes, the string `generateTopic` writes has length
`calculateTopicLength(component, objectId, suffix, true) - 1`, which equals
`calculateTopicLength(component, objectId, suffix, false)`, and the length
`generateTopic` returns is `calculateTopicLength(component, objectId, suffix,
true)`. -/
theorem generateTopic_length_eq_calculateTopicLength
    (discovery component objectId suffix : String)
    (hid : objectId ≠ "") (hsuf : suffix ≠ "")
    (hfit : discovery.length + 1 + component.length + 1 + objectId.length + 1 + suffix.length + 1
      < 65536) :
    (generateTopic discovery component objectId suffix).1.length
        = calculateTopicLength discovery component objectId suffix true - 1
      ∧ (generateTopic discovery component objectId suffix).1.length
        = calculateTopicLength discovery component objectId suffix false
      ∧ (generateTopic discovery component objectId suffix).2
        = calculateTopicLength discovery component objectId suffix true := by
  have hid0 := String.length_ne_zero_of_ne_empty hid
  have hsuf0 := String.length_ne_zero_of_ne_empty hsuf
  have hlen := @generateTopic_length_of_nonempty discovery component objectId suffix hid0 hsuf0
  have ht := calculateTopicLength_of_fit hid0 hsuf0 true hfit
  have hf := calculateTopicLength_of_fit hid0 hsuf0 false hfit
  simp only [if_true, Bool.false_eq_true, if_false, Nat.add_zero] at ht hf
  refine ⟨by omega, by omega, ?_⟩
  have h1 : "/".length = 1 := rfl
  simp only [generateTopic, hid0, hsuf0, or_self, if_false, String.length_append, h1, ht]
  exact u16_of_lt hfit

/-- Witness of C5 at the config topic of the switch `relay1`. -/
theorem generateTopic_length_eq_calculateTopicLength_witness :
    (generateTopic "homeassistant" "switch" "relay1" "config").1.length
        = calculateTopicLength "homeassistant" "switch" "relay1" "config" true - 1
      ∧ (generateTopic "homeassistant" "switch" "relay1" "config").1.length
        = calculateTopicLength "homeassistant" "switch" "relay1" "config" false
      ∧ (generateTopic "homeassistant" "switch" "relay1" "config").2
        = calculateTopicLength "homeassistant" "switch" "relay1" "config" true :=
  generateTopic_length_eq_calculateTopicLength "homeassistant" "switch" "relay1" "config"
    (by decide) (by decide) (by decide)

/-- C5 (as stated) fails: the object id of 65510 characters and the suffix
`cmd_t` are non-empty, the topic written has 65537 characters, and
`calculateTopicLength` gives 2 with the terminator and 1 without. -/
theorem generateTopic_length_counterexample :
    longObjectId ≠ "" ∧ "cmd_t" ≠ ""
      ∧ (generateTopic "homeassistant" "switch" longObjectId "cmd_t").1.length = 65537
      ∧ calculateTopicLength "homeassistant" "switch" longObjectId "cmd_t" true = 2
      ∧ calculateTopicLength "homeassistant" "switch" longObjectId "cmd_t" false = 1 := by
  have hl := length_longObjectId
  have hid : longObjectId.length ≠ 0 := by omega
  have hsuf : "cmd_t".length ≠ 0 := by decide
  have h1 : "homeassistant".length = 13 := rfl
  have h2 : "switch".length = 6 := rfl
  have h3 : "cmd_t".length = 5 := rfl
  refine ⟨?_, by decide, ?_, ?_, ?_⟩
  · intro h
    rw [h] at hl
    exact absurd hl (by decide)
  · rw [generateTopic_length_of_nonempty hid hsuf, hl, h1, h2, h3]
  · simp only [calculateTopicLength, hid, hsuf, or_self, if_false, hl, h1, h2, h3, if_true]
    rfl
  · simp only [calculateTopicLength, hid, hsuf, or_self, if_false, hl, h1, h2, h3,
      Bool.false_eq_true]
    rfl

end DeviceTypeSerializer


/-! ## State machine -/

theorem HASwitch.switch_publishState_frame (sw : HASwitch) (v : Bool) :
    (sw.publishState v).2 = sw.withMqtt (sw.publishState v).2.base.mqtt := by
  unfold HASwitch.publishState
  split <;> rfl

theorem HABinarySensor.sensor_publishState_frame (bs : HABinarySensor) (v : Bool) :
    (bs.publishState v).2 = bs.withMqtt (bs.publishState v).2.base.mqtt := by
  unfold HABinarySensor.publishState
  split
  · rfl
  · dsimp only
    split
    · rfl
    · split <;> rfl

theorem HAHVAC.publishAction_frame (h : HAHVAC) (a : Action) :
    (h.publishAction a).2 = h.withMqtt (h.publishAction a).2.base.mqtt := by
  unfold HAHVAC.publishAction
  split
  · rfl
  · split <;> rfl

theorem HAHVAC.publishAuxHeatingState_frame (h : HAHVAC) (v : Bool) :
    (h.publishAuxHeatingState v).2 = h.withMqtt (h.publishAuxHeatingState v).2.base.mqtt := by
  unfold HAHVAC.publishAuxHeatingState
  split <;> rfl

theorem HAHVAC.publishAwayState_frame (h : HAHVAC) (v : Bool) :
    (h.publishAwayState v).2 = h.withMqtt (h.publishAwayState v).2.base.mqtt := by
  unfold HAHVAC.publishAwayState
  split <;> rfl

theorem HAHVAC.publishHoldState_frame (h : HAHVAC) (v : Bool) :
    (h.publishHoldState v).2 = h.withMqtt (h.publishHoldState v).2.base.mqtt := by
  unfold HAHVAC.publishHoldState
  split <;> rfl

theorem HAHVAC.publishCurrentTemperature_frame (H : FieldHelpers) (h : HAHVAC) (t : Double) :
    (h.publishCurrentTemperature H t).2
      = h.withMqtt (h.publishCurrentTemperature H t).2.base.mqtt := by
  unfold HAHVAC.publishCurrentTemperature
  split
  · rfl
  · split <;> rfl

theorem HAHVAC.publishTargetTemperature_frame (H : FieldHelpers) (h : HAHVAC) (t : Double) :
    (h.publishTargetTemperature H t).2
      = h.withMqtt (h.publishTargetTemperature H t).2.base.mqtt := by
  unfold HAHVAC.publishTargetTemperature
  split
  · rfl
  · split <;> rfl


/-- C6: for `HASwitch::setState` and the climate setters that publish, when
the new value differs from the current one and the state publish the setter
attempts fails, the call returns false, the entity is what it was before the
call apart from the transport the attempt went to (so the stored value is the
old one), and no callback is called. For the setters guarded by a feature flag
the attempt takes place when the flag is set. -/
theorem setters_keep_state_when_publish_fails :
    (∀ (sw : HASwitch) (v : Bool), sw._currentState ≠ v → (sw.publishState v).1 = false →
      (sw.setState v).1 = false
        ∧ (sw.setState v).2 = sw.withMqtt (sw.setState v).2.base.mqtt
        ∧ (sw.setState v).2._currentState = sw._currentState
        ∧ (sw.setState v).2.stateCallbackCalls = sw.stateCallbackCalls)
    ∧ (∀ (h : HAHVAC) (a : Action), h._action ≠ a → (h.publishAction a).1 = false →
      (h.setAction a).1 = false
        ∧ (h.setAction a).2 = h.withMqtt (h.setAction a).2.base.mqtt
        ∧ (h.setAction a).2._action = h._action
        ∧ (h.setAction a).2.callbackCalls = h.callbackCalls)
    ∧ (∀ (h : HAHVAC) (v : Bool), h._auxHeatingState ≠ v →
      (h.publishAuxHeatingState v).1 = false →
      (h.setAuxHeatingState v).1 = false
        ∧ (h.setAuxHeatingState v).2 = h.withMqtt (h.setAuxHeatingState v).2.base.mqtt
        ∧ (h.setAuxHeatingState v).2._auxHeatingState = h._auxHeatingState
        ∧ (h.setAuxHeatingState v).2.callbackCalls = h.callbackCalls)
    ∧ (∀ (h : HAHVAC) (v : Bool), h.hasFeature HAHVAC.AwayModeFeature = true →
      h._awayState ≠ v → (h.publishAwayState v).1 = false →
      (h.setAwayState v).1 = some false
        ∧ (h.setAwayState v).2 = h.withMqtt (h.setAwayState v).2.base.mqtt
        ∧ (h.setAwayState v).2._awayState = h._awayState
        ∧ (h.setAwayState v).2.callbackCalls = h.callbackCalls)
    ∧ (∀ (h : HAHVAC) (v : Bool), h.hasFeature HAHVAC.HoldFeature = true →
      h._holdState ≠ v → (h.publishHoldState v).1 = false →
      (h.setHoldState v).1 = some false
        ∧ (h.setHoldState v).2 = h.withMqtt (h.setHoldState v).2.base.mqtt
        ∧ (h.setHoldState v).2._holdState = h._holdState
        ∧ (h.setHoldState v).2.callbackCalls = h.callbackCalls)
    ∧ (∀ (H : FieldHelpers) (h : HAHVAC) (t : Double),
      h.hasFeature HAHVAC.CurrentTemperatureFeature = true →
      Double.eq h._currentTemperature t = false →
      (h.publishCurrentTemperature H t).1 = false →
      (h.setCurrentTemperature H t).1 = some false
        ∧ (h.setCurrentTemperature H t).2
          = h.withMqtt (h.setCurrentTemperature H t).2.base.mqtt
        ∧ (h.setCurrentTemperature H t).2._currentTemperature = h._currentTemperature
        ∧ (h.setCurrentTemperature H t).2.callbackCalls = h.callbackCalls)
    ∧ (∀ (H : FieldHelpers) (h : HAHVAC) (t : Double),
      Double.eq h._targetTemperature t = false →
      (h.publishTargetTemperature H t).1 = false →
      (h.setTargetTemperature H t).1 = false
        ∧ (h.setTargetTemperature H t).2
          = h.withMqtt (h.setTargetTemperature H t).2.base.mqtt
        ∧ (h.setTargetTemperature H t).2._targetTemperature = h._targetTemperature
        ∧ (h.setTargetTemperature H t).2.callbackCalls = h.callbackCalls) := by
  refine ⟨?_, ?_, ?_, ?_, ?_, ?_, ?_⟩
  · intro sw v hne hfail
    have hfr := HASwitch.switch_publishState_frame sw v
    simp only [HASwitch.setState, hne, hfail, if_false, Bool.false_eq_true, true_and]
    refine ⟨hfr, ?_, ?_⟩ <;> rw [hfr] <;> rfl
  · intro h a hne hfail
    have hfr := HAHVAC.publishAction_frame h a
    simp only [HAHVAC.setAction, hne, hfail, if_false, Bool.false_eq_true, true_and]
    refine ⟨hfr, ?_, ?_⟩ <;> rw [hfr] <;> rfl
  · intro h v hne hfail
    have hfr := HAHVAC.publishAuxHeatingState_frame h v
    unfold HAHVAC.setAuxHeatingState
    split
    · exact ⟨rfl, rfl, rfl, rfl⟩
    · simp only [hne, hfail, if_false, Bool.false_eq_true, true_and]
      refine ⟨hfr, ?_, ?_⟩ <;> rw [hfr] <;> rfl
  · intro h v hfeat hne hfail
    have hfr := HAHVAC.publishAwayState_frame h v
    simp only [HAHVAC.setAwayState, hfeat, hne, hfail, if_false, Bool.false_eq_true, true_and,
      Bool.not_true]
    refine ⟨hfr, ?_, ?_⟩ <;> rw [hfr] <;> rfl
  · intro h v hfeat hne hfail
    have hfr := HAHVAC.publishHoldState_frame h v
    simp only [HAHVAC.setHoldState, hfeat, hne, hfail, if_false, Bool.false_eq_true, true_and,
      Bool.not_true]
    refine ⟨hfr, ?_, ?_⟩ <;> rw [hfr] <;> rfl
  · intro H h t hfeat hne hfail
    have hfr := HAHVAC.publishCurrentTemperature_frame H h t
    simp only [HAHVAC.setCurrentTemperature, hfeat, hne, hfail, if_false, Bool.false_eq_true,
      true_and, Bool.not_true]
    refine ⟨hfr, ?_, ?_⟩ <;> rw [hfr] <;> rfl
  · intro H h t hne hfail
    have hfr := HAHVAC.publishTargetTemperature_frame H h t
    simp only [HAHVAC.setTargetTemperature, hne, hfail, if_false, Bool.false_eq_true, true_and]
    refine ⟨hfr, ?_, ?_⟩ <;> rw [hfr] <;> rfl

/-- Witness of C6: the switch `relay1` and the climate entity `hvac1` on a
failing transport. -/
theorem setters_keep_state_when_publish_fails_witness :
    ((relay1Offline.setState true).1 = false
        ∧ (relay1Offline.setState true).2
          = relay1Offline.withMqtt (relay1Offline.setState true).2.base.mqtt
        ∧ (relay1Offline.setState true).2._currentState = relay1Offline._currentState
        ∧ (relay1Offline.setState true).2.stateCallbackCalls
          = relay1Offline.stateCallbackCalls)
      ∧ ((hvac1Offline.setAwayState true).1 = some false
        ∧ (hvac1Offline.setAwayState true).2
          = hvac1Offline.withMqtt (hvac1Offline.setAwayState true).2.base.mqtt
        ∧ (hvac1Offline.setAwayState true).2._awayState = hvac1Offline._awayState
        ∧ (hvac1Offline.setAwayState true).2.callbackCalls = hvac1Offline.callbackCalls) :=
  ⟨setters_keep_state_when_publish_fails.1 relay1Offline true (by decide) (by decide),
   setters_keep_state_when_publish_fails.2.2.2.1 hvac1Offline true (by decide) (by decide)
     (by decide)⟩

theorem DeviceTypeSerializer.mqttPublishMessage_of_success (dt : BaseDeviceType)
    (topicSuffix data : String)
    (hok : (DeviceTypeSerializer.mqttPublishMessage dt topicSuffix data).1 = true) :
    (DeviceTypeSerializer.mqttPublishMessage dt topicSuffix data).2.log
      = dt.mqtt.log ++ [MqttOp.publish (DeviceTypeSerializer.generateTopic
          dt.mqtt.discoveryPrefix dt.componentName dt.name topicSuffix).1 data true] := by
  unfold DeviceTypeSerializer.mqttPublishMessage at hok ⊢
  dsimp only at hok ⊢
  split at hok
  · exact absurd hok (by simp)
  · split at hok
    · exact absurd hok (by simp)
    · rename_i h1 h2
      simp only [h1, h2, if_false]
      rfl

theorem DeviceTypeSerializer.mqttPublishMessage_log (dt : BaseDeviceType)
    (topicSuffix data : String) :
    ∃ ops : List MqttOp, ops.length ≤ 1
      ∧ (DeviceTypeSerializer.mqttPublishMessage dt topicSuffix data).2.log
        = dt.mqtt.log ++ ops := by
  unfold DeviceTypeSerializer.mqttPublishMessage
  dsimp only
  split
  · exact ⟨[], by simp, by simp⟩
  · split
    · exact ⟨[], by simp, by simp⟩
    · exact ⟨[_], by simp, rfl⟩

/-- C7: for a switch with a non-empty object id and a value different from the
current state, when the state publish succeeds `setState` returns true, the
stored state is the new value, the transport saw exactly one more call, the
retained publish of the literal of the new value to the state topic, and the
callback, when one is registered, was called exactly once with the new value
(and not at all otherwise). -/
theorem HASwitch.setState_success (sw : HASwitch) (v : Bool)
    (hname : sw.base.name ≠ "") (hne : sw._currentState ≠ v)
    (hok : (sw.publishState v).1 = true) :
    (sw.setState v).1 = true
      ∧ (sw.setState v).2._currentState = v
      ∧ (sw.setState v).2.base.mqtt.log = sw.base.mqtt.log ++
          [MqttOp.publish (DeviceTypeSerializer.generateTopic sw.base.mqtt.discoveryPrefix
            sw.base.componentName sw.base.name DeviceTypeSerializer.StateTopic).1
            (if v then DeviceTypeSerializer.StateOn else DeviceTypeSerializer.StateOff) true]
      ∧ (sw.setState v).2.stateCallbackCalls
        = sw.stateCallbackCalls ++ (if sw._stateCallback then [v] else []) := by
  have hn := String.length_ne_zero_of_ne_empty hname
  have hfr := HASwitch.switch_publishState_frame sw v
  have hlog : (sw.publishState v).2.base.mqtt.log = sw.base.mqtt.log ++
      [MqttOp.publish (DeviceTypeSerializer.generateTopic sw.base.mqtt.discoveryPrefix
        sw.base.componentName sw.base.name DeviceTypeSerializer.StateTopic).1
        (if v then DeviceTypeSerializer.StateOn else DeviceTypeSerializer.StateOff) true] := by
    unfold HASwitch.publishState at hok ⊢
    simp only [hn, if_false] at hok ⊢
    exact DeviceTypeSerializer.mqttPublishMessage_of_success _ _ _ hok
  have hcb : (sw.publishState v).2._stateCallback = sw._stateCallback := by rw [hfr]; rfl
  have hcalls : (sw.publishState v).2.stateCallbackCalls = sw.stateCallbackCalls := by
    rw [hfr]; rfl
  simp only [HASwitch.setState, hne, hok, if_false, if_true, true_and]
  refine ⟨?_, ?_, ?_⟩
  · split <;> rfl
  · rw [← hlog]
    split <;> rfl
  · rw [hcb]
    cases hc : sw._stateCallback
    · simpa using hcalls
    · simp [hcalls]

/-- Witness of C7: the switch `relay1`, off, is switched on over a working
transport. -/
theorem HASwitch.setState_success_witness :
    (relay1.setState true).1 = true
      ∧ (relay1.setState true).2._currentState = true
      ∧ (relay1.setState true).2.base.mqtt.log = relay1.base.mqtt.log ++
          [MqttOp.publish (DeviceTypeSerializer.generateTopic relay1.base.mqtt.discoveryPrefix
            relay1.base.componentName relay1.base.name DeviceTypeSerializer.StateTopic).1
            (if true then DeviceTypeSerializer.StateOn else DeviceTypeSerializer.StateOff) true]
      ∧ (relay1.setState true).2.stateCallbackCalls
        = relay1.stateCallbackCalls ++ (if relay1._stateCallback then [true] else []) :=
  HASwitch.setState_success relay1 true (by decide) (by decide) (by decide)

/-- C8: change suppression. For the switch, the binary sensor and every climate
setter whose feature is available, a call with a value equal to the current
one returns true and gives back the entity as it was: the transport log, the
record of callback calls and every stored value are unchanged. -/
theorem setters_suppress_unchanged_value :
    (∀ (sw : HASwitch) (v : Bool), sw._currentState = v → sw.setState v = (true, sw))
    ∧ (∀ (bs : HABinarySensor) (v : Bool), bs._currentState = v →
      bs.setState v = (true, bs))
    ∧ (∀ (h : HAHVAC) (a : Action), h._action = a → h.setAction a = (true, h))
    ∧ (∀ (h : HAHVAC) (v : Bool), h.hasFeature HAHVAC.AuxHeatingFeature = true →
      h._auxHeatingState = v → h.setAuxHeatingState v = (true, h))
    ∧ (∀ (h : HAHVAC) (v : Bool), h.hasFeature HAHVAC.AwayModeFeature = true →
      h._awayState = v → h.setAwayState v = (some true, h))
    ∧ (∀ (h : HAHVAC) (v : Bool), h.hasFeature HAHVAC.HoldFeature = true →
      h._holdState = v → h.setHoldState v = (some true, h))
    ∧ (∀ (H : FieldHelpers) (h : HAHVAC) (t : Double),
      h.hasFeature HAHVAC.CurrentTemperatureFeature = true →
      Double.eq h._currentTemperature t = true →
      h.setCurrentTemperature H t = (some true, h))
    ∧ (∀ (H : FieldHelpers) (h : HAHVAC) (t : Double),
      Double.eq h._targetTemperature t = true → h.setTargetTemperature H t = (true, h)) := by
  refine ⟨?_, ?_, ?_, ?_, ?_, ?_, ?_, ?_⟩
  · intro sw v h
    simp [HASwitch.setState, h]
  · intro bs v h
    simp [HABinarySensor.setState, h]
  · intro h a ha
    simp [HAHVAC.setAction, ha]
  · intro h v hf hv
    simp [HAHVAC.setAuxHeatingState, hf, hv]
  · intro h v hf hv
    simp [HAHVAC.setAwayState, hf, hv]
  · intro h v hf hv
    simp [HAHVAC.setHoldState, hf, hv]
  · intro H h t hf ht
    simp [HAHVAC.setCurrentTemperature, hf, ht]
  · intro H h t ht
    simp [HAHVAC.setTargetTemperature, ht]

/-- Witness of C8: the switch `relay1` is off and asked to be off; the climate
entity `hvac1` has the hold feature, is not on hold and is asked not to be. -/
theorem setters_suppress_unchanged_value_witness :
    relay1.setState false = (true, relay1) ∧ hvac1.setHoldState false = (some true, hvac1) :=
  ⟨setters_suppress_unchanged_value.1 relay1 false (by decide),
   setters_suppress_unchanged_value.2.2.2.2.2.1 hvac1 false (by decide) (by decide)⟩


theorem HASwitch.switch_publishState_log (sw : HASwitch) (v : Bool) :
    ∃ ops : List MqttOp, ops.length ≤ 1
      ∧ (sw.publishState v).2.base.mqtt.log = sw.base.mqtt.log ++ ops := by
  unfold HASwitch.publishState
  split
  · exact ⟨[], by simp, by simp⟩
  · exact DeviceTypeSerializer.mqttPublishMessage_log _ _ _

theorem HABinarySensor.sensor_publishState_log (bs : HABinarySensor) (v : Bool) :
    ∃ ops : List MqttOp, ops.length ≤ 1
      ∧ (bs.publishState v).2.base.mqtt.log = bs.base.mqtt.log ++ ops := by
  unfold HABinarySensor.publishState
  split
  · exact ⟨[], by simp, by simp⟩
  · dsimp only
    split
    · exact ⟨[], by simp, by simp⟩
    · split
      · exact ⟨[], by simp, by simp⟩
      · exact ⟨[_], by simp, rfl⟩

theorem HASwitch.switch_setState_result (sw : HASwitch) (v : Bool) (hok : (sw.setState v).1 = true) :
    (sw.setState v).2._currentState = v
      ∧ ∃ ops : List MqttOp, ops.length ≤ 1
        ∧ (sw.setState v).2.base.mqtt.log = sw.base.mqtt.log ++ ops := by
  unfold HASwitch.setState at hok ⊢
  split
  · rename_i h
    exact ⟨h, [], by simp, by simp⟩
  · dsimp only at hok ⊢
    rename_i h
    simp only [h, if_false] at hok
    split
    · refine ⟨by split <;> rfl, ?_⟩
      obtain ⟨ops, h1, h2⟩ := HASwitch.switch_publishState_log sw v
      refine ⟨ops, h1, ?_⟩
      rw [← h2]
      split <;> rfl
    · rename_i h2
      simp only [h2, if_false] at hok
      exact absurd hok (by simp)

theorem HABinarySensor.sensor_setState_result (bs : HABinarySensor) (v : Bool)
    (hok : (bs.setState v).1 = true) :
    (bs.setState v).2._currentState = v
      ∧ ∃ ops : List MqttOp, ops.length ≤ 1
        ∧ (bs.setState v).2.base.mqtt.log = bs.base.mqtt.log ++ ops := by
  unfold HABinarySensor.setState at hok ⊢
  split
  · rename_i h
    exact ⟨h.symm, [], by simp, by simp⟩
  · rename_i h
    simp only [h, if_false] at hok
    split
    · rename_i h2
      simp only [h2, if_true] at hok
      exact absurd hok (by simp)
    · dsimp only at hok ⊢
      rename_i h2
      simp only [h2, if_false] at hok
      split
      · refine ⟨rfl, ?_⟩
        exact HABinarySensor.sensor_publishState_log bs v
      · rename_i h3
        simp only [h3, if_false] at hok
        exact absurd hok (by simp)

/-- C9 (as amended): for every switch or binary sensor, every starting state
and every value `v`, when a first call `setState(v)` succeeds, a second call
`setState(v)` returns true and leaves the entity and its transport log as the
first call left them, and the two calls together made at most one call on the
transport. -/
theorem setState_twice_after_success :
    (∀ (sw : HASwitch) (v : Bool), (sw.setState v).1 = true →
      (sw.setState v).2.setState v = (true, (sw.setState v).2)
        ∧ ∃ ops : List MqttOp, ops.length ≤ 1
          ∧ ((sw.setState v).2.setState v).2.base.mqtt.log = sw.base.mqtt.log ++ ops)
    ∧ (∀ (bs : HABinarySensor) (v : Bool), (bs.setState v).1 = true →
      (bs.setState v).2.setState v = (true, (bs.setState v).2)
        ∧ ∃ ops : List MqttOp, ops.length ≤ 1
          ∧ ((bs.setState v).2.setState v).2.base.mqtt.log = bs.base.mqtt.log ++ ops) := by
  constructor
  · intro sw v hok
    obtain ⟨hcur, hops⟩ := HASwitch.switch_setState_result sw v hok
    have h2 : (sw.setState v).2.setState v = (true, (sw.setState v).2) := by
      generalize (sw.setState v).2 = sw1 at hcur
      simp [HASwitch.setState, hcur]
    refine ⟨h2, ?_⟩
    rw [h2]
    exact hops
  · intro bs v hok
    obtain ⟨hcur, hops⟩ := HABinarySensor.sensor_setState_result bs v hok
    have h2 : (bs.setState v).2.setState v = (true, (bs.setState v).2) := by
      generalize (bs.setState v).2 = bs1 at hcur
      simp [HABinarySensor.setState, hcur]
    refine ⟨h2, ?_⟩
    rw [h2]
    exact hops

/-- Witness of C9 (as amended): the switch `relay1`, off, is switched on twice
over a working transport. -/
theorem setState_twice_after_success_witness :
    (relay1.setState true).2.setState true = (true, (relay1.setState true).2)
      ∧ ∃ ops : List MqttOp, ops.length ≤ 1
        ∧ ((relay1.setState true).2.setState true).2.base.mqtt.log
          = relay1.base.mqtt.log ++ ops :=
  setState_twice_after_success.1 relay1 true (by decide)

/-- C9 (as stated) fails: on a transport whose calls fail, switching the switch
`relay1` (off) on twice in a row makes two publish calls, and the second call
returns false. The binary sensor `door1` behaves the same. -/
theorem setState_twice_counterexample :
    ((relay1Offline.setState true).2.setState true).1 = false
      ∧ ((relay1Offline.setState true).2.setState true).2.base.mqtt.log
        = [MqttOp.publish "homeassistant/switch/relay1/stat_t" "ON" true,
           MqttOp.publish "homeassistant/switch/relay1/stat_t" "ON" true]
      ∧ ((door1Offline.setState true).2.setState true).1 = false
      ∧ ((door1Offline.setState true).2.setState true).2.base.mqtt.log
        = [MqttOp.publish "homeassistant/binary_sensor/door1/stat_t" "ON" true,
           MqttOp.publish "homeassistant/binary_sensor/door1/stat_t" "ON" true] := by
  decide

theorem HAHVAC.setters_without_feature :
    (∀ (h : HAHVAC) (v : Bool), h.hasFeature HAHVAC.AuxHeatingFeature = false →
      h.setAuxHeatingState v = (false, h))
    ∧ (∀ (h : HAHVAC) (v : Bool), h.hasFeature HAHVAC.AwayModeFeature = false →
      h.setAwayState v = (none, h))
    ∧ (∀ (h : HAHVAC) (v : Bool), h.hasFeature HAHVAC.HoldFeature = false →
      h.setHoldState v = (none, h))
    ∧ (∀ (H : FieldHelpers) (h : HAHVAC) (t : Double),
      h.hasFeature HAHVAC.CurrentTemperatureFeature = false →
      h.setCurrentTemperature H t = (none, h)) := by
  refine ⟨?_, ?_, ?_, ?_⟩
  · intro h v hf
    simp [HAHVAC.setAuxHeatingState, hf]
  · intro h v hf
    simp [HAHVAC.setAwayState, hf]
  · intro h v hf
    simp [HAHVAC.setHoldState, hf]
  · intro H h t hf
    simp [HAHVAC.setCurrentTemperature, hf]

/-- C10 on the code: on the climate entity `hvac0`, which has no feature,
`setAuxHeatingState(true)` returns false, while `setAwayState(true)`,
`setHoldState(true)` and `setCurrentTemperature(21)` leave through the bare
`return;` and return no value; none of the four touches the entity, the
transport or a callback. -/
theorem HAHVAC.setters_without_feature_at_hvac0 :
    hvac0.setAuxHeatingState true = (false, hvac0)
      ∧ hvac0.setAwayState true = (none, hvac0)
      ∧ hvac0.setHoldState true = (none, hvac0)
      ∧ hvac0.setCurrentTemperature specHelpers (.ofInt 21) = (none, hvac0) :=
  ⟨HAHVAC.setters_without_feature.1 hvac0 true (by decide),
   HAHVAC.setters_without_feature.2.1 hvac0 true (by decide),
   HAHVAC.setters_without_feature.2.2.1 hvac0 true (by decide),
   HAHVAC.setters_without_feature.2.2.2 specHelpers hvac0 (.ofInt 21) (by decide)⟩

/-! ## The two passes -/

section Serialization

open DeviceTypeSerializer

namespace Sizing

theorem add_eq_addAll (s : Sizing) (f : Field) (n : Nat) : s.add f n = s.addAll [(f, n)] := rfl

theorem addAll_addAll (s : Sizing) (l l2 : List (Field × Nat)) :
    (s.addAll l).addAll l2 = s.addAll (l ++ l2) := by
  simp [addAll, List.foldl_append]

theorem size_addAll (s : Sizing) (l : List (Field × Nat)) :
    (s.addAll l).size = u16 (s.size + (l.map Prod.snd).sum) ∨ (l = [] ∧ (s.addAll l).size = s.size) := by
  induction l generalizing s with
  | nil => right; exact ⟨rfl, rfl⟩
  | cons p t ih =>
    left
    have h1 : (s.addAll (p :: t)) = (s.add p.1 p.2).addAll t := rfl
    rw [h1]
    rcases ih (s.add p.1 p.2) with h | ⟨h, h2⟩
    · rw [h]
      simp only [add, List.map_cons, List.sum_cons]
      rw [u16_add_u16_left]
      congr 1
      omega
    · subst h
      simp [addAll, add]

theorem size_start_addAll (l : List (Field × Nat)) :
    (start.addAll l).size = u16 (l.map Prod.snd).sum := by
  rcases size_addAll start l with h | ⟨h, h2⟩
  · simpa [start] using h
  · subst h; rfl

theorem terms_addAll (s : Sizing) (l : List (Field × Nat)) :
    (s.addAll l).terms = s.terms ++ l := by
  induction l generalizing s with
  | nil => simp [addAll]
  | cons p t ih =>
    have h1 : (s.addAll (p :: t)) = (s.add p.1 p.2).addAll t := rfl
    rw [h1, ih]
    simp [add]

end Sizing

theorem foldl_append_length (l : List String) (acc : String) :
    (List.foldl (fun r s => r ++ s) acc l).length = acc.length + (l.map String.length).sum := by
  induction l generalizing acc with
  | nil => simp
  | cons a t ih => simp [ih, String.length_append]; omega

namespace Stream

theorem length_bytes (out : Stream) : out.bytes.length = out.length := by
  unfold bytes length String.join
  rw [foldl_append_length]
  simp [Function.comp_def]

theorem length_eq_sum_sizes (out : Stream) : out.length = (out.sizes.map Prod.snd).sum := by
  simp [length, sizes, Function.comp_def]

theorem sizes_append (a b : Stream) : sizes (a ++ b) = sizes a ++ sizes b := by
  simp [sizes]

theorem sizes_cons (p : Field × String) (b : Stream) :
    sizes (p :: b) = (p.1, p.2.length) :: sizes b := rfl

theorem sizes_nil : sizes ([] : Stream) = [] := rfl

theorem sizes_ite (c : Prop) [Decidable c] (a b : Stream) :
    sizes (if c then a else b) = if c then sizes a else sizes b := by
  split <;> rfl

end Stream

section topic
variable {dt : BaseDeviceType} {suffix : String}

theorem calculateTopicLength_eq (hname : dt.name.length ≠ 0) (hsuf : suffix.length ≠ 0)
    (hfit : topicLen dt suffix + 1 < 65536) (t : Bool) :
    DeviceTypeSerializer.calculateTopicLength dt.mqtt.discoveryPrefix dt.componentName dt.name
      suffix t = topicLen dt suffix + (if t then 1 else 0) := by
  simp only [DeviceTypeSerializer.calculateTopicLength, hname, hsuf, or_self, if_false, topicLen]
  apply u16_of_lt
  unfold topicLen at hfit
  split <;> omega

theorem generateTopic_length (hname : dt.name.length ≠ 0) (hsuf : suffix.length ≠ 0) :
    (DeviceTypeSerializer.generateTopic dt.mqtt.discoveryPrefix dt.componentName dt.name
      suffix).1.length = topicLen dt suffix := by
  have h1 : "/".length = 1 := rfl
  simp only [DeviceTypeSerializer.generateTopic, hname, hsuf, or_self, if_false,
    String.length_append, h1, topicLen]

theorem Sizing.addTopic_eq (s : Sizing) (d : Nat) (hname : dt.name.length ≠ 0)
    (hsuf : suffix.length ≠ 0) (hfit : topicLen dt suffix + 1 < 65536) :
    s.addTopic dt suffix d = some (s.addAll [(.topic suffix, topicLen dt suffix + d)]) := by
  have h := calculateTopicLength_eq hname hsuf hfit false
  simp only [Bool.false_eq_true, if_false, Nat.add_zero] at h
  have h0 : topicLen dt suffix ≠ 0 := by unfold topicLen; omega
  simp only [Sizing.addTopic, h, h0, if_false]
  rfl

theorem sizes_mqttWriteConstCharField (f : Field) (jsonPrefix value : String) :
    Stream.sizes (DeviceTypeSerializer.mqttWriteConstCharField f jsonPrefix value)
      = [(f, value.length + (jsonPrefix.length + 1))] := by
  have h1 : "\"".length = 1 := rfl
  simp only [DeviceTypeSerializer.mqttWriteConstCharField, Stream.sizes, List.map_cons,
    List.map_nil, String.length_append, h1]
  congr 2
  omega

theorem sizes_mqttWriteTopicField (jsonPrefix : String) (hname : dt.name.length ≠ 0)
    (hsuf : suffix.length ≠ 0) (hfit : topicLen dt suffix + 1 < 65536) :
    Stream.sizes (DeviceTypeSerializer.mqttWriteTopicField dt jsonPrefix suffix).2
      = [(.topic suffix, topicLen dt suffix + (jsonPrefix.length + 1))] := by
  have h := calculateTopicLength_eq hname hsuf hfit true
  simp only [if_true] at h
  have hg := @generateTopic_length dt suffix hname hsuf
  have h0 : topicLen dt suffix ≠ 0 := by unfold topicLen; omega
  simp only [DeviceTypeSerializer.mqttWriteTopicField, h, Nat.add_one_ne_zero, if_false, hg, h0,
    sizes_mqttWriteConstCharField]

end topic

theorem Sizing.addTopic_of_empty_name (s : Sizing) (dt : BaseDeviceType) (suffix : String)
    (d : Nat) (hname : dt.name.length = 0) : s.addTopic dt suffix d = none := by
  simp [Sizing.addTopic, DeviceTypeSerializer.calculateTopicLength, hname]

theorem Option.ite_some_some {α : Type} (c : Prop) [Decidable c] (a b : α) :
    (if c then some a else some b) = some (if c then a else b) := by
  split <;> rfl

namespace HASwitch
open DeviceTypeSerializer

theorem switch_name_ne_of_calculateSerializedLength_ne_zero {H : FieldHelpers} {sw : HASwitch}
    {sd : Option String} (hnz : sw.calculateSerializedLength H sd ≠ 0) :
    sw.base.name.length ≠ 0 ∧ (∃ s, sd = some s) ∧ ∃ d, sw.base.mqtt.getDevice = some d := by
  unfold calculateSerializedLength calculateSerializedLengthPass at hnz
  cases sd with
  | none => exact absurd rfl hnz
  | some s =>
    cases hd : sw.base.mqtt.getDevice with
    | none => rw [hd] at hnz; exact absurd rfl hnz
    | some d =>
      refine ⟨?_, ⟨s, rfl⟩, ⟨d, rfl⟩⟩
      intro h0
      rw [hd] at hnz
      simp [Sizing.addTopic_of_empty_name _ _ _ _ h0] at hnz

theorem switch_calculateSerializedLengthPass_eq (H : FieldHelpers) (sw : HASwitch) (sd : String)
    (device : HADevice) (hdev : sw.base.mqtt.getDevice = some device)
    (hname : sw.base.name.length ≠ 0) (hfit : topicLen sw.base StateTopic + 1 < 65536) :
    sw.calculateSerializedLengthPass H (some sd) = some (Sizing.start.addAll
      [(.base, H.calculateBaseJsonDataSize),
       (.name, H.calculateNameFieldSize sw.base.name),
       (.uniqueId, H.calculateUniqueIdFieldSize (some device) sw.base.name),
       (.device, H.calculateDeviceFieldSize sd),
       (.availability, H.calculateAvailabilityFieldSize sw.base),
       (.topic CommandTopic, topicLen sw.base CommandTopic + 10),
       (.topic StateTopic, topicLen sw.base StateTopic + 12)]) := by
  have hc : CommandTopic.length ≠ 0 := by decide
  have hs : StateTopic.length ≠ 0 := by decide
  have hfitc : topicLen sw.base CommandTopic + 1 < 65536 := by
    have e1 : CommandTopic.length = 5 := rfl
    have e2 : StateTopic.length = 6 := rfl
    unfold topicLen at hfit ⊢
    omega
  simp only [calculateSerializedLengthPass, hdev, Sizing.addTopic_eq _ _ hname hc hfitc,
    Sizing.addTopic_eq _ _ hname hs hfit, Sizing.add_eq_addAll, Sizing.addAll_addAll,
    Option.bind_eq_bind, Option.some_bind, Option.pure_def, List.cons_append, List.nil_append]

theorem switch_sizes_writeSerializedData (H : FieldHelpers) (sw : HASwitch) (sd : String)
    (hname : sw.base.name.length ≠ 0) (hfit : topicLen sw.base StateTopic + 1 < 65536) :
    Stream.sizes (sw.writeSerializedData H (some sd)).2 =
      [(.beginJson, H.mqttWriteBeginningJson.length),
       (.topic CommandTopic, topicLen sw.base CommandTopic + 10),
       (.topic StateTopic, topicLen sw.base StateTopic + 12),
       (.name, (H.mqttWriteNameField sw.base.name).length),
       (.uniqueId, (H.mqttWriteUniqueIdField sw.base.mqtt.getDevice sw.base.name).length),
       (.availability, (H.mqttWriteAvailabilityField sw.base).length),
       (.device, (H.mqttWriteDeviceField sd).length),
       (.endJson, H.mqttWriteEndJson.length)] := by
  have hc : CommandTopic.length ≠ 0 := by decide
  have hs : StateTopic.length ≠ 0 := by decide
  have hfitc : topicLen sw.base CommandTopic + 1 < 65536 := by
    have e1 : CommandTopic.length = 5 := rfl
    have e2 : StateTopic.length = 6 := rfl
    unfold topicLen at hfit ⊢
    omega
  have l1 : "\"cmd_t\":\"".length = 9 := rfl
  have l2 : ",\"stat_t\":\"".length = 11 := rfl
  simp only [writeSerializedData, Stream.sizes_append, Stream.sizes_cons, Stream.sizes_nil,
    sizes_mqttWriteTopicField _ hname hc hfitc, sizes_mqttWriteTopicField _ hname hs hfit,
    l1, l2, Nat.reduceAdd, List.cons_append, List.nil_append]

end HASwitch

theorem Sizing.ite_addAll_addAll (c : Prop) [Decidable c] (s : Sizing) (l l2 : List (Field × Nat)) :
    (if c then s.addAll (l ++ l2) else s.addAll l) = s.addAll (l ++ if c then l2 else []) := by
  split <;> simp

namespace HAHVAC
open DeviceTypeSerializer

theorem hvac_closed_forms (H : FieldHelpers) (h : HAHVAC) (sd uniqueId : String)
    (device : HADevice) (hdev : h.base.mqtt.getDevice = some device)
    (huid : h._uniqueId = some uniqueId)
    (hname : h.base.name.length ≠ 0)
    (hfit : topicLen h.base AwayCommandTopic + 1 < 65536) :
    h.calculateSerializedLengthPass H (some sd) = some (Sizing.start.addAll
        ([(.base, H.calculateBaseJsonDataSize),
          (.uniqueId, H.calculateUniqueIdFieldSize h.base.mqtt.getDevice uniqueId),
          (.device, H.calculateDeviceFieldSize sd),
          (.availability, H.calculateAvailabilityFieldSize h.base)] ++ h.bodyTerms H))
      ∧ Stream.sizes (h.writeSerializedData H (some sd)).2 =
        [(.beginJson, H.mqttWriteBeginningJson.length)] ++ h.bodyTerms H ++
          [(.uniqueId, (H.mqttWriteUniqueIdField h.base.mqtt.getDevice uniqueId).length),
           (.availability, (H.mqttWriteAvailabilityField h.base).length),
           (.device, (H.mqttWriteDeviceField sd).length),
           (.endJson, H.mqttWriteEndJson.length)] := by
  have e2 : ActionTopic.length = 2 := rfl
  have e3a : AuxCommandTopic.length = 3 := rfl
  have e3b : AuxStateTopic.length = 3 := rfl
  have e4a : AwayCommandTopic.length = 4 := rfl
  have e4b : AwayStateTopic.length = 4 := rfl
  have e3c : HoldCommandTopic.length = 3 := rfl
  have e3d : HoldStateTopic.length = 3 := rfl
  have e4c : TargetTemperatureCommandTopic.length = 4 := rfl
  have e4d : TargetTemperatureStateTopic.length = 4 := rfl
  have e3e : CurrentTemperatureTopic.length = 3 := rfl
  have f1 : topicLen h.base ActionTopic + 1 < 65536 := by unfold topicLen at hfit ⊢; omega
  have f2 : topicLen h.base AuxCommandTopic + 1 < 65536 := by unfold topicLen at hfit ⊢; omega
  have f3 : topicLen h.base AuxStateTopic + 1 < 65536 := by unfold topicLen at hfit ⊢; omega
  have f5 : topicLen h.base AwayStateTopic + 1 < 65536 := by unfold topicLen at hfit ⊢; omega
  have f6 : topicLen h.base HoldCommandTopic + 1 < 65536 := by unfold topicLen at hfit ⊢; omega
  have f7 : topicLen h.base HoldStateTopic + 1 < 65536 := by unfold topicLen at hfit ⊢; omega
  have f8 : topicLen h.base TargetTemperatureCommandTopic + 1 < 65536 := by
    unfold topicLen at hfit ⊢; omega
  have f9 : topicLen h.base TargetTemperatureStateTopic + 1 < 65536 := by
    unfold topicLen at hfit ⊢; omega
  have f10 : topicLen h.base CurrentTemperatureTopic + 1 < 65536 := by
    unfold topicLen at hfit ⊢; omega
  have n1 : ActionTopic.length ≠ 0 := by decide
  have n2 : AuxCommandTopic.length ≠ 0 := by decide
  have n3 : AuxStateTopic.length ≠ 0 := by decide
  have n4 : AwayCommandTopic.length ≠ 0 := by decide
  have n5 : AwayStateTopic.length ≠ 0 := by decide
  have n6 : HoldCommandTopic.length ≠ 0 := by decide
  have n7 : HoldStateTopic.length ≠ 0 := by decide
  have n8 : TargetTemperatureCommandTopic.length ≠ 0 := by decide
  have n9 : TargetTemperatureStateTopic.length ≠ 0 := by decide
  have n10 : CurrentTemperatureTopic.length ≠ 0 := by decide
  have l1 : "\"act_t\":\"".length = 9 := rfl
  have l2 : ",\"aux_cmd_t\":\"".length = 14 := rfl
  have l3 : ",\"aux_stat_t\":\"".length = 15 := rfl
  have l4 : ",\"away_mode_cmd_t\":\"".length = 20 := rfl
  have l5 : ",\"away_mode_stat_t\":\"".length = 21 := rfl
  have l6 : ",\"hold_cmd_t\":\"".length = 15 := rfl
  have l7 : ",\"hold_stat_t\":\"".length = 16 := rfl
  have l8 : ",\"curr_temp_t\":\"".length = 16 := rfl
  have l9 : ",\"min_temp\":\"".length = 13 := rfl
  have l10 : ",\"max_temp\":\"".length = 13 := rfl
  have l11 : ",\"temp_step\":\"".length = 14 := rfl
  have l12 : ",\"name\":\"".length = 9 := rfl
  have l13 : ",\"temp_cmd_t\":\"".length = 15 := rfl
  have l14 : ",\"temp_stat_t\":\"".length = 16 := rfl
  have l15 : ",\"temp_unit\":\"".length = 14 := rfl
  have lu : (if h._temperatureUnit = .CelsiusUnit then "C" else "F").length = 1 := by
    split <;> rfl
  unfold bodyTerms
  refine ⟨?_, ?_⟩
  · cases hl : h._label <;>
    simp only [calculateSerializedLengthPass, hdev, huid, hl,
      Sizing.addTopic_eq _ _ hname n1 f1, Sizing.addTopic_eq _ _ hname n2 f2,
      Sizing.addTopic_eq _ _ hname n3 f3, Sizing.addTopic_eq _ _ hname n4 hfit,
      Sizing.addTopic_eq _ _ hname n5 f5, Sizing.addTopic_eq _ _ hname n6 f6,
      Sizing.addTopic_eq _ _ hname n7 f7, Sizing.addTopic_eq _ _ hname n8 f8,
      Sizing.addTopic_eq _ _ hname n9 f9, Sizing.addTopic_eq _ _ hname n10 f10,
      Sizing.add_eq_addAll, Sizing.addAll_addAll,
      Option.bind_eq_bind, Option.some_bind, Option.pure_def, Option.ite_some_some,
      Sizing.ite_addAll_addAll, Nat.reduceAdd] <;>
    simp only [List.cons_append, List.nil_append, List.append_assoc, List.append_nil]
  · cases hl : h._label <;>
    simp only [writeSerializedData, huid, hl, Stream.sizes_append, Stream.sizes_cons,
      Stream.sizes_nil, Stream.sizes_ite, sizes_mqttWriteConstCharField,
      sizes_mqttWriteTopicField _ hname n1 f1, sizes_mqttWriteTopicField _ hname n2 f2,
      sizes_mqttWriteTopicField _ hname n3 f3, sizes_mqttWriteTopicField _ hname n4 hfit,
      sizes_mqttWriteTopicField _ hname n5 f5, sizes_mqttWriteTopicField _ hname n6 f6,
      sizes_mqttWriteTopicField _ hname n7 f7, sizes_mqttWriteTopicField _ hname n8 f8,
      sizes_mqttWriteTopicField _ hname n9 f9, sizes_mqttWriteTopicField _ hname n10 f10,
      l1, l2, l3, l4, l5, l6, l7, l8, l9, l10, l11, l12, l13, l14, l15, lu, Nat.reduceAdd,
      ] <;>
    simp only [List.cons_append, List.nil_append, List.append_assoc, List.append_nil]

end HAHVAC

namespace HASwitch
open DeviceTypeSerializer

theorem switch_calculateSerializedLength_eq_u16 (H : FieldHelpers) (hH : H.Consistent) (sw : HASwitch)
    (sd : String) (device : HADevice) (hdev : sw.base.mqtt.getDevice = some device)
    (hname : sw.base.name.length ≠ 0) (hfit : topicLen sw.base StateTopic + 1 < 65536) :
    sw.calculateSerializedLength H (some sd)
      = u16 (sw.writeSerializedData H (some sd)).2.bytes.length := by
  have hc := switch_calculateSerializedLengthPass_eq H sw sd device hdev hname hfit
  have hw := switch_sizes_writeSerializedData H sw sd hname hfit
  simp only [calculateSerializedLength, hc]
  rw [Sizing.size_start_addAll, Stream.length_bytes, Stream.length_eq_sum_sizes, hw, hdev]
  simp only [List.map_cons, List.map_nil, List.sum_cons, List.sum_nil, hH.base, hH.name,
    hH.uniqueId, hH.device, hH.availability]
  congr 1
  omega

end HASwitch

namespace HAHVAC
open DeviceTypeSerializer

theorem hvac_facts_of_calculateSerializedLength_ne_zero {H : FieldHelpers} {h : HAHVAC}
    {sd : Option String} (hnz : h.calculateSerializedLength H sd ≠ 0) :
    h.base.name.length ≠ 0 ∧ (∃ s, sd = some s) ∧ (∃ u, h._uniqueId = some u)
      ∧ ∃ d, h.base.mqtt.getDevice = some d := by
  unfold calculateSerializedLength calculateSerializedLengthPass at hnz
  cases sd with
  | none => exact absurd rfl hnz
  | some s =>
    cases hu : h._uniqueId with
    | none => rw [hu] at hnz; exact absurd rfl hnz
    | some u =>
      cases hd : h.base.mqtt.getDevice with
      | none => rw [hu, hd] at hnz; exact absurd rfl hnz
      | some d =>
        refine ⟨?_, ⟨s, rfl⟩, ⟨u, rfl⟩, ⟨d, rfl⟩⟩
        intro h0
        rw [hu, hd] at hnz
        simp [Sizing.addTopic_of_empty_name _ _ _ _ h0] at hnz

theorem hvac_calculateSerializedLength_eq_u16 (H : FieldHelpers) (hH : H.Consistent) (h : HAHVAC)
    (sd uniqueId : String) (device : HADevice) (hdev : h.base.mqtt.getDevice = some device)
    (huid : h._uniqueId = some uniqueId)
    (hname : h.base.name.length ≠ 0) (hfit : topicLen h.base AwayCommandTopic + 1 < 65536) :
    h.calculateSerializedLength H (some sd)
      = u16 (h.writeSerializedData H (some sd)).2.bytes.length := by
  obtain ⟨hc, hw⟩ := hvac_closed_forms H h sd uniqueId device hdev huid hname hfit
  simp only [calculateSerializedLength, hc]
  rw [Sizing.size_start_addAll, Stream.length_bytes, Stream.length_eq_sum_sizes, hw]
  simp only [List.map_cons, List.map_nil, List.sum_cons, List.sum_nil, List.map_append,
    List.sum_append, hH.base, hH.name, hH.uniqueId, hH.device, hH.availability]
  generalize (List.map Prod.snd (h.bodyTerms H)).sum = body
  congr 1
  omega

end HAHVAC

namespace HABinarySensor
open DeviceTypeSerializer

theorem sensor_facts_of_calculateSerializedLength_ne_zero {H : FieldHelpers} {bs : HABinarySensor}
    {sd : Option String} (hnz : bs.calculateSerializedLength H sd ≠ 0) :
    bs.base.name.length ≠ 0 ∧ (∃ s, sd = some s) ∧ ∃ d, bs.base.mqtt.getDevice = some d := by
  unfold calculateSerializedLength calculateSerializedLengthPass at hnz
  cases sd with
  | none => exact absurd rfl hnz
  | some s =>
    cases hd : bs.base.mqtt.getDevice with
    | none => rw [hd] at hnz; exact absurd rfl hnz
    | some d =>
      refine ⟨?_, ⟨s, rfl⟩, ⟨d, rfl⟩⟩
      intro h0
      rw [hd] at hnz
      simp [Sizing.addTopic_of_empty_name _ _ _ _ h0] at hnz

theorem sensor_closed_forms (H : FieldHelpers) (bs : HABinarySensor) (sd : String)
    (device : HADevice) (hdev : bs.base.mqtt.getDevice = some device)
    (hname : bs.base.name.length ≠ 0)
    (hfit : topicLen bs.base StateTopic + 1 < 65536) :
      bs.calculateSerializedLengthPass H (some sd) = some (Sizing.start.addAll
        ([(.base, H.calculateBaseJsonDataSize),
          (.name, H.calculateNameFieldSize bs.base.name),
          (.uniqueId, H.calculateUniqueIdFieldSize bs.base.mqtt.getDevice bs.base.name),
          (.device, H.calculateDeviceFieldSize sd)]
          ++ (if bs.base.isAvailabilityConfigured = true then
              [(.availability, H.calculateAvailabilityFieldSizeOf bs.base.mqtt
                bs.base.componentName bs.base.name)] else [])
          ++ bs.bodyTerms))
      ∧ (bs.writeSerializedData H (some sd)).1 = true
      ∧ Stream.sizes (bs.writeSerializedData H (some sd)).2 =
        [(.beginJson, H.mqttWriteBeginningJson.length)] ++ bs.bodyTerms ++
          [(.name, (H.mqttWriteNameField bs.base.name).length),
           (.uniqueId, (H.mqttWriteUniqueIdField bs.base.mqtt.getDevice bs.base.name).length)]
          ++ (if bs.base.isAvailabilityConfigured = true then
              [(.availability, (H.mqttWriteAvailabilityFieldOf bs.base.mqtt
                bs.base.componentName bs.base.name).length)] else [])
          ++ [(.device, (H.mqttWriteDeviceField sd).length),
              (.endJson, H.mqttWriteEndJson.length)] := by
  have n1 : StateTopic.length ≠ 0 := by decide
  have l1 : "\"stat_t\":\"".length = 10 := rfl
  have l2 : ",\"dev_cla\":\"".length = 12 := rfl
  have ht := calculateTopicLength_eq hname n1 hfit true
  simp only [if_true] at ht
  have hg := @generateTopic_length bs.base StateTopic hname n1
  have h0 : topicLen bs.base StateTopic ≠ 0 := by unfold topicLen; omega
  unfold bodyTerms
  refine ⟨?_, ?_, ?_⟩
  · cases hl : bs._class <;>
    simp only [calculateSerializedLengthPass, hdev, hl,
      Sizing.addTopic_eq _ _ hname n1 hfit,
      Sizing.add_eq_addAll, Sizing.addAll_addAll,
      Option.bind_eq_bind, Option.some_bind, Option.pure_def, Option.ite_some_some,
      Sizing.ite_addAll_addAll, Nat.reduceAdd] <;>
    simp only [List.cons_append, List.nil_append, List.append_assoc, List.append_nil]
  · simp only [writeSerializedData, ht, hg, h0, Nat.add_one_ne_zero, if_false]
  · cases hl : bs._class <;>
    simp only [writeSerializedData, ht, hg, h0, Nat.add_one_ne_zero, if_false, hl,
      Stream.sizes_append, Stream.sizes_cons,
      Stream.sizes_nil, Stream.sizes_ite, sizes_mqttWriteConstCharField,
      l1, l2, Nat.reduceAdd] <;>
    simp only [List.cons_append, List.nil_append, List.append_assoc, List.append_nil]

theorem sensor_calculateSerializedLength_eq_u16 (H : FieldHelpers) (hH : H.Consistent)
    (bs : HABinarySensor) (sd : String) (device : HADevice)
    (hdev : bs.base.mqtt.getDevice = some device)
    (hname : bs.base.name.length ≠ 0) (hfit : topicLen bs.base StateTopic + 1 < 65536) :
    bs.calculateSerializedLength H (some sd)
      = u16 (bs.writeSerializedData H (some sd)).2.bytes.length := by
  obtain ⟨hc, -, hw⟩ := sensor_closed_forms H bs sd device hdev hname hfit
  simp only [calculateSerializedLength, hc]
  rw [Sizing.size_start_addAll, Stream.length_bytes, Stream.length_eq_sum_sizes, hw]
  simp only [List.map_cons, List.map_nil, List.sum_cons, List.sum_nil, List.map_append,
    List.sum_append, hH.base, hH.name, hH.uniqueId, hH.device, hH.availabilityOf]
  generalize (List.map Prod.snd bs.bodyTerms).sum = body
  congr 1
  omega

end HABinarySensor

theorem Stream.fields_eq_map_sizes (out : Stream) : out.fields = out.sizes.map Prod.fst := by
  simp [Stream.fields, Stream.sizes, Function.comp_def]

theorem Stream.documentFields_eq (out : Stream) :
    out.documentFields = (out.sizes.map Prod.fst).filter fun f => !f.isDelimiter := by
  rw [Stream.documentFields, Stream.fields_eq_map_sizes]

theorem Sizing.documentFields_start_addAll (l : List (Field × Nat)) :
    Sizing.documentFields (some (Sizing.start.addAll l))
      = (l.map Prod.fst).filter fun f => !f.isDelimiter := by
  simp [Sizing.documentFields, Sizing.fields, Sizing.terms_addAll, Sizing.start]

theorem specHelpers_consistent : specHelpers.Consistent := by
  have q : "\"".length = 1 := rfl
  have u : "_".length = 1 := rfl
  constructor
  · rfl
  · intro n
    simp only [specHelpers]
    split
    · rfl
    · have e : ",\"name\":\"".length = 9 := rfl
      simp only [String.length_append, e, q]
      omega
  · intro d n
    cases d with
    | none => rfl
    | some dev =>
      have e : ",\"uniq_id\":\"".length = 12 := rfl
      simp only [specHelpers, String.length_append, e, q, u]
      omega
  · intro sd
    have e : ",\"dev\":".length = 7 := rfl
    simp only [specHelpers, String.length_append, e]
    omega
  · intro dt
    simp only [specHelpers]
    split
    · have e : ",\"avty_t\":\"".length = 11 := rfl
      simp only [String.length_append, e, q]
      omega
    · rfl
  · intro m c n
    have e : ",\"avty_t\":\"".length = 11 := rfl
    simp only [specHelpers, String.length_append, e, q]
    omega

theorem HASwitch.switch_documentFields_perm (H : FieldHelpers) (sw : HASwitch)
    (sd : String) (device : HADevice) (hdev : sw.base.mqtt.getDevice = some device)
    (hname : sw.base.name.length ≠ 0) (hfit : topicLen sw.base StateTopic + 1 < 65536) :
    List.Perm (Sizing.documentFields (sw.calculateSerializedLengthPass H (some sd)))
      (Stream.documentFields (sw.writeSerializedData H (some sd)).2) := by
  rw [HASwitch.switch_calculateSerializedLengthPass_eq H sw sd device hdev hname hfit,
    Sizing.documentFields_start_addAll, Stream.documentFields_eq,
    HASwitch.switch_sizes_writeSerializedData H sw sd hname hfit]
  simp only [List.map_cons, List.map_nil]
  decide

theorem HAHVAC.hvac_documentFields_perm (H : FieldHelpers) (h : HAHVAC)
    (sd uniqueId : String) (device : HADevice) (hdev : h.base.mqtt.getDevice = some device)
    (huid : h._uniqueId = some uniqueId)
    (hname : h.base.name.length ≠ 0)
    (hfit : topicLen h.base HAHVAC.AwayCommandTopic + 1 < 65536) :
    List.Perm (Sizing.documentFields (h.calculateSerializedLengthPass H (some sd)))
      (Stream.documentFields (h.writeSerializedData H (some sd)).2) := by
  obtain ⟨hc, hw⟩ := HAHVAC.hvac_closed_forms H h sd uniqueId device hdev huid hname hfit
  rw [hc, Sizing.documentFields_start_addAll, Stream.documentFields_eq, hw]
  simp only [List.map_append, List.filter_append, List.map_cons, List.map_nil]
  have h1 : List.filter (fun f => !f.isDelimiter)
      [Field.base, Field.uniqueId, Field.device, Field.availability]
      = [Field.uniqueId, Field.device, Field.availability] := by decide
  have h2 : List.filter (fun f => !f.isDelimiter) [Field.beginJson] = [] := by decide
  have h3 : List.filter (fun f => !f.isDelimiter)
      [Field.uniqueId, Field.availability, Field.device, Field.endJson]
      = [Field.uniqueId, Field.availability, Field.device] := by decide
  rw [h1, h2, h3, List.nil_append]
  exact List.perm_append_comm.trans (List.Perm.append_left _ (by decide))

theorem HABinarySensor.sensor_documentFields_perm (H : FieldHelpers) (bs : HABinarySensor)
    (sd : String) (device : HADevice) (hdev : bs.base.mqtt.getDevice = some device)
    (hname : bs.base.name.length ≠ 0) (hfit : topicLen bs.base StateTopic + 1 < 65536) :
    List.Perm (Sizing.documentFields (bs.calculateSerializedLengthPass H (some sd)))
      (Stream.documentFields (bs.writeSerializedData H (some sd)).2) := by
  obtain ⟨hc, -, hw⟩ := HABinarySensor.sensor_closed_forms H bs sd device hdev hname hfit
  rw [hc, Sizing.documentFields_start_addAll, Stream.documentFields_eq, hw]
  cases bs.base.isAvailabilityConfigured
  · simp only [List.map_append, List.filter_append, List.map_cons, List.map_nil,
      Bool.false_eq_true, if_false, List.append_nil]
    have h1 : List.filter (fun f => !f.isDelimiter)
        [Field.base, Field.name, Field.uniqueId, Field.device]
        = [Field.name, Field.uniqueId, Field.device] := by decide
    have h2 : List.filter (fun f => !f.isDelimiter) [Field.beginJson] = [] := by decide
    have h3 : List.filter (fun f => !f.isDelimiter) [Field.name, Field.uniqueId]
        = [Field.name, Field.uniqueId] := by decide
    have h4 : List.filter (fun f => !f.isDelimiter) [Field.device, Field.endJson]
        = [Field.device] := by decide
    rw [h1, h2, h3, h4, List.nil_append, List.append_assoc]
    exact List.perm_append_comm
  · simp only [List.map_append, List.filter_append, List.map_cons, List.map_nil,
      if_true]
    have h1 : List.filter (fun f => !f.isDelimiter)
        [Field.base, Field.name, Field.uniqueId, Field.device]
        = [Field.name, Field.uniqueId, Field.device] := by decide
    have h2 : List.filter (fun f => !f.isDelimiter) [Field.beginJson] = [] := by decide
    have h3 : List.filter (fun f => !f.isDelimiter) [Field.name, Field.uniqueId]
        = [Field.name, Field.uniqueId] := by decide
    have h4 : List.filter (fun f => !f.isDelimiter) [Field.device, Field.endJson]
        = [Field.device] := by decide
    have h5 : List.filter (fun f => !f.isDelimiter) [Field.availability]
        = [Field.availability] := by decide
    rw [h1, h2, h3, h4, h5, List.nil_append]
    simp only [List.append_assoc, List.cons_append, List.nil_append]
    have hp : List.Perm [Field.name, Field.uniqueId, Field.device, Field.availability]
        [Field.name, Field.uniqueId, Field.availability, Field.device] := by decide
    exact (@List.perm_append_comm _
      [Field.name, Field.uniqueId, Field.device, Field.availability] _).trans
      (List.Perm.append_left _ hp)

theorem length_longName : longName.length = 30000 := by
  simp [longName]

theorem specHelpers_name_length (n : String) (h : n.length ≠ 0) :
    (specHelpers.mqttWriteNameField n).length = n.length + 10 := by
  have q : "\"".length = 1 := rfl
  have e : ",\"name\":\"".length = 9 := rfl
  simp only [specHelpers, h, if_false, String.length_append, e, q]
  omega

theorem specHelpers_uniqueId_length (n : String) :
    (specHelpers.mqttWriteUniqueIdField (some sampleDevice) n).length = n.length + 18 := by
  have q : "\"".length = 1 := rfl
  have u : "_".length = 1 := rfl
  have e : ",\"uniq_id\":\"".length = 12 := rfl
  have d : sampleDevice.uniqueId.length = 4 := rfl
  simp only [specHelpers, String.length_append, e, q, u, d]
  omega

theorem HASwitch.switch_lengths_of_long_name (n : String) (hn : n.length = 30000) :
    ((HASwitch.new n false okMqtt).writeSerializedData specHelpers
        (some sampleSerializedDevice)).2.bytes.length = 120128
      ∧ (HASwitch.new n false okMqtt).calculateSerializedLength specHelpers
        (some sampleSerializedDevice) = 54592 := by
  have e1 : (HASwitch.new n false okMqtt).base.mqtt.discoveryPrefix.length = 13 := rfl
  have e2 : (HASwitch.new n false okMqtt).base.componentName.length = 6 := rfl
  have e3 : (HASwitch.new n false okMqtt).base.name = n := rfl
  have e4 : CommandTopic.length = 5 := rfl
  have e5 : StateTopic.length = 6 := rfl
  have e6 : (HASwitch.new n false okMqtt).base.mqtt.getDevice = some sampleDevice := rfl
  have hn0 : n.length ≠ 0 := by omega
  have hname : (HASwitch.new n false okMqtt).base.name.length ≠ 0 := by rw [e3]; exact hn0
  have hfit : topicLen (HASwitch.new n false okMqtt).base StateTopic + 1 < 65536 := by
    simp only [topicLen, e1, e2, e3, e5, hn]
    decide
  have hb : ((HASwitch.new n false okMqtt).writeSerializedData specHelpers
      (some sampleSerializedDevice)).2.bytes.length = 120128 := by
    have d1 : (specHelpers.mqttWriteDeviceField sampleSerializedDevice).length = 21 := rfl
    have d2 : (specHelpers.mqttWriteAvailabilityField (HASwitch.new n false okMqtt).base).length
        = 0 := rfl
    have d3 : specHelpers.mqttWriteBeginningJson.length = 1 := rfl
    have d4 : specHelpers.mqttWriteEndJson.length = 1 := rfl
    rw [Stream.length_bytes, Stream.length_eq_sum_sizes,
      HASwitch.switch_sizes_writeSerializedData _ _ _ hname hfit]
    simp only [List.map_cons, List.map_nil, List.sum_cons, List.sum_nil, topicLen, e1, e2, e4,
      e5, e6, e3, specHelpers_name_length n hn0, specHelpers_uniqueId_length, d1, d2, d3, d4,
      hn, Nat.reduceAdd]
  refine ⟨hb, ?_⟩
  rw [HASwitch.switch_calculateSerializedLength_eq_u16 specHelpers specHelpers_consistent _ _
    sampleDevice e6 hname hfit, hb]
  rfl

theorem length_edgeName : edgeName.length = 65507 := by
  simp [edgeName]

theorem HABinarySensor.sensor_lengths_of_long_name (n : String) (hn : n.length = 30000) :
    ((HABinarySensor.new n false okMqtt).writeSerializedData specHelpers
        (some sampleSerializedDevice)).2.bytes.length = 90097
      ∧ (HABinarySensor.new n false okMqtt).calculateSerializedLength specHelpers
        (some sampleSerializedDevice) = 24561 := by
  have e1 : (HABinarySensor.new n false okMqtt).base.mqtt.discoveryPrefix.length = 13 := rfl
  have e2 : (HABinarySensor.new n false okMqtt).base.componentName.length = 13 := rfl
  have e3 : (HABinarySensor.new n false okMqtt).base.name = n := rfl
  have e5 : StateTopic.length = 6 := rfl
  have e6 : (HABinarySensor.new n false okMqtt).base.mqtt.getDevice = some sampleDevice := rfl
  have e7 : (HABinarySensor.new n false okMqtt).base.isAvailabilityConfigured = false := rfl
  have e8 : (HABinarySensor.new n false okMqtt)._class = none := rfl
  have hn0 : n.length ≠ 0 := by omega
  have hname : (HABinarySensor.new n false okMqtt).base.name.length ≠ 0 := by
    rw [e3]; exact hn0
  have hfit : topicLen (HABinarySensor.new n false okMqtt).base StateTopic + 1 < 65536 := by
    simp only [topicLen, e1, e2, e3, e5, hn]
    decide
  have hb : ((HABinarySensor.new n false okMqtt).writeSerializedData specHelpers
      (some sampleSerializedDevice)).2.bytes.length = 90097 := by
    have d1 : (specHelpers.mqttWriteDeviceField sampleSerializedDevice).length = 21 := rfl
    have d3 : specHelpers.mqttWriteBeginningJson.length = 1 := rfl
    have d4 : specHelpers.mqttWriteEndJson.length = 1 := rfl
    obtain ⟨-, -, hw⟩ := HABinarySensor.sensor_closed_forms specHelpers _
      sampleSerializedDevice sampleDevice e6 hname hfit
    rw [Stream.length_bytes, Stream.length_eq_sum_sizes, hw]
    simp only [HABinarySensor.bodyTerms, e7, e8, Bool.false_eq_true, if_false, List.append_nil,
      List.map_append, List.sum_append,
      List.map_cons, List.map_nil, List.sum_cons, List.sum_nil, topicLen, e1, e2,
      e5, e6, e3, specHelpers_name_length n hn0, specHelpers_uniqueId_length, d1, d3, d4,
      hn, Nat.reduceAdd]
  refine ⟨hb, ?_⟩
  rw [HABinarySensor.sensor_calculateSerializedLength_eq_u16 specHelpers specHelpers_consistent _ _
    sampleDevice e6 hname hfit, hb]
  rfl

theorem HAHVAC.hvac_lengths_of_long_name (n : String) (hn : n.length = 30000) :
    ((HAHVAC.new n 0 okMqtt).writeSerializedData specHelpers
        (some sampleSerializedDevice)).2.bytes.length = 120179
      ∧ (HAHVAC.new n 0 okMqtt).calculateSerializedLength specHelpers
        (some sampleSerializedDevice) = 54643 := by
  have e1 : (HAHVAC.new n 0 okMqtt).base.mqtt.discoveryPrefix.length = 13 := rfl
  have e2 : (HAHVAC.new n 0 okMqtt).base.componentName.length = 7 := rfl
  have e3 : (HAHVAC.new n 0 okMqtt).base.name = n := rfl
  have e4 : (HAHVAC.new n 0 okMqtt)._uniqueId = some n := rfl
  have e6 : (HAHVAC.new n 0 okMqtt).base.mqtt.getDevice = some sampleDevice := rfl
  have g1 : (HAHVAC.new n 0 okMqtt).hasFeature HAHVAC.AuxHeatingFeature = false := by
    simp [HAHVAC.hasFeature, HAHVAC.new]
  have g2 : (HAHVAC.new n 0 okMqtt).hasFeature HAHVAC.AwayModeFeature = false := by
    simp [HAHVAC.hasFeature, HAHVAC.new]
  have g3 : (HAHVAC.new n 0 okMqtt).hasFeature HAHVAC.HoldFeature = false := by
    simp [HAHVAC.hasFeature, HAHVAC.new]
  have g4 : (HAHVAC.new n 0 okMqtt).hasFeature HAHVAC.CurrentTemperatureFeature = false := by
    simp [HAHVAC.hasFeature, HAHVAC.new]
  have g5 : Double.ne (HAHVAC.new n 0 okMqtt)._minTemp (.ofInt 255) = false := by
    show Double.ne (.ofInt 255) (.ofInt 255) = false
    decide
  have g6 : Double.ne (HAHVAC.new n 0 okMqtt)._maxTemp (.ofInt 255) = false := by
    show Double.ne (.ofInt 255) (.ofInt 255) = false
    decide
  have g7 : (specHelpers.tempToStr (HAHVAC.new n 0 okMqtt)._tempStep).length = 1 := by
    show (specHelpers.tempToStr (.ofInt 1)).length = 1
    decide
  have g8 : (HAHVAC.new n 0 okMqtt)._label = none := rfl
  have g9 : (HAHVAC.new n 0 okMqtt)._temperatureUnit = .DefaultUnit := rfl
  have t1 : HAHVAC.ActionTopic.length = 2 := rfl
  have t2 : HAHVAC.AwayCommandTopic.length = 4 := rfl
  have t3 : HAHVAC.TargetTemperatureCommandTopic.length = 4 := rfl
  have t4 : HAHVAC.TargetTemperatureStateTopic.length = 4 := rfl
  have hn0 : n.length ≠ 0 := by omega
  have hname : (HAHVAC.new n 0 okMqtt).base.name.length ≠ 0 := by
    rw [e3]; exact hn0
  have hfit : topicLen (HAHVAC.new n 0 okMqtt).base HAHVAC.AwayCommandTopic + 1 < 65536 := by
    simp only [topicLen, e1, e2, e3, t2, hn]
    decide
  have hb : ((HAHVAC.new n 0 okMqtt).writeSerializedData specHelpers
      (some sampleSerializedDevice)).2.bytes.length = 120179 := by
    have d1 : (specHelpers.mqttWriteDeviceField sampleSerializedDevice).length = 21 := rfl
    have d2 : (specHelpers.mqttWriteAvailabilityField (HAHVAC.new n 0 okMqtt).base).length
        = 0 := rfl
    have d3 : specHelpers.mqttWriteBeginningJson.length = 1 := rfl
    have d4 : specHelpers.mqttWriteEndJson.length = 1 := rfl
    obtain ⟨-, hw⟩ := HAHVAC.hvac_closed_forms specHelpers _
      sampleSerializedDevice n sampleDevice e6 e4 hname hfit
    rw [Stream.length_bytes, Stream.length_eq_sum_sizes, hw]
    simp only [HAHVAC.bodyTerms, g1, g2, g3, g4, g5, g6, g7, g8, g9, ne_eq, not_true,
      Bool.false_eq_true, if_false, List.append_nil,
      List.map_append, List.sum_append,
      List.map_cons, List.map_nil, List.sum_cons, List.sum_nil, topicLen, e1, e2, t1, t3, t4,
      e6, e3, specHelpers_uniqueId_length, d1, d2, d3, d4,
      hn, Nat.reduceAdd]
  refine ⟨hb, ?_⟩
  rw [HAHVAC.hvac_calculateSerializedLength_eq_u16 specHelpers specHelpers_consistent _ _ n
    sampleDevice e6 e4 hname hfit, hb]
  rfl

theorem HASwitch.switch_documentFields_of_edge_name (n : String) (hn : n.length = 65507) :
    Sizing.documentFields ((HASwitch.new n false okMqtt).calculateSerializedLengthPass
        specHelpers (some sampleSerializedDevice))
        = [.name, .uniqueId, .device, .availability, .topic CommandTopic, .topic StateTopic]
      ∧ Stream.documentFields ((HASwitch.new n false okMqtt).writeSerializedData
        specHelpers (some sampleSerializedDevice)).2
        = [.topic CommandTopic, .name, .uniqueId, .availability, .device] := by
  have e1 : (HASwitch.new n false okMqtt).base.mqtt.discoveryPrefix.length = 13 := rfl
  have e2 : (HASwitch.new n false okMqtt).base.componentName.length = 6 := rfl
  have e3 : (HASwitch.new n false okMqtt).base.name = n := rfl
  have e4 : CommandTopic.length = 5 := rfl
  have e5 : StateTopic.length = 6 := rfl
  have e6 : (HASwitch.new n false okMqtt).base.mqtt.getDevice = some sampleDevice := rfl
  have hn0 : n.length ≠ 0 := by omega
  have hname : (HASwitch.new n false okMqtt).base.name.length ≠ 0 := by rw [e3]; exact hn0
  have hc : CommandTopic.length ≠ 0 := by decide
  have hfitc : topicLen (HASwitch.new n false okMqtt).base CommandTopic + 1 < 65536 := by
    simp only [topicLen, e1, e2, e3, e4, hn]
    decide
  have hcf : calculateTopicLength (HASwitch.new n false okMqtt).base.mqtt.discoveryPrefix
      (HASwitch.new n false okMqtt).base.componentName (HASwitch.new n false okMqtt).base.name
      CommandTopic false = 65534 := by
    simp only [calculateTopicLength, e1, e2, e3, e4, hn]
    rfl
  have hsf : calculateTopicLength (HASwitch.new n false okMqtt).base.mqtt.discoveryPrefix
      (HASwitch.new n false okMqtt).base.componentName (HASwitch.new n false okMqtt).base.name
      StateTopic false = 65535 := by
    simp only [calculateTopicLength, e1, e2, e3, e5, hn]
    rfl
  have hst : calculateTopicLength (HASwitch.new n false okMqtt).base.mqtt.discoveryPrefix
      (HASwitch.new n false okMqtt).base.componentName (HASwitch.new n false okMqtt).base.name
      StateTopic true = 0 := by
    simp only [calculateTopicLength, e1, e2, e3, e5, hn]
    rfl
  have z1 : ¬ ((65534 : Nat) = 0) := by decide
  have z2 : ¬ ((65535 : Nat) = 0) := by decide
  constructor
  · simp only [HASwitch.calculateSerializedLengthPass, e6, Sizing.addTopic, hcf, hsf,
      if_neg z1, if_neg z2, Option.bind_eq_bind, Option.some_bind, Option.pure_def,
      Sizing.add_eq_addAll, Sizing.addAll_addAll]
    rw [Sizing.documentFields_start_addAll]
    simp only [List.cons_append, List.nil_append, List.map_cons, List.map_nil]
    decide
  · have hws : (mqttWriteTopicField (HASwitch.new n false okMqtt).base ",\"stat_t\":\""
        StateTopic).2 = [] := by
      simp only [mqttWriteTopicField, hst, if_true]
    have l1 : "\"cmd_t\":\"".length = 9 := rfl
    rw [Stream.documentFields_eq]
    simp only [HASwitch.writeSerializedData, hws, Stream.sizes_append, Stream.sizes_cons,
      Stream.sizes_nil, sizes_mqttWriteTopicField _ hname hc hfitc, l1,
      List.cons_append, List.nil_append, List.map_cons, List.map_nil, List.append_nil]
    decide

/-- C1 (as amended): for every switch configuration for which
`calculateSerializedLength` returns a non-zero value, whose state topic with
its terminator is shorter than 65536 bytes and whose document is shorter than
65536 bytes, the number of bytes `writeSerializedData` emits equals the value
`calculateSerializedLength` returns, assuming each `calculate...FieldSize`
helper returns exactly the byte count its `mqttWrite...` helper emits. -/
theorem HASwitch.switch_writeSerializedData_length_eq (H : FieldHelpers) (hH : H.Consistent)
    (sw : HASwitch) (serializedDevice : Option String)
    (hnz : sw.calculateSerializedLength H serializedDevice ≠ 0)
    (hfit : topicLen sw.base StateTopic + 1 < 65536)
    (hdoc : (sw.writeSerializedData H serializedDevice).2.bytes.length < 65536) :
    (sw.writeSerializedData H serializedDevice).2.bytes.length
      = sw.calculateSerializedLength H serializedDevice := by
  obtain ⟨hname, ⟨sd, rfl⟩, ⟨device, hdev⟩⟩ :=
    HASwitch.switch_name_ne_of_calculateSerializedLength_ne_zero hnz
  rw [HASwitch.switch_calculateSerializedLength_eq_u16 H hH sw sd device hdev hname hfit,
    u16_of_lt hdoc]

/-- Witness of C1 (as amended): the switch `relay1` with the field helpers of
the spec. -/
theorem HASwitch.switch_writeSerializedData_length_eq_witness :
    (relay1.writeSerializedData specHelpers (some sampleSerializedDevice)).2.bytes.length
      = relay1.calculateSerializedLength specHelpers (some sampleSerializedDevice) :=
  HASwitch.switch_writeSerializedData_length_eq specHelpers specHelpers_consistent relay1
    (some sampleSerializedDevice) (by decide) (by decide)
    (by rw [Stream.length_bytes]; decide)

/-- C1 (as stated) fails: for the switch whose object id has 30000 characters,
with helpers whose sizes are exact, `calculateSerializedLength` returns the
non-zero value 54592 while `writeSerializedData` emits 120128 bytes. -/
theorem HASwitch.switch_writeSerializedData_length_counterexample :
    specHelpers.Consistent
      ∧ longSwitch.calculateSerializedLength specHelpers (some sampleSerializedDevice) = 54592
      ∧ (longSwitch.writeSerializedData specHelpers
          (some sampleSerializedDevice)).2.bytes.length = 120128 :=
  ⟨specHelpers_consistent, (HASwitch.switch_lengths_of_long_name longName length_longName).2,
    (HASwitch.switch_lengths_of_long_name longName length_longName).1⟩

/-- C2 (as amended): for every climate configuration (feature flags, min/max
temperature set or unset, temperature step, label, unit) for which
`calculateSerializedLength` returns a non-zero value, whose topics with their
terminator are shorter than 65536 bytes (the longest suffix has four
characters) and whose document is shorter than 65536 bytes, the number of bytes
`writeSerializedData` emits equals the value `calculateSerializedLength`
returns, the helper sizes being exact. The decorator constants 10, 15, 16, 21,
22, 16, 17, 17, 14, 14, 15, 10, 16, 17 are each the length of the JSON prefix
written plus the closing quote; for `temp_unit` that length is 15, and the 16
added counts the one-letter unit as well. -/
theorem HAHVAC.hvac_writeSerializedData_length_eq (H : FieldHelpers) (hH : H.Consistent)
    (h : HAHVAC) (serializedDevice : Option String)
    (hnz : h.calculateSerializedLength H serializedDevice ≠ 0)
    (hfit : topicLen h.base HAHVAC.AwayCommandTopic + 1 < 65536)
    (hdoc : (h.writeSerializedData H serializedDevice).2.bytes.length < 65536) :
    (h.writeSerializedData H serializedDevice).2.bytes.length
        = h.calculateSerializedLength H serializedDevice
      ∧ "\"act_t\":\"".length + 1 = 10
      ∧ ",\"aux_cmd_t\":\"".length + 1 = 15
      ∧ ",\"aux_stat_t\":\"".length + 1 = 16
      ∧ ",\"away_mode_cmd_t\":\"".length + 1 = 21
      ∧ ",\"away_mode_stat_t\":\"".length + 1 = 22
      ∧ ",\"hold_cmd_t\":\"".length + 1 = 16
      ∧ ",\"hold_stat_t\":\"".length + 1 = 17
      ∧ ",\"curr_temp_t\":\"".length + 1 = 17
      ∧ ",\"min_temp\":\"".length + 1 = 14
      ∧ ",\"max_temp\":\"".length + 1 = 14
      ∧ ",\"temp_step\":\"".length + 1 = 15
      ∧ ",\"name\":\"".length + 1 = 10
      ∧ ",\"temp_cmd_t\":\"".length + 1 = 16
      ∧ ",\"temp_stat_t\":\"".length + 1 = 17
      ∧ ",\"temp_unit\":\"".length + 1 = 15
      ∧ ",\"temp_unit\":\"".length + 1
        + (if h._temperatureUnit = .CelsiusUnit then "C" else "F").length = 16 := by
  obtain ⟨hname, ⟨sd, rfl⟩, ⟨uniqueId, huid⟩, ⟨device, hdev⟩⟩ :=
    HAHVAC.hvac_facts_of_calculateSerializedLength_ne_zero hnz
  refine ⟨?_, rfl, rfl, rfl, rfl, rfl, rfl, rfl, rfl, rfl, rfl, rfl, rfl, rfl, rfl, rfl, ?_⟩
  · rw [HAHVAC.hvac_calculateSerializedLength_eq_u16 H hH h sd uniqueId device hdev huid hname hfit,
      u16_of_lt hdoc]
  · split <;> rfl

/-- Witness of C2 (as amended): the climate entity `hvac1` with every feature,
both bounds, a label and degrees Celsius; its document has 611 bytes. -/
theorem HAHVAC.hvac_writeSerializedData_length_eq_witness :
    (hvac1Full.writeSerializedData specHelpers (some sampleSerializedDevice)).2.bytes.length
        = hvac1Full.calculateSerializedLength specHelpers (some sampleSerializedDevice)
      ∧ hvac1Full.calculateSerializedLength specHelpers (some sampleSerializedDevice) = 611 :=
  ⟨(HAHVAC.hvac_writeSerializedData_length_eq specHelpers specHelpers_consistent hvac1Full
    (some sampleSerializedDevice) (by decide) (by decide)
    (by rw [Stream.length_bytes]; decide)).1, by decide⟩

/-- C2 (as stated) fails. With an empty unique id `calculateSerializedLength`
returns 0 while `writeSerializedData` emits 57 bytes; with a unique id of 30000
characters it returns 54643 while 120179 bytes are emitted; and setting the
unit adds 16 to the size, one more than the 15 bytes of the `temp_unit` prefix
and the closing quote. -/
theorem HAHVAC.hvac_writeSerializedData_length_counterexample :
    (anonymousHVAC.calculateSerializedLength specHelpers (some sampleSerializedDevice) = 0
        ∧ (anonymousHVAC.writeSerializedData specHelpers
            (some sampleSerializedDevice)).2.bytes.length = 57)
      ∧ (longHVAC.calculateSerializedLength specHelpers (some sampleSerializedDevice) = 54643
        ∧ (longHVAC.writeSerializedData specHelpers
            (some sampleSerializedDevice)).2.bytes.length = 120179)
      ∧ (hvac1Celsius.calculateSerializedLength specHelpers (some sampleSerializedDevice)
          = hvac1.calculateSerializedLength specHelpers (some sampleSerializedDevice) + 16
        ∧ ",\"temp_unit\":\"".length + 1 = 15) :=
  ⟨by decide,
   ⟨(HAHVAC.hvac_lengths_of_long_name longName length_longName).2,
    (HAHVAC.hvac_lengths_of_long_name longName length_longName).1⟩,
   by decide⟩

/-- C3 (as amended): for every binary-sensor configuration (with or without a
device class, with or without a configured availability topic) for which
`calculateSerializedLength` returns a non-zero value, whose state topic with
its terminator is shorter than 65536 bytes and whose document is shorter than
65536 bytes, `writeSerializedData` returns true and the number of bytes it
emits equals the value `calculateSerializedLength` returns, the helper sizes
being exact; the decoration of `stat_t` is 11 bytes and that of `dev_cla` 13
bytes, prefix and closing quote. -/
theorem HABinarySensor.sensor_writeSerializedData_length_eq (H : FieldHelpers) (hH : H.Consistent)
    (bs : HABinarySensor) (serializedDevice : Option String)
    (hnz : bs.calculateSerializedLength H serializedDevice ≠ 0)
    (hfit : topicLen bs.base StateTopic + 1 < 65536)
    (hdoc : (bs.writeSerializedData H serializedDevice).2.bytes.length < 65536) :
    (bs.writeSerializedData H serializedDevice).1 = true
      ∧ (bs.writeSerializedData H serializedDevice).2.bytes.length
        = bs.calculateSerializedLength H serializedDevice
      ∧ "\"stat_t\":\"".length + 1 = 11
      ∧ ",\"dev_cla\":\"".length + 1 = 13 := by
  obtain ⟨hname, ⟨sd, rfl⟩, ⟨device, hdev⟩⟩ :=
    HABinarySensor.sensor_facts_of_calculateSerializedLength_ne_zero hnz
  refine ⟨(HABinarySensor.sensor_closed_forms H bs sd device hdev hname hfit).2.1, ?_, rfl, rfl⟩
  rw [HABinarySensor.sensor_calculateSerializedLength_eq_u16 H hH bs sd device hdev hname hfit,
    u16_of_lt hdoc]

/-- Witness of C3 (as amended): the binary sensor `door1` with a device class
and an availability topic; its document has 179 bytes. -/
theorem HABinarySensor.sensor_writeSerializedData_length_eq_witness :
    ((door1.writeSerializedData specHelpers (some sampleSerializedDevice)).1 = true
        ∧ (door1.writeSerializedData specHelpers (some sampleSerializedDevice)).2.bytes.length
          = door1.calculateSerializedLength specHelpers (some sampleSerializedDevice)
        ∧ "\"stat_t\":\"".length + 1 = 11
        ∧ ",\"dev_cla\":\"".length + 1 = 13)
      ∧ door1.calculateSerializedLength specHelpers (some sampleSerializedDevice) = 179 :=
  ⟨HABinarySensor.sensor_writeSerializedData_length_eq specHelpers specHelpers_consistent door1
    (some sampleSerializedDevice) (by decide) (by decide)
    (by rw [Stream.length_bytes]; decide), by decide⟩

/-- C3 (as stated) fails. With an empty object id `calculateSerializedLength`
returns 0 while `writeSerializedData` emits the opening brace, one byte, before
it gives up; with an object id of 30000 characters it returns 24561 while 90097
bytes are emitted. -/
theorem HABinarySensor.sensor_writeSerializedData_length_counterexample :
    (anonymousSensor.calculateSerializedLength specHelpers (some sampleSerializedDevice) = 0
        ∧ (anonymousSensor.writeSerializedData specHelpers
            (some sampleSerializedDevice)).2.bytes.length = 1)
      ∧ (longSensor.calculateSerializedLength specHelpers (some sampleSerializedDevice)
          = 24561
        ∧ (longSensor.writeSerializedData specHelpers
            (some sampleSerializedDevice)).2.bytes.length = 90097) :=
  ⟨by decide,
   ⟨(HABinarySensor.sensor_lengths_of_long_name longName length_longName).2,
    (HABinarySensor.sensor_lengths_of_long_name longName length_longName).1⟩⟩

/-- C4 (as amended): for each entity kind (switch, binary sensor, climate) and
every configuration for which `calculateSerializedLength` returns a non-zero
value and whose topics with their terminator are shorter than 65536 bytes, the
fields whose sizes `calculateSerializedLength` adds up are the fields
`writeSerializedData` emits, each as many times, in another order (a
permutation): the calculation starts with name, unique id, device and
availability, which the write pass emits last. -/
theorem passes_visit_same_fields :
    (∀ (H : FieldHelpers) (sw : HASwitch) (serializedDevice : Option String),
      sw.calculateSerializedLength H serializedDevice ≠ 0 →
      topicLen sw.base StateTopic + 1 < 65536 →
      List.Perm (Sizing.documentFields (sw.calculateSerializedLengthPass H serializedDevice))
        (Stream.documentFields (sw.writeSerializedData H serializedDevice).2))
    ∧ (∀ (H : FieldHelpers) (bs : HABinarySensor) (serializedDevice : Option String),
      bs.calculateSerializedLength H serializedDevice ≠ 0 →
      topicLen bs.base StateTopic + 1 < 65536 →
      List.Perm (Sizing.documentFields (bs.calculateSerializedLengthPass H serializedDevice))
        (Stream.documentFields (bs.writeSerializedData H serializedDevice).2))
    ∧ (∀ (H : FieldHelpers) (h : HAHVAC) (serializedDevice : Option String),
      h.calculateSerializedLength H serializedDevice ≠ 0 →
      topicLen h.base HAHVAC.AwayCommandTopic + 1 < 65536 →
      List.Perm (Sizing.documentFields (h.calculateSerializedLengthPass H serializedDevice))
        (Stream.documentFields (h.writeSerializedData H serializedDevice).2)) := by
  refine ⟨?_, ?_, ?_⟩
  · intro H sw serializedDevice hnz hfit
    obtain ⟨hname, ⟨sd, rfl⟩, ⟨device, hdev⟩⟩ :=
      HASwitch.switch_name_ne_of_calculateSerializedLength_ne_zero hnz
    exact HASwitch.switch_documentFields_perm H sw sd device hdev hname hfit
  · intro H bs serializedDevice hnz hfit
    obtain ⟨hname, ⟨sd, rfl⟩, ⟨device, hdev⟩⟩ :=
      HABinarySensor.sensor_facts_of_calculateSerializedLength_ne_zero hnz
    exact HABinarySensor.sensor_documentFields_perm H bs sd device hdev hname hfit
  · intro H h serializedDevice hnz hfit
    obtain ⟨hname, ⟨sd, rfl⟩, ⟨uniqueId, huid⟩, ⟨device, hdev⟩⟩ :=
      HAHVAC.hvac_facts_of_calculateSerializedLength_ne_zero hnz
    exact HAHVAC.hvac_documentFields_perm H h sd uniqueId device hdev huid hname hfit

/-- Witness of C4 (as amended): the switch `relay1`, the binary sensor `door1`
and the climate entity `hvac1` with every feature. -/
theorem passes_visit_same_fields_witness :
    List.Perm
        (Sizing.documentFields
          (relay1.calculateSerializedLengthPass specHelpers (some sampleSerializedDevice)))
        (Stream.documentFields
          (relay1.writeSerializedData specHelpers (some sampleSerializedDevice)).2)
      ∧ List.Perm
        (Sizing.documentFields
          (door1.calculateSerializedLengthPass specHelpers (some sampleSerializedDevice)))
        (Stream.documentFields
          (door1.writeSerializedData specHelpers (some sampleSerializedDevice)).2)
      ∧ List.Perm
        (Sizing.documentFields
          (hvac1Full.calculateSerializedLengthPass specHelpers (some sampleSerializedDevice)))
        (Stream.documentFields
          (hvac1Full.writeSerializedData specHelpers (some sampleSerializedDevice)).2) :=
  ⟨passes_visit_same_fields.1 specHelpers relay1 (some sampleSerializedDevice) (by decide)
    (by decide),
   passes_visit_same_fields.2.1 specHelpers door1 (some sampleSerializedDevice) (by decide)
    (by decide),
   passes_visit_same_fields.2.2 specHelpers hvac1Full (some sampleSerializedDevice) (by decide)
    (by decide)⟩

/-- C4 (as stated) fails. For the switch `relay1` the calculation adds up name,
unique id, device, availability, command topic, state topic, while the write
pass emits command topic, state topic, name, unique id, availability, device:
the same fields in another order. With an empty object id the calculation
returns early and adds up no field while four fields are written. With an
object id of 65507 characters the state topic has 65535 characters, which the
calculation counts, while the write pass, sizing it with its terminator, gets 0
and leaves the field out. -/
theorem documentFields_order_counterexample :
    (Sizing.documentFields
          (relay1.calculateSerializedLengthPass specHelpers (some sampleSerializedDevice))
        = [.name, .uniqueId, .device, .availability, .topic "cmd_t", .topic "stat_t"]
      ∧ Stream.documentFields
          (relay1.writeSerializedData specHelpers (some sampleSerializedDevice)).2
        = [.topic "cmd_t", .topic "stat_t", .name, .uniqueId, .availability, .device])
    ∧ (Sizing.documentFields
          (anonymousSwitch.calculateSerializedLengthPass specHelpers
            (some sampleSerializedDevice)) = []
      ∧ Stream.documentFields
          (anonymousSwitch.writeSerializedData specHelpers (some sampleSerializedDevice)).2
        = [.name, .uniqueId, .availability, .device])
    ∧ (Sizing.documentFields
          (edgeSwitch.calculateSerializedLengthPass specHelpers (some sampleSerializedDevice))
        = [.name, .uniqueId, .device, .availability, .topic CommandTopic, .topic StateTopic]
      ∧ Stream.documentFields
          (edgeSwitch.writeSerializedData specHelpers (some sampleSerializedDevice)).2
        = [.topic CommandTopic, .name, .uniqueId, .availability, .device]) :=
  ⟨by decide, by decide, HASwitch.switch_documentFields_of_edge_name edgeName length_edgeName⟩

end Serialization

/-! ## Transport log -/

namespace HAMqtt

theorem appendLog_nil (m : HAMqtt) : m.appendLog [] = m := by
  simp [appendLog]

theorem appendLog_appendLog (m : HAMqtt) (a b : List MqttOp) :
    (m.appendLog a).appendLog b = m.appendLog (a ++ b) := by
  simp [appendLog]

theorem call_eq (m : HAMqtt) (op : MqttOp) :
    m.call op = (m.respond m.log op, m.appendLog [op]) := rfl

theorem writeStream_eq (m : HAMqtt) (out : Stream) :
    m.writeStream out = m.appendLog (out.map fun p => MqttOp.writePayload p.2) := by
  induction out generalizing m with
  | nil => simp [writeStream, appendLog]
  | cons p out ih =>
    show (m.writePayload p.2).writeStream out = _
    rw [ih]
    simp [writePayload, call, appendLog]

theorem resultsFrom_append (respond : List MqttOp → MqttOp → Bool) (done a b : List MqttOp) :
    resultsFrom respond done (a ++ b)
      = resultsFrom respond done a ++ resultsFrom respond (done ++ a) b := by
  induction a generalizing done with
  | nil => simp [resultsFrom]
  | cons op a ih => simp [resultsFrom, ih]

theorem results_appendLog (m : HAMqtt) (ops : List MqttOp) :
    (m.appendLog ops).results = m.results ++ resultsFrom m.respond m.log ops := by
  simp [results, appendLog, resultsFrom_append]

end HAMqtt

namespace DeviceTypeSerializer

theorem facts_of_calculateTopicLength_ne_zero {discovery component objectId suffix : String}
    {t : Bool} (h : calculateTopicLength discovery component objectId suffix t ≠ 0) :
    objectId.length ≠ 0 ∧ suffix.length ≠ 0 := by
  unfold calculateTopicLength at h
  split at h
  · exact absurd rfl h
  · rename_i hc
    exact not_or.mp hc

theorem generateTopic_ne_empty_of_calculateTopicLength_ne_zero
    {discovery component objectId suffix : String} {t : Bool}
    (h : calculateTopicLength discovery component objectId suffix t ≠ 0) :
    (generateTopic discovery component objectId suffix).1.length ≠ 0 := by
  obtain ⟨hid, hsuf⟩ := facts_of_calculateTopicLength_ne_zero h
  rw [generateTopic_length_of_nonempty hid hsuf]
  omega

theorem mqttPublishMessage_eq (dt : BaseDeviceType) (topicSuffix data : String) :
    mqttPublishMessage dt topicSuffix data
      = if calculateTopicLength dt.mqtt.discoveryPrefix dt.componentName dt.name topicSuffix true
            = 0 then (false, dt.mqtt)
        else
          (dt.mqtt.respond dt.mqtt.log (.publish (generateTopic dt.mqtt.discoveryPrefix
              dt.componentName dt.name topicSuffix).1 data true),
            dt.mqtt.appendLog [.publish (generateTopic dt.mqtt.discoveryPrefix
              dt.componentName dt.name topicSuffix).1 data true]) := by
  unfold mqttPublishMessage
  dsimp only
  split
  · rfl
  · rename_i h
    rw [if_neg (generateTopic_ne_empty_of_calculateTopicLength_ne_zero h)]
    rfl

theorem mqttSubscribeTopic_eq (dt : BaseDeviceType) (topicSuffix : String) :
    mqttSubscribeTopic dt topicSuffix
      = if calculateTopicLength dt.mqtt.discoveryPrefix dt.componentName dt.name topicSuffix true
            = 0 then (false, dt.mqtt)
        else
          (dt.mqtt.respond dt.mqtt.log (.subscribe (generateTopic dt.mqtt.discoveryPrefix
              dt.componentName dt.name topicSuffix).1),
            dt.mqtt.appendLog [.subscribe (generateTopic dt.mqtt.discoveryPrefix
              dt.componentName dt.name topicSuffix).1]) := by
  unfold mqttSubscribeTopic
  dsimp only
  split
  · rfl
  · rename_i h
    rw [if_neg (generateTopic_ne_empty_of_calculateTopicLength_ne_zero h)]
    rfl

end DeviceTypeSerializer

/-! ## Publishing the configuration -/

open DeviceTypeSerializer

theorem HASwitch.switch_withMqtt_self (sw : HASwitch) : sw.withMqtt sw.base.mqtt = sw := rfl

theorem HASwitch.switch_withMqtt_withMqtt (sw : HASwitch) (m m2 : HAMqtt) :
    (sw.withMqtt m).withMqtt m2 = sw.withMqtt m2 := rfl

theorem HASwitch.switch_publishConfig_of_ready (H : FieldHelpers) (sw : HASwitch)
    (device : HADevice) (hd : sw.base.mqtt.getDevice = some device)
    (h1 : device.calculateSerializedLength ≠ 0) (h2 : device.serialize.2 ≠ 0)
    (h3 : calculateTopicLength sw.base.mqtt.discoveryPrefix sw.base.componentName
      sw.base.name ConfigTopic true ≠ 0)
    (h4 : sw.calculateSerializedLength H (some device.serialize.1) ≠ 0) :
    (sw.base.mqtt.respond sw.base.mqtt.log (.beginPublish
          (generateTopic sw.base.mqtt.discoveryPrefix sw.base.componentName sw.base.name
            ConfigTopic).1 (sw.calculateSerializedLength H (some device.serialize.1)) true)
          = false
        ∧ sw.publishConfig H = sw.withMqtt (sw.base.mqtt.appendLog [.beginPublish
          (generateTopic sw.base.mqtt.discoveryPrefix sw.base.componentName sw.base.name
            ConfigTopic).1 (sw.calculateSerializedLength H (some device.serialize.1)) true]))
      ∨ (sw.base.mqtt.respond sw.base.mqtt.log (.beginPublish
          (generateTopic sw.base.mqtt.discoveryPrefix sw.base.componentName sw.base.name
            ConfigTopic).1 (sw.calculateSerializedLength H (some device.serialize.1)) true)
          = true
        ∧ ∃ writes : List String,
          sw.publishConfig H = sw.withMqtt (sw.base.mqtt.appendLog ([.beginPublish
            (generateTopic sw.base.mqtt.discoveryPrefix sw.base.componentName sw.base.name
              ConfigTopic).1 (sw.calculateSerializedLength H (some device.serialize.1)) true]
            ++ writes.map MqttOp.writePayload ++ [.endPublish]))) := by
  unfold HASwitch.publishConfig
  rw [hd]
  dsimp only
  rw [if_neg h1, if_neg h2, if_neg (not_or.mpr ⟨h3, h4⟩),
    if_neg (generateTopic_ne_empty_of_calculateTopicLength_ne_zero h3)]
  simp only [HAMqtt.beginPublish, HAMqtt.call_eq]
  cases hr : sw.base.mqtt.respond sw.base.mqtt.log (.beginPublish
            (generateTopic sw.base.mqtt.discoveryPrefix sw.base.componentName sw.base.name
              ConfigTopic).1 (sw.calculateSerializedLength H (some device.serialize.1)) true)
  · left
    simp
  · right
    refine ⟨rfl, (((sw.withMqtt (sw.base.mqtt.appendLog [.beginPublish
            (generateTopic sw.base.mqtt.discoveryPrefix sw.base.componentName sw.base.name
              ConfigTopic).1 (sw.calculateSerializedLength H (some device.serialize.1))
            true])).writeSerializedData H (some device.serialize.1)).2.map Prod.snd), ?_⟩
    simp only [if_true, HAMqtt.writeStream_eq, HAMqtt.endPublish, HAMqtt.call_eq,
      HASwitch.switch_withMqtt_withMqtt, HAMqtt.appendLog_appendLog]
    simp only [HASwitch.withMqtt, HAMqtt.appendLog_appendLog, List.map_map]
    rfl

theorem HASwitch.switch_publishConfig_cases (H : FieldHelpers) (sw : HASwitch) :
    sw.publishConfig H = sw
    ∨ ∃ device, sw.base.mqtt.getDevice = some device
        ∧ device.calculateSerializedLength ≠ 0 ∧ device.serialize.2 ≠ 0
        ∧ calculateTopicLength sw.base.mqtt.discoveryPrefix sw.base.componentName
            sw.base.name ConfigTopic true ≠ 0
        ∧ sw.calculateSerializedLength H (some device.serialize.1) ≠ 0
        ∧ ((sw.base.mqtt.respond sw.base.mqtt.log (.beginPublish
              (generateTopic sw.base.mqtt.discoveryPrefix sw.base.componentName sw.base.name
                ConfigTopic).1 (sw.calculateSerializedLength H (some device.serialize.1)) true)
              = false
            ∧ sw.publishConfig H = sw.withMqtt (sw.base.mqtt.appendLog [.beginPublish
              (generateTopic sw.base.mqtt.discoveryPrefix sw.base.componentName sw.base.name
                ConfigTopic).1 (sw.calculateSerializedLength H (some device.serialize.1)) true]))
          ∨ (sw.base.mqtt.respond sw.base.mqtt.log (.beginPublish
              (generateTopic sw.base.mqtt.discoveryPrefix sw.base.componentName sw.base.name
                ConfigTopic).1 (sw.calculateSerializedLength H (some device.serialize.1)) true)
              = true
            ∧ ∃ writes : List String,
              sw.publishConfig H = sw.withMqtt (sw.base.mqtt.appendLog ([.beginPublish
                (generateTopic sw.base.mqtt.discoveryPrefix sw.base.componentName sw.base.name
                  ConfigTopic).1 (sw.calculateSerializedLength H (some device.serialize.1)) true]
                ++ writes.map MqttOp.writePayload ++ [.endPublish])))) := by
  cases hd : sw.base.mqtt.getDevice with
  | none => exact Or.inl (by simp [HASwitch.publishConfig, hd])
  | some device =>
    by_cases h1 : device.calculateSerializedLength = 0
    · exact Or.inl (by simp [HASwitch.publishConfig, hd, h1])
    by_cases h2 : device.serialize.2 = 0
    · exact Or.inl (by simp [HASwitch.publishConfig, hd, h2])
    by_cases h3 : calculateTopicLength sw.base.mqtt.discoveryPrefix sw.base.componentName
        sw.base.name ConfigTopic true = 0
    · exact Or.inl (by simp [HASwitch.publishConfig, hd, h3])
    by_cases h4 : sw.calculateSerializedLength H (some device.serialize.1) = 0
    · exact Or.inl (by simp [HASwitch.publishConfig, hd, h4])
    exact Or.inr ⟨device, rfl, h1, h2, h3, h4,
      HASwitch.switch_publishConfig_of_ready H sw device hd h1 h2 h3 h4⟩

theorem HABinarySensor.sensor_withMqtt_self (bs : HABinarySensor) : bs.withMqtt bs.base.mqtt = bs := rfl

theorem HABinarySensor.sensor_withMqtt_withMqtt (bs : HABinarySensor) (m m2 : HAMqtt) :
    (bs.withMqtt m).withMqtt m2 = bs.withMqtt m2 := rfl

theorem HABinarySensor.sensor_publishConfig_of_ready (H : FieldHelpers) (bs : HABinarySensor)
    (device : HADevice) (hd : bs.base.mqtt.getDevice = some device)
    (h1 : device.calculateSerializedLength ≠ 0) (h2 : device.serialize.2 ≠ 0)
    (h3 : calculateTopicLength bs.base.mqtt.discoveryPrefix bs.base.componentName
      bs.base.name ConfigTopic true ≠ 0)
    (h4 : bs.calculateSerializedLength H (some device.serialize.1) ≠ 0) :
    (bs.base.mqtt.respond bs.base.mqtt.log (.beginPublish
          (generateTopic bs.base.mqtt.discoveryPrefix bs.base.componentName bs.base.name
            ConfigTopic).1 (bs.calculateSerializedLength H (some device.serialize.1)) true)
          = false
        ∧ bs.publishConfig H = bs.withMqtt (bs.base.mqtt.appendLog [.beginPublish
          (generateTopic bs.base.mqtt.discoveryPrefix bs.base.componentName bs.base.name
            ConfigTopic).1 (bs.calculateSerializedLength H (some device.serialize.1)) true]))
      ∨ (bs.base.mqtt.respond bs.base.mqtt.log (.beginPublish
          (generateTopic bs.base.mqtt.discoveryPrefix bs.base.componentName bs.base.name
            ConfigTopic).1 (bs.calculateSerializedLength H (some device.serialize.1)) true)
          = true
        ∧ ∃ writes : List String,
          bs.publishConfig H = bs.withMqtt (bs.base.mqtt.appendLog ([.beginPublish
            (generateTopic bs.base.mqtt.discoveryPrefix bs.base.componentName bs.base.name
              ConfigTopic).1 (bs.calculateSerializedLength H (some device.serialize.1)) true]
            ++ writes.map MqttOp.writePayload ++ [.endPublish]))) := by
  unfold HABinarySensor.publishConfig
  rw [hd]
  dsimp only
  rw [if_neg h1, if_neg h2, if_neg (not_or.mpr ⟨h3, h4⟩),
    if_neg (generateTopic_ne_empty_of_calculateTopicLength_ne_zero h3)]
  simp only [HAMqtt.beginPublish, HAMqtt.call_eq]
  cases hr : bs.base.mqtt.respond bs.base.mqtt.log (.beginPublish
            (generateTopic bs.base.mqtt.discoveryPrefix bs.base.componentName bs.base.name
              ConfigTopic).1 (bs.calculateSerializedLength H (some device.serialize.1)) true)
  · left
    simp
  · right
    refine ⟨rfl, (((bs.withMqtt (bs.base.mqtt.appendLog [.beginPublish
            (generateTopic bs.base.mqtt.discoveryPrefix bs.base.componentName bs.base.name
              ConfigTopic).1 (bs.calculateSerializedLength H (some device.serialize.1))
            true])).writeSerializedData H (some device.serialize.1)).2.map Prod.snd), ?_⟩
    simp only [if_true, HAMqtt.writeStream_eq, HAMqtt.endPublish, HAMqtt.call_eq,
      HABinarySensor.sensor_withMqtt_withMqtt, HAMqtt.appendLog_appendLog]
    simp only [HABinarySensor.withMqtt, HAMqtt.appendLog_appendLog, List.map_map]
    rfl

theorem HABinarySensor.sensor_publishConfig_cases (H : FieldHelpers) (bs : HABinarySensor) :
    bs.publishConfig H = bs
    ∨ ∃ device, bs.base.mqtt.getDevice = some device
        ∧ device.calculateSerializedLength ≠ 0 ∧ device.serialize.2 ≠ 0
        ∧ calculateTopicLength bs.base.mqtt.discoveryPrefix bs.base.componentName
            bs.base.name ConfigTopic true ≠ 0
        ∧ bs.calculateSerializedLength H (some device.serialize.1) ≠ 0
        ∧ ((bs.base.mqtt.respond bs.base.mqtt.log (.beginPublish
              (generateTopic bs.base.mqtt.discoveryPrefix bs.base.componentName bs.base.name
                ConfigTopic).1 (bs.calculateSerializedLength H (some device.serialize.1)) true)
              = false
            ∧ bs.publishConfig H = bs.withMqtt (bs.base.mqtt.appendLog [.beginPublish
              (generateTopic bs.base.mqtt.discoveryPrefix bs.base.componentName bs.base.name
                ConfigTopic).1 (bs.calculateSerializedLength H (some device.serialize.1)) true]))
          ∨ (bs.base.mqtt.respond bs.base.mqtt.log (.beginPublish
              (generateTopic bs.base.mqtt.discoveryPrefix bs.base.componentName bs.base.name
                ConfigTopic).1 (bs.calculateSerializedLength H (some device.serialize.1)) true)
              = true
            ∧ ∃ writes : List String,
              bs.publishConfig H = bs.withMqtt (bs.base.mqtt.appendLog ([.beginPublish
                (generateTopic bs.base.mqtt.discoveryPrefix bs.base.componentName bs.base.name
                  ConfigTopic).1 (bs.calculateSerializedLength H (some device.serialize.1)) true]
                ++ writes.map MqttOp.writePayload ++ [.endPublish])))) := by
  cases hd : bs.base.mqtt.getDevice with
  | none => exact Or.inl (by simp [HABinarySensor.publishConfig, hd])
  | some device =>
    by_cases h1 : device.calculateSerializedLength = 0
    · exact Or.inl (by simp [HABinarySensor.publishConfig, hd, h1])
    by_cases h2 : device.serialize.2 = 0
    · exact Or.inl (by simp [HABinarySensor.publishConfig, hd, h2])
    by_cases h3 : calculateTopicLength bs.base.mqtt.discoveryPrefix bs.base.componentName
        bs.base.name ConfigTopic true = 0
    · exact Or.inl (by simp [HABinarySensor.publishConfig, hd, h3])
    by_cases h4 : bs.calculateSerializedLength H (some device.serialize.1) = 0
    · exact Or.inl (by simp [HABinarySensor.publishConfig, hd, h4])
    exact Or.inr ⟨device, rfl, h1, h2, h3, h4,
      HABinarySensor.sensor_publishConfig_of_ready H bs device hd h1 h2 h3 h4⟩

theorem HAHVAC.hvac_withMqtt_self (h : HAHVAC) : h.withMqtt h.base.mqtt = h := rfl

theorem HAHVAC.hvac_withMqtt_withMqtt (h : HAHVAC) (m m2 : HAMqtt) :
    (h.withMqtt m).withMqtt m2 = h.withMqtt m2 := rfl

theorem HAHVAC.writeSerializedData_fst (H : FieldHelpers) (h : HAHVAC) (sd u : String)
    (hu : h._uniqueId = some u) : (h.writeSerializedData H (some sd)).1 = none := by
  unfold HAHVAC.writeSerializedData
  rw [hu]

theorem HAHVAC.hvac_publishConfig_of_ready (H : FieldHelpers) (h : HAHVAC)
    (device : HADevice) (hd : h.base.mqtt.getDevice = some device)
    (h1 : device.calculateSerializedLength ≠ 0) (h2 : device.serialize.2 ≠ 0)
    (h3 : calculateTopicLength h.base.mqtt.discoveryPrefix h.base.componentName
      h.base.name ConfigTopic true ≠ 0)
    (h4 : h.calculateSerializedLength H (some device.serialize.1) ≠ 0) :
    (h.base.mqtt.respond h.base.mqtt.log (.beginPublish
          (generateTopic h.base.mqtt.discoveryPrefix h.base.componentName h.base.name
            ConfigTopic).1 (h.calculateSerializedLength H (some device.serialize.1)) true)
          = false
        ∧ h.publishConfig H = .returned (h.withMqtt (h.base.mqtt.appendLog [.beginPublish
          (generateTopic h.base.mqtt.discoveryPrefix h.base.componentName h.base.name
            ConfigTopic).1 (h.calculateSerializedLength H (some device.serialize.1)) true])))
      ∨ (h.base.mqtt.respond h.base.mqtt.log (.beginPublish
          (generateTopic h.base.mqtt.discoveryPrefix h.base.componentName h.base.name
            ConfigTopic).1 (h.calculateSerializedLength H (some device.serialize.1)) true)
          = true
        ∧ ∃ writes : List String,
          h.publishConfig H = .undefined (h.withMqtt (h.base.mqtt.appendLog ([.beginPublish
            (generateTopic h.base.mqtt.discoveryPrefix h.base.componentName h.base.name
              ConfigTopic).1 (h.calculateSerializedLength H (some device.serialize.1)) true]
            ++ writes.map MqttOp.writePayload)))) := by
  obtain ⟨-, -, ⟨u, hu⟩, -⟩ := HAHVAC.hvac_facts_of_calculateSerializedLength_ne_zero h4
  unfold HAHVAC.publishConfig
  rw [hd]
  dsimp only
  rw [if_neg h1, if_neg h2, if_neg (not_or.mpr ⟨h3, h4⟩),
    if_neg (generateTopic_ne_empty_of_calculateTopicLength_ne_zero h3)]
  simp only [HAMqtt.beginPublish, HAMqtt.call_eq]
  cases hr : h.base.mqtt.respond h.base.mqtt.log (.beginPublish
            (generateTopic h.base.mqtt.discoveryPrefix h.base.componentName h.base.name
              ConfigTopic).1 (h.calculateSerializedLength H (some device.serialize.1)) true)
  · left
    simp
  · right
    refine ⟨rfl, (((h.withMqtt (h.base.mqtt.appendLog [.beginPublish
            (generateTopic h.base.mqtt.discoveryPrefix h.base.componentName h.base.name
              ConfigTopic).1 (h.calculateSerializedLength H (some device.serialize.1))
            true])).writeSerializedData H (some device.serialize.1)).2.map Prod.snd), ?_⟩
    have hw : ∀ m : HAMqtt,
        ((h.withMqtt m).writeSerializedData H (some device.serialize.1)).1 = none :=
      fun m => HAHVAC.writeSerializedData_fst H (h.withMqtt m) device.serialize.1 u hu
    simp only [if_true, hw, HAMqtt.writeStream_eq, HAHVAC.hvac_withMqtt_withMqtt]
    simp only [HAHVAC.withMqtt, HAMqtt.appendLog_appendLog, List.map_map]
    rfl

theorem HAHVAC.hvac_publishConfig_cases (H : FieldHelpers) (h : HAHVAC) :
    h.publishConfig H = .returned h
    ∨ ∃ device, h.base.mqtt.getDevice = some device
        ∧ device.calculateSerializedLength ≠ 0 ∧ device.serialize.2 ≠ 0
        ∧ calculateTopicLength h.base.mqtt.discoveryPrefix h.base.componentName
            h.base.name ConfigTopic true ≠ 0
        ∧ h.calculateSerializedLength H (some device.serialize.1) ≠ 0
        ∧ ((h.base.mqtt.respond h.base.mqtt.log (.beginPublish
              (generateTopic h.base.mqtt.discoveryPrefix h.base.componentName h.base.name
                ConfigTopic).1 (h.calculateSerializedLength H (some device.serialize.1)) true)
              = false
            ∧ h.publishConfig H = .returned (h.withMqtt (h.base.mqtt.appendLog [.beginPublish
              (generateTopic h.base.mqtt.discoveryPrefix h.base.componentName h.base.name
                ConfigTopic).1 (h.calculateSerializedLength H (some device.serialize.1))
              true])))
          ∨ (h.base.mqtt.respond h.base.mqtt.log (.beginPublish
              (generateTopic h.base.mqtt.discoveryPrefix h.base.componentName h.base.name
                ConfigTopic).1 (h.calculateSerializedLength H (some device.serialize.1)) true)
              = true
            ∧ ∃ writes : List String,
              h.publishConfig H = .undefined (h.withMqtt (h.base.mqtt.appendLog ([.beginPublish
                (generateTopic h.base.mqtt.discoveryPrefix h.base.componentName h.base.name
                  ConfigTopic).1 (h.calculateSerializedLength H (some device.serialize.1)) true]
                ++ writes.map MqttOp.writePayload))))) := by
  cases hd : h.base.mqtt.getDevice with
  | none => exact Or.inl (by simp [HAHVAC.publishConfig, hd])
  | some device =>
    by_cases h1 : device.calculateSerializedLength = 0
    · exact Or.inl (by simp [HAHVAC.publishConfig, hd, h1])
    by_cases h2 : device.serialize.2 = 0
    · exact Or.inl (by simp [HAHVAC.publishConfig, hd, h2])
    by_cases h3 : calculateTopicLength h.base.mqtt.discoveryPrefix h.base.componentName
        h.base.name ConfigTopic true = 0
    · exact Or.inl (by simp [HAHVAC.publishConfig, hd, h3])
    by_cases h4 : h.calculateSerializedLength H (some device.serialize.1) = 0
    · exact Or.inl (by simp [HAHVAC.publishConfig, hd, h4])
    exact Or.inr ⟨device, rfl, h1, h2, h3, h4,
      HAHVAC.hvac_publishConfig_of_ready H h device hd h1 h2 h3 h4⟩

/-! ## Fields of the climate passes -/

theorem Sizing.fields_add (s : Sizing) (f : Field) (n : Nat) :
    (s.add f n).fields = s.fields ++ [f] := by
  simp [Sizing.add, Sizing.fields]

theorem Sizing.addTopic_eq_some {s s2 : Sizing} {dt : BaseDeviceType} {suffix : String}
    {d : Nat} (h : s.addTopic dt suffix d = some s2) :
    calculateTopicLength dt.mqtt.discoveryPrefix dt.componentName dt.name suffix false ≠ 0
      ∧ s2.fields = s.fields ++ [.topic suffix] := by
  unfold Sizing.addTopic at h
  dsimp only at h
  split at h
  · exact absurd h (by simp)
  · rename_i hc
    refine ⟨hc, ?_⟩
    rw [← Option.some.inj h, Sizing.fields_add]

theorem Sizing.addTopic_pair {s s2 : Sizing} {dt : BaseDeviceType} {a b : String}
    {d e : Nat} {c : Bool}
    (h : (if c = true then (s.addTopic dt a d).bind fun x => x.addTopic dt b e else some s)
      = some s2) :
    (c = true → calculateTopicLength dt.mqtt.discoveryPrefix dt.componentName dt.name a false ≠ 0
        ∧ calculateTopicLength dt.mqtt.discoveryPrefix dt.componentName dt.name b false ≠ 0)
      ∧ s2.fields = s.fields ++ (if c = true then [.topic a, .topic b] else []) := by
  cases c with
  | false =>
    simp only [Bool.false_eq_true, if_false] at h ⊢
    rw [← Option.some.inj h]
    simp
  | true =>
    simp only [if_true, Option.bind_eq_some] at h ⊢
    obtain ⟨x, hx, hx2⟩ := h
    obtain ⟨h1, f1⟩ := Sizing.addTopic_eq_some hx
    obtain ⟨h2, f2⟩ := Sizing.addTopic_eq_some hx2
    exact ⟨fun _ => ⟨h1, h2⟩, by rw [f2, f1]; simp⟩

theorem Sizing.addTopic_single {s s2 : Sizing} {dt : BaseDeviceType} {a : String}
    {d : Nat} {c : Bool}
    (h : (if c = true then s.addTopic dt a d else some s) = some s2) :
    (c = true → calculateTopicLength dt.mqtt.discoveryPrefix dt.componentName dt.name a false ≠ 0)
      ∧ s2.fields = s.fields ++ (if c = true then [.topic a] else []) := by
  cases c with
  | false =>
    simp only [Bool.false_eq_true, if_false] at h ⊢
    rw [← Option.some.inj h]
    simp
  | true =>
    simp only [if_true] at h ⊢
    obtain ⟨h1, f1⟩ := Sizing.addTopic_eq_some h
    exact ⟨fun _ => h1, f1⟩

theorem Sizing.fields_ite_add (c : Prop) [Decidable c] (s : Sizing) (f : Field) (n : Nat) :
    (if c then s.add f n else s).fields = s.fields ++ (if c then [f] else []) := by
  split <;> simp [Sizing.fields_add]

theorem Sizing.fields_start : Sizing.start.fields = [] := rfl

theorem HAHVAC.hvac_pass_facts {H : FieldHelpers} {h : HAHVAC} {sd : Option String} {s : Sizing}
    (hp : h.calculateSerializedLengthPass H sd = some s) :
    (∀ t ∈ h.sizedTopics, calculateTopicLength h.base.mqtt.discoveryPrefix h.base.componentName
        h.base.name t false ≠ 0)
      ∧ s.fields = [.base, .uniqueId, .device, .availability]
          ++ (h.bodyTerms H).map Prod.fst := by
  unfold HAHVAC.calculateSerializedLengthPass at hp
  split at hp
  · rename_i sd0 uid
    split at hp
    · exact absurd hp (by simp)
    · simp only [Option.bind_eq_bind, Option.pure_def, Option.bind_eq_some] at hp
      obtain ⟨s1, h1, s2, h2, s3, h3, s4, h4, s5, h5, s6, h6, s7, h7, hs⟩ := hp
      obtain ⟨t1, f1⟩ := Sizing.addTopic_eq_some h1
      obtain ⟨t2, f2⟩ := Sizing.addTopic_pair h2
      obtain ⟨t3, f3⟩ := Sizing.addTopic_pair h3
      obtain ⟨t4, f4⟩ := Sizing.addTopic_pair h4
      obtain ⟨t5, f5⟩ := Sizing.addTopic_single h5
      obtain ⟨t6, f6⟩ := Sizing.addTopic_eq_some h6
      obtain ⟨t7, f7⟩ := Sizing.addTopic_eq_some h7
      have fs := congrArg Sizing.fields (Option.some.inj hs)
      constructor
      · intro t ht
        simp only [HAHVAC.sizedTopics, List.mem_append, List.mem_ite_nil_right, List.mem_cons,
          List.mem_singleton, List.not_mem_nil, or_false] at ht
        rcases ht with ((((rfl | ⟨hc, rfl | rfl⟩) | ⟨hc, rfl | rfl⟩) | ⟨hc, rfl | rfl⟩)
          | ⟨hc, rfl⟩) | rfl | rfl
        · exact t1
        · exact (t2 hc).1
        · exact (t2 hc).2
        · exact (t3 hc).1
        · exact (t3 hc).2
        · exact (t4 hc).1
        · exact (t4 hc).2
        · exact t5 hc
        · exact t6
        · exact t7
      · rcases hlab : h._label with _ | label
        · simp only [hlab] at f6
          rw [← fs]
          simp only [Sizing.fields_ite_add, f7, f6, f5, f4, f3, f2, f1, Sizing.fields_add,
            Sizing.fields_start, HAHVAC.bodyTerms, hlab, List.map_append, List.map_cons,
            List.map_nil, apply_ite (List.map Prod.fst), List.append_assoc, List.nil_append,
            List.cons_append]
        · simp only [hlab] at f6
          rw [← fs]
          simp only [Sizing.fields_ite_add, f7, f6, f5, f4, f3, f2, f1, Sizing.fields_add,
            Sizing.fields_start, HAHVAC.bodyTerms, hlab, List.map_append, List.map_cons,
            List.map_nil, apply_ite (List.map Prod.fst), List.append_assoc, List.nil_append,
            List.cons_append]
  · exact absurd hp (by simp)

theorem Double.ne_ofInt_iff (a : Double) (n : Int) :
    Double.ne a (.ofInt n) = true ↔ a ≠ .ofInt n := by
  cases a <;> simp [Double.ne, Double.eq, Double.ofInt]

theorem DeviceTypeSerializer.fields_mqttWriteTopicField (dt : BaseDeviceType)
    (jsonPrefix suffix : String) (f : Field) (hf : f ≠ .topic suffix) :
    f ∉ Stream.fields (mqttWriteTopicField dt jsonPrefix suffix).2 := by
  unfold mqttWriteTopicField
  dsimp only
  split
  · simp [Stream.fields]
  · split
    · simp [Stream.fields]
    · simpa [Stream.fields, mqttWriteConstCharField] using hf

theorem Stream.fields_append (a b : Stream) : Stream.fields (a ++ b) = a.fields ++ b.fields := by
  simp [Stream.fields]

theorem HAHVAC.hvac_write_bounds_fields (H : FieldHelpers) (h : HAHVAC) (sd uniqueId : String)
    (huid : h._uniqueId = some uniqueId) :
    (Field.minTemp ∈ Stream.documentFields (h.writeSerializedData H (some sd)).2
        ↔ h._minTemp ≠ .ofInt 255)
      ∧ (Field.maxTemp ∈ Stream.documentFields (h.writeSerializedData H (some sd)).2
        ↔ h._maxTemp ≠ .ofInt 255) := by
  have hmin := Double.ne_ofInt_iff h._minTemp 255
  have hmax := Double.ne_ofInt_iff h._maxTemp 255
  have ht : ∀ (p s x : String), (Field.minTemp, x) ∉ (mqttWriteTopicField h.base p s).2 :=
    fun p s x hx => fields_mqttWriteTopicField h.base p s _ (by simp)
      (List.mem_map_of_mem Prod.fst hx)
  have ht2 : ∀ (p s x : String), (Field.maxTemp, x) ∉ (mqttWriteTopicField h.base p s).2 :=
    fun p s x hx => fields_mqttWriteTopicField h.base p s _ (by simp)
      (List.mem_map_of_mem Prod.fst hx)
  simp only [HAHVAC.writeSerializedData, huid, Stream.documentFields, List.mem_filter,
    Stream.fields_append, List.mem_append]
  rcases hlab : h._label with _ | label <;>
    constructor <;>
    simp [ht, ht2, ← hmin, ← hmax, Stream.fields, mqttWriteConstCharField, Field.isDelimiter,
      apply_ite (List.map Prod.fst), List.mem_ite_nil_right]

theorem HAHVAC.hvac_pass_of_calculateSerializedLength_ne_zero {H : FieldHelpers} {h : HAHVAC}
    {sd : Option String} (hnz : h.calculateSerializedLength H sd ≠ 0) :
    ∃ s, h.calculateSerializedLengthPass H sd = some s := by
  unfold HAHVAC.calculateSerializedLength at hnz
  split at hnz
  · exact absurd rfl hnz
  · rename_i s hs
    exact ⟨s, hs⟩

/-- C18 (as amended): for every climate configuration, with a minimum
temperature of 255 the `min_temp` field is absent from both passes, and
likewise `max_temp`; and for every climate configuration for which
`calculateSerializedLength` returns a non-zero value, the calculation adds the
`min_temp` contribution and `writeSerializedData` emits the `min_temp` field
exactly when the minimum temperature is not 255, and likewise for `max_temp`
and the maximum temperature. -/
theorem HAHVAC.sentinel_exclusion (H : FieldHelpers) (h : HAHVAC)
    (serializedDevice : Option String) :
    (h._minTemp = .ofInt 255 →
        Field.minTemp ∉ Sizing.documentFields (h.calculateSerializedLengthPass H serializedDevice)
        ∧ Field.minTemp ∉ Stream.documentFields (h.writeSerializedData H serializedDevice).2)
      ∧ (h._maxTemp = .ofInt 255 →
        Field.maxTemp ∉ Sizing.documentFields (h.calculateSerializedLengthPass H serializedDevice)
        ∧ Field.maxTemp ∉ Stream.documentFields (h.writeSerializedData H serializedDevice).2)
      ∧ (h.calculateSerializedLength H serializedDevice ≠ 0 →
        (Field.minTemp ∈ Sizing.documentFields (h.calculateSerializedLengthPass H serializedDevice)
            ↔ h._minTemp ≠ .ofInt 255)
          ∧ (Field.minTemp ∈ Stream.documentFields (h.writeSerializedData H serializedDevice).2
            ↔ h._minTemp ≠ .ofInt 255)
          ∧ (Field.maxTemp ∈ Sizing.documentFields
              (h.calculateSerializedLengthPass H serializedDevice)
            ↔ h._maxTemp ≠ .ofInt 255)
          ∧ (Field.maxTemp ∈ Stream.documentFields (h.writeSerializedData H serializedDevice).2
            ↔ h._maxTemp ≠ .ofInt 255)) := by
  have hmin := Double.ne_ofInt_iff h._minTemp 255
  have hmax := Double.ne_ofInt_iff h._maxTemp 255
  have hcalc : ∀ s, h.calculateSerializedLengthPass H serializedDevice = some s →
      (Field.minTemp ∈ Sizing.documentFields (some s) ↔ h._minTemp ≠ .ofInt 255)
        ∧ (Field.maxTemp ∈ Sizing.documentFields (some s) ↔ h._maxTemp ≠ .ofInt 255) := by
    intro s hs
    have hf := (HAHVAC.hvac_pass_facts hs).2
    simp only [Sizing.documentFields, List.mem_filter, hf, HAHVAC.bodyTerms]
    rcases hlab : h._label with _ | label <;>
      constructor <;>
      simp [← hmin, ← hmax, Field.isDelimiter, apply_ite (List.map Prod.fst),
        List.mem_ite_nil_right]
  have hwrite : (Field.minTemp ∈ Stream.documentFields (h.writeSerializedData H serializedDevice).2
        → h._minTemp ≠ .ofInt 255)
      ∧ (Field.maxTemp ∈ Stream.documentFields (h.writeSerializedData H serializedDevice).2
        → h._maxTemp ≠ .ofInt 255) := by
    rcases serializedDevice with _ | sd
    · simp [HAHVAC.writeSerializedData, Stream.documentFields, Stream.fields]
    · rcases huid : h._uniqueId with _ | uniqueId
      · simp [HAHVAC.writeSerializedData, huid, Stream.documentFields, Stream.fields]
      · have hw := HAHVAC.hvac_write_bounds_fields H h sd uniqueId huid
        exact ⟨hw.1.mp, hw.2.mp⟩
  refine ⟨fun h0 => ⟨?_, fun hm => hwrite.1 hm h0⟩, fun h0 => ⟨?_, fun hm => hwrite.2 hm h0⟩, ?_⟩
  · rcases hs : h.calculateSerializedLengthPass H serializedDevice with _ | s
    · simp [Sizing.documentFields]
    · exact fun hm => ((hcalc s hs).1.mp hm) h0
  · rcases hs : h.calculateSerializedLengthPass H serializedDevice with _ | s
    · simp [Sizing.documentFields]
    · exact fun hm => ((hcalc s hs).2.mp hm) h0
  · intro hnz
    obtain ⟨s, hs⟩ := HAHVAC.hvac_pass_of_calculateSerializedLength_ne_zero hnz
    obtain ⟨-, ⟨sd, rfl⟩, ⟨uniqueId, huid⟩, -⟩ :=
      HAHVAC.hvac_facts_of_calculateSerializedLength_ne_zero hnz
    have hw := HAHVAC.hvac_write_bounds_fields H h sd uniqueId huid
    rw [hs]
    exact ⟨(hcalc s hs).1, hw.1, (hcalc s hs).2, hw.2⟩

/-- Witness of C18 (as amended): the climate entity `hvac1` with a minimum of
16 and a maximum of 30 degrees has both fields in both passes. -/
theorem HAHVAC.sentinel_exclusion_witness :
    hvac1Full.calculateSerializedLength specHelpers (some sampleSerializedDevice) ≠ 0
      ∧ Field.minTemp ∈ Sizing.documentFields
          (hvac1Full.calculateSerializedLengthPass specHelpers (some sampleSerializedDevice))
      ∧ Field.maxTemp ∈ Stream.documentFields
          (hvac1Full.writeSerializedData specHelpers (some sampleSerializedDevice)).2 :=
  ⟨by decide,
   ((HAHVAC.sentinel_exclusion specHelpers hvac1Full (some sampleSerializedDevice)).2.2
      (by decide)).1.mpr (by decide),
   ((HAHVAC.sentinel_exclusion specHelpers hvac1Full (some sampleSerializedDevice)).2.2
      (by decide)).2.2.2.mpr (by decide)⟩

/-- C18 (as stated) fails. The climate entity `hvac1` with a minimum
temperature of 16 degrees on a transport without a device:
`calculateSerializedLength` returns 0 at its device test and adds no `min_temp`
contribution, while `writeSerializedData`, which has no such test, emits the
`min_temp` field. -/
theorem HAHVAC.sentinel_exclusion_counterexample :
    hvac1NoDevice._minTemp ≠ .ofInt 255
      ∧ hvac1NoDevice.calculateSerializedLength specHelpers (some sampleSerializedDevice) = 0
      ∧ Field.minTemp ∉ Sizing.documentFields
          (hvac1NoDevice.calculateSerializedLengthPass specHelpers (some sampleSerializedDevice))
      ∧ Field.minTemp ∈ Stream.documentFields
          (hvac1NoDevice.writeSerializedData specHelpers (some sampleSerializedDevice)).2 := by
  decide

theorem HASwitch.switch_calculateSerializedLength_of_topic_zero (H : FieldHelpers) (sw : HASwitch)
    (sd : Option String)
    (h0 : calculateTopicLength sw.base.mqtt.discoveryPrefix sw.base.componentName sw.base.name
        CommandTopic false = 0
      ∨ calculateTopicLength sw.base.mqtt.discoveryPrefix sw.base.componentName sw.base.name
        StateTopic false = 0) :
    sw.calculateSerializedLength H sd = 0 := by
  unfold HASwitch.calculateSerializedLength HASwitch.calculateSerializedLengthPass
  rcases sd with _ | sd
  · rfl
  · rcases hd : sw.base.mqtt.getDevice with _ | device
    · rfl
    · rcases h0 with h0 | h0
      · simp [Sizing.addTopic, h0]
      · by_cases hc : calculateTopicLength sw.base.mqtt.discoveryPrefix sw.base.componentName
          sw.base.name CommandTopic false = 0
        · simp [Sizing.addTopic, hc]
        · simp [Sizing.addTopic, h0, hc]

theorem HABinarySensor.sensor_calculateSerializedLength_of_topic_zero (H : FieldHelpers)
    (bs : HABinarySensor) (sd : Option String)
    (h0 : calculateTopicLength bs.base.mqtt.discoveryPrefix bs.base.componentName bs.base.name
        StateTopic false = 0) :
    bs.calculateSerializedLength H sd = 0 := by
  unfold HABinarySensor.calculateSerializedLength HABinarySensor.calculateSerializedLengthPass
  rcases sd with _ | sd
  · rfl
  · rcases hd : bs.base.mqtt.getDevice with _ | device
    · rfl
    · simp [Sizing.addTopic, h0]

theorem HAHVAC.hvac_calculateSerializedLength_of_topic_zero (H : FieldHelpers) (h : HAHVAC)
    (sd : Option String) (t : String) (ht : t ∈ h.sizedTopics)
    (h0 : calculateTopicLength h.base.mqtt.discoveryPrefix h.base.componentName h.base.name
        t false = 0) :
    h.calculateSerializedLength H sd = 0 := by
  by_contra hnz
  obtain ⟨s, hs⟩ := HAHVAC.hvac_pass_of_calculateSerializedLength_ne_zero hnz
  exact (HAHVAC.hvac_pass_facts hs).1 t ht h0

/-- C19: for every entity kind, `publishConfig` either makes no call on the
transport, or its first call is the begin-publish to the config topic with the
length `calculateSerializedLength` returned for the serialized device; when
that begin-publish fails nothing follows it (neither `writeSerializedData` nor
`endPublish` runs), and when it succeeds the writes of `writeSerializedData`
follow; one `endPublish` follows them for a switch and a binary sensor, and for
a climate entity, whose `writeSerializedData` runs off its end, the outcome is
undefined after the writes. -/
theorem publishConfig_begin_length (H : FieldHelpers) :
    (∀ sw : HASwitch,
        (sw.publishConfig H).base.mqtt.log = sw.base.mqtt.log
        ∨ ∃ device op, sw.base.mqtt.getDevice = some device
            ∧ op = MqttOp.beginPublish
                (generateTopic sw.base.mqtt.discoveryPrefix sw.base.componentName sw.base.name
                  ConfigTopic).1
                (sw.calculateSerializedLength H (some device.serialize.1)) true
            ∧ ((sw.base.mqtt.respond sw.base.mqtt.log op = false
                ∧ (sw.publishConfig H).base.mqtt.log = sw.base.mqtt.log ++ [op])
              ∨ (sw.base.mqtt.respond sw.base.mqtt.log op = true
                ∧ ∃ writes : List String,
                  (sw.publishConfig H).base.mqtt.log
                    = sw.base.mqtt.log ++ [op] ++ writes.map MqttOp.writePayload
                      ++ [MqttOp.endPublish])))
      ∧ (∀ bs : HABinarySensor,
        (bs.publishConfig H).base.mqtt.log = bs.base.mqtt.log
        ∨ ∃ device op, bs.base.mqtt.getDevice = some device
            ∧ op = MqttOp.beginPublish
                (generateTopic bs.base.mqtt.discoveryPrefix bs.base.componentName bs.base.name
                  ConfigTopic).1
                (bs.calculateSerializedLength H (some device.serialize.1)) true
            ∧ ((bs.base.mqtt.respond bs.base.mqtt.log op = false
                ∧ (bs.publishConfig H).base.mqtt.log = bs.base.mqtt.log ++ [op])
              ∨ (bs.base.mqtt.respond bs.base.mqtt.log op = true
                ∧ ∃ writes : List String,
                  (bs.publishConfig H).base.mqtt.log
                    = bs.base.mqtt.log ++ [op] ++ writes.map MqttOp.writePayload
                      ++ [MqttOp.endPublish])))
      ∧ (∀ h : HAHVAC,
        ((h.publishConfig H).isReturned = true
          ∧ (h.publishConfig H).state.base.mqtt.log = h.base.mqtt.log)
        ∨ ∃ device op, h.base.mqtt.getDevice = some device
            ∧ op = MqttOp.beginPublish
                (generateTopic h.base.mqtt.discoveryPrefix h.base.componentName h.base.name
                  ConfigTopic).1
                (h.calculateSerializedLength H (some device.serialize.1)) true
            ∧ ((h.base.mqtt.respond h.base.mqtt.log op = false
                ∧ (h.publishConfig H).isReturned = true
                ∧ (h.publishConfig H).state.base.mqtt.log = h.base.mqtt.log ++ [op])
              ∨ (h.base.mqtt.respond h.base.mqtt.log op = true
                ∧ (h.publishConfig H).isReturned = false
                ∧ ∃ writes : List String,
                  (h.publishConfig H).state.base.mqtt.log
                    = h.base.mqtt.log ++ [op] ++ writes.map MqttOp.writePayload))) := by
  refine ⟨?_, ?_, ?_⟩
  · intro sw
    rcases HASwitch.switch_publishConfig_cases H sw with he | ⟨device, hd, -, -, -, -, hc⟩
    · exact Or.inl (by rw [he])
    · refine Or.inr ⟨device, _, hd, rfl, ?_⟩
      rcases hc with ⟨hr, he⟩ | ⟨hr, writes, he⟩
      · exact Or.inl ⟨hr, by rw [he]; rfl⟩
      · exact Or.inr ⟨hr, writes, by rw [he]; simp [HASwitch.withMqtt, HAMqtt.appendLog]⟩
  · intro bs
    rcases HABinarySensor.sensor_publishConfig_cases H bs with he | ⟨device, hd, -, -, -, -, hc⟩
    · exact Or.inl (by rw [he])
    · refine Or.inr ⟨device, _, hd, rfl, ?_⟩
      rcases hc with ⟨hr, he⟩ | ⟨hr, writes, he⟩
      · exact Or.inl ⟨hr, by rw [he]; rfl⟩
      · exact Or.inr ⟨hr, writes, by rw [he]; simp [HABinarySensor.withMqtt, HAMqtt.appendLog]⟩
  · intro h
    rcases HAHVAC.hvac_publishConfig_cases H h with he | ⟨device, hd, -, -, -, -, hc⟩
    · exact Or.inl (by rw [he]; exact ⟨rfl, rfl⟩)
    · refine Or.inr ⟨device, _, hd, rfl, ?_⟩
      rcases hc with ⟨hr, he⟩ | ⟨hr, writes, he⟩
      · exact Or.inl ⟨hr, by rw [he]; rfl, by rw [he]; rfl⟩
      · exact Or.inr ⟨hr, by rw [he]; rfl, writes, by
          rw [he]; simp [Outcome.state, HAHVAC.withMqtt, HAMqtt.appendLog]⟩

/-- C20: for every entity kind, `publishConfig` makes no call on the transport
(it leaves the entity and its transport as they were) whenever the device is
unavailable, its serialized length is zero, its serialization yields zero, the
config topic length is zero or `calculateSerializedLength` returns zero; and
`calculateSerializedLength` returns zero whenever the length of one of the
topics it sizes is zero: the command or state topic of a switch, the state
topic of a binary sensor, any topic of `sizedTopics` of a climate entity. -/
theorem publishConfig_silent (H : FieldHelpers) :
    (∀ sw : HASwitch,
        (sw.base.mqtt.getDevice = none
          ∨ ∃ device, sw.base.mqtt.getDevice = some device
              ∧ (device.calculateSerializedLength = 0
                ∨ device.serialize.2 = 0
                ∨ calculateTopicLength sw.base.mqtt.discoveryPrefix sw.base.componentName
                    sw.base.name ConfigTopic true = 0
                ∨ sw.calculateSerializedLength H (some device.serialize.1) = 0)) →
        sw.publishConfig H = sw)
      ∧ (∀ bs : HABinarySensor,
        (bs.base.mqtt.getDevice = none
          ∨ ∃ device, bs.base.mqtt.getDevice = some device
              ∧ (device.calculateSerializedLength = 0
                ∨ device.serialize.2 = 0
                ∨ calculateTopicLength bs.base.mqtt.discoveryPrefix bs.base.componentName
                    bs.base.name ConfigTopic true = 0
                ∨ bs.calculateSerializedLength H (some device.serialize.1) = 0)) →
        bs.publishConfig H = bs)
      ∧ (∀ h : HAHVAC,
        (h.base.mqtt.getDevice = none
          ∨ ∃ device, h.base.mqtt.getDevice = some device
              ∧ (device.calculateSerializedLength = 0
                ∨ device.serialize.2 = 0
                ∨ calculateTopicLength h.base.mqtt.discoveryPrefix h.base.componentName
                    h.base.name ConfigTopic true = 0
                ∨ h.calculateSerializedLength H (some device.serialize.1) = 0)) →
        h.publishConfig H = .returned h)
      ∧ (∀ (sw : HASwitch) (serializedDevice : Option String),
        (calculateTopicLength sw.base.mqtt.discoveryPrefix sw.base.componentName sw.base.name
            CommandTopic false = 0
          ∨ calculateTopicLength sw.base.mqtt.discoveryPrefix sw.base.componentName sw.base.name
            StateTopic false = 0) →
        sw.calculateSerializedLength H serializedDevice = 0)
      ∧ (∀ (bs : HABinarySensor) (serializedDevice : Option String),
        calculateTopicLength bs.base.mqtt.discoveryPrefix bs.base.componentName bs.base.name
            StateTopic false = 0 →
        bs.calculateSerializedLength H serializedDevice = 0)
      ∧ (∀ (h : HAHVAC) (serializedDevice : Option String) (t : String), t ∈ h.sizedTopics →
        calculateTopicLength h.base.mqtt.discoveryPrefix h.base.componentName h.base.name
            t false = 0 →
        h.calculateSerializedLength H serializedDevice = 0) := by
  refine ⟨?_, ?_, ?_, ?_, ?_, ?_⟩
  · intro sw hc
    rcases HASwitch.switch_publishConfig_cases H sw with he | ⟨device, hd, h1, h2, h3, h4, -⟩
    · exact he
    · rcases hc with hn | ⟨device2, hd2, hz⟩
      · rw [hn] at hd
        exact absurd hd (by simp)
      · rw [hd2] at hd
        cases Option.some.inj hd
        rcases hz with hz | hz | hz | hz
        · exact absurd hz h1
        · exact absurd hz h2
        · exact absurd hz h3
        · exact absurd hz h4
  · intro bs hc
    rcases HABinarySensor.sensor_publishConfig_cases H bs with he | ⟨device, hd, h1, h2, h3, h4, -⟩
    · exact he
    · rcases hc with hn | ⟨device2, hd2, hz⟩
      · rw [hn] at hd
        exact absurd hd (by simp)
      · rw [hd2] at hd
        cases Option.some.inj hd
        rcases hz with hz | hz | hz | hz
        · exact absurd hz h1
        · exact absurd hz h2
        · exact absurd hz h3
        · exact absurd hz h4
  · intro h hc
    rcases HAHVAC.hvac_publishConfig_cases H h with he | ⟨device, hd, h1, h2, h3, h4, -⟩
    · exact he
    · rcases hc with hn | ⟨device2, hd2, hz⟩
      · rw [hn] at hd
        exact absurd hd (by simp)
      · rw [hd2] at hd
        cases Option.some.inj hd
        rcases hz with hz | hz | hz | hz
        · exact absurd hz h1
        · exact absurd hz h2
        · exact absurd hz h3
        · exact absurd hz h4
  · exact fun sw sd h0 => HASwitch.switch_calculateSerializedLength_of_topic_zero H sw sd h0
  · exact fun bs sd h0 => HABinarySensor.sensor_calculateSerializedLength_of_topic_zero H bs sd h0
  · exact fun h sd t ht h0 => HAHVAC.hvac_calculateSerializedLength_of_topic_zero H h sd t ht h0

/-- Witness of C20: a switch with an empty object id has a config topic of
length zero and a climate entity with an empty unique id an action topic of
length zero; `publishConfig` leaves the first as it was and
`calculateSerializedLength` returns zero for the second. -/
theorem publishConfig_silent_witness :
    (calculateTopicLength anonymousSwitch.base.mqtt.discoveryPrefix
          anonymousSwitch.base.componentName anonymousSwitch.base.name ConfigTopic true = 0
        ∧ anonymousSwitch.publishConfig specHelpers = anonymousSwitch)
      ∧ (HAHVAC.ActionTopic ∈ anonymousHVAC.sizedTopics
        ∧ anonymousHVAC.calculateSerializedLength specHelpers (some sampleSerializedDevice) = 0) :=
  ⟨⟨by decide, (publishConfig_silent specHelpers).1 anonymousSwitch
      (Or.inr ⟨sampleDevice, rfl, Or.inr (Or.inr (Or.inl (by decide)))⟩)⟩,
   ⟨by decide, (publishConfig_silent specHelpers).2.2.2.2.2 anonymousHVAC
      (some sampleSerializedDevice) HAHVAC.ActionTopic (by decide) (by decide)⟩⟩

/-! ## Inbound messages -/

theorem HAUtils.endsWith_iff (str suffix : String) :
    HAUtils.endsWith str suffix = true ↔ ∃ p : String, str = p ++ suffix := by
  unfold HAUtils.endsWith
  rw [List.isSuffixOf_iff_suffix]
  constructor
  · rintro ⟨t, ht⟩
    exact ⟨⟨t⟩, String.ext (by rw [String.data_append, ← ht])⟩
  · rintro ⟨p, rfl⟩
    exact ⟨p.data, by rw [String.data_append]⟩

theorem List.eq_of_append_cons_eq {α : Type} {c : α} {p x a b : List α} (ha : c ∉ a) (hb : c ∉ b)
    (h : p ++ c :: a = x ++ c :: b) : a = b := by
  rcases List.append_eq_append_iff.mp h with ⟨t, -, ht⟩ | ⟨t, -, ht⟩
  · cases t with
    | nil => exact (List.cons.inj ht).2
    | cons d t =>
      have h2 := (List.cons.inj ht).2
      exact absurd (by rw [h2]; simp) ha
  · cases t with
    | nil => exact ((List.cons.inj ht).2).symm
    | cons d t =>
      have h2 := (List.cons.inj ht).2
      exact absurd (by rw [h2]; simp) hb

theorem HASwitch.commandSuffix_eq (p : String) (sw : HASwitch) :
    p ++ "/" ++ sw.base.name ++ "/" ++ CommandTopic = p ++ sw.commandSuffix := by
  simp only [HASwitch.commandSuffix, String.append_assoc]

theorem HASwitch.switch_publishState_eq (sw : HASwitch) (v : Bool) :
    sw.publishState v
      = if calculateTopicLength sw.base.mqtt.discoveryPrefix sw.base.componentName sw.base.name
            StateTopic true = 0 then (false, sw)
        else
          (sw.base.mqtt.respond sw.base.mqtt.log (.publish sw.stateTopic
              (if v then StateOn else StateOff) true),
            sw.withMqtt (sw.base.mqtt.appendLog [.publish sw.stateTopic
              (if v then StateOn else StateOff) true])) := by
  unfold HASwitch.publishState
  by_cases hn : sw.base.name.length = 0
  · have h0 : calculateTopicLength sw.base.mqtt.discoveryPrefix sw.base.componentName sw.base.name
        StateTopic true = 0 := by simp [calculateTopicLength, hn]
    rw [if_pos hn, if_pos h0]
  · rw [if_neg hn, mqttPublishMessage_eq]
    split <;> rfl

theorem HASwitch.suffixLength_of_short_name (sw : HASwitch) (hn : sw.base.name.length ≤ 247) :
    sw.suffixLength = sw.commandSuffix.length + 1 := by
  have l1 : "/".length = 1 := rfl
  have l2 : CommandTopic.length = 5 := rfl
  simp only [HASwitch.suffixLength, HASwitch.commandSuffix, String.length_append, l1, l2, u8]
  omega

theorem HASwitch.suffixLength_of_wide_name (n : String) (hn : n.length = 248) :
    (HASwitch.new n false okMqtt).suffixLength = 0
      ∧ (HASwitch.new n false okMqtt).commandSuffix.length + 1 = 256 := by
  have l1 : "/".length = 1 := rfl
  have l2 : CommandTopic.length = 5 := rfl
  constructor
  · show u8 (n.length + CommandTopic.length + 3) = 0
    rw [hn, l2]
    rfl
  · show ("/" ++ n ++ "/" ++ CommandTopic).length + 1 = 256
    simp only [String.length_append, l1, l2, hn]

theorem length_wideName : wideName.length = 248 := by
  simp [wideName, String.length_pushn]

theorem HASwitch.copyToBuffer_of_short_name (sw : HASwitch)
    (hlen : sw.base.name.length ≤ 247) :
    copyToBuffer sw.suffixLength sw.commandSuffix = some sw.commandSuffix := by
  unfold copyToBuffer
  rw [HASwitch.suffixLength_of_short_name sw hlen, if_pos (Nat.le_refl _)]

theorem HASwitch.copyToBuffer_of_long_name (sw : HASwitch)
    (hlen : 248 ≤ sw.base.name.length) :
    copyToBuffer sw.suffixLength sw.commandSuffix = none := by
  have l1 : "/".length = 1 := rfl
  have l2 : CommandTopic.length = 5 := rfl
  unfold copyToBuffer
  rw [if_neg]
  simp only [HASwitch.suffixLength, HASwitch.commandSuffix, String.length_append, l1, l2, u8]
  omega

theorem HASwitch.switch_onMqttMessage_of_short_name (sw : HASwitch) (topic payload : String)
    (length : Nat) (hlen : sw.base.name.length ≤ 247) :
    sw.onMqttMessage topic payload length
      = .returned (if sw.base.name.length ≠ 0 ∧ HAUtils.endsWith topic sw.commandSuffix = true
          then (sw.setState (decide (length = StateOn.length))).2 else sw) := by
  unfold HASwitch.onMqttMessage
  by_cases hn : sw.base.name.length = 0
  · simp [hn]
  · rw [if_neg hn]
    simp only [HASwitch.copyToBuffer_of_short_name sw hlen]
    by_cases he : HAUtils.endsWith topic sw.commandSuffix = true
    · rw [if_pos he, if_pos ⟨hn, he⟩]
    · rw [if_neg he, if_neg (fun hc => he hc.2)]

theorem HASwitch.switch_onMqttMessage_of_long_name (sw : HASwitch) (topic payload : String)
    (length : Nat) (hlen : 248 ≤ sw.base.name.length) :
    sw.onMqttMessage topic payload length = .undefined sw := by
  unfold HASwitch.onMqttMessage
  rw [if_neg (by omega)]
  simp only [HASwitch.copyToBuffer_of_long_name sw hlen]

theorem HASwitch.switch_onMqttMessage_of_wide_name (n : String) (hn : n.length = 248)
    (topic payload : String) (length : Nat) :
    (HASwitch.new n false okMqtt).onMqttMessage topic payload length
      = .undefined (HASwitch.new n false okMqtt) :=
  HASwitch.switch_onMqttMessage_of_long_name _ topic payload length
    (by show 248 ≤ n.length; omega)

theorem HASwitch.switch_onMqttMessage_of_match (sw : HASwitch) (topic payload : String)
    (length : Nat) (hname : sw.base.name ≠ "") (hlen : sw.base.name.length ≤ 247)
    (htopic : ∃ p : String, topic = p ++ "/" ++ sw.base.name ++ "/" ++ CommandTopic) :
    sw.onMqttMessage topic payload length
      = .returned (sw.setState (decide (length = 2))).2 := by
  obtain ⟨p, hp⟩ := htopic
  have he : HAUtils.endsWith topic sw.commandSuffix = true :=
    (HAUtils.endsWith_iff _ _).mpr ⟨p, by rw [hp, HASwitch.commandSuffix_eq]⟩
  rw [HASwitch.switch_onMqttMessage_of_short_name sw topic payload length hlen,
    if_pos ⟨String.length_ne_zero_of_ne_empty hname, he⟩]
  rfl

theorem HASwitch.switch_onMqttMessage_of_no_match (sw : HASwitch) (topic payload : String)
    (length : Nat) (hlen : sw.base.name.length ≤ 247)
    (htopic : ¬ ∃ p : String, topic = p ++ "/" ++ sw.base.name ++ "/" ++ CommandTopic) :
    sw.onMqttMessage topic payload length = .returned sw := by
  have he : ¬ HAUtils.endsWith topic sw.commandSuffix = true := by
    intro he
    obtain ⟨p, hp⟩ := (HAUtils.endsWith_iff _ _).mp he
    exact htopic ⟨p, by rw [hp, HASwitch.commandSuffix_eq]⟩
  rw [HASwitch.switch_onMqttMessage_of_short_name sw topic payload length hlen,
    if_neg (fun hc => he hc.2)]

theorem BaseDeviceType.isMyTopic_of_no_match (dt : BaseDeviceType) (topic t : String)
    (htopic : ¬ ∃ p : String, topic = p ++ "/" ++ dt.name ++ "/" ++ t) :
    dt.isMyTopic topic t = false := by
  unfold BaseDeviceType.isMyTopic
  split
  · rfl
  · rw [Bool.eq_false_iff]
    intro he
    obtain ⟨p, hp⟩ := (HAUtils.endsWith_iff _ _).mp he
    exact htopic ⟨p, by rw [hp]; simp only [String.append_assoc]⟩

theorem length_longDiscovery : longDiscovery.length = 65514 := by
  simp [longDiscovery, String.length_pushn]

/-- C15 (as amended): for every switch with a non-empty object id of at most
247 characters and every inbound message whose topic ends with a slash, the
object id, a slash and the command suffix, `onMqttMessage` returns after
requesting `setState(true)` exactly when the payload length equals the length
of the on literal (2), whatever the payload bytes are, and `setState(false)`
otherwise; so for such a switch that is off, whose state topic with its
terminator is shorter than 65536 bytes, on a transport on which every call
succeeds, receiving the 2-byte payload "ON" leaves the state on and publishes
the on literal to the state topic exactly once. -/
theorem HASwitch.onMqttMessage_decodes_payload_length (sw : HASwitch) (topic payload : String)
    (length : Nat) (hname : sw.base.name ≠ "") (hlen : sw.base.name.length ≤ 247)
    (htopic : ∃ p : String, topic = p ++ "/" ++ sw.base.name ++ "/" ++ CommandTopic) :
    sw.onMqttMessage topic payload length
        = .returned (sw.setState (decide (length = StateOn.length))).2
      ∧ StateOn.length = 2
      ∧ (sw._currentState = false → (∀ l op, sw.base.mqtt.respond l op = true) →
          topicLen sw.base StateTopic + 1 < 65536 →
          ∃ sw1, sw.onMqttMessage topic "ON" 2 = .returned sw1
            ∧ sw1._currentState = true
            ∧ sw1.base.mqtt.log
              = sw.base.mqtt.log ++ [.publish sw.stateTopic StateOn true]) := by
  refine ⟨HASwitch.switch_onMqttMessage_of_match sw topic payload length hname hlen htopic,
    rfl, ?_⟩
  intro hoff hok hfit
  have hn := String.length_ne_zero_of_ne_empty hname
  have hs : StateTopic.length ≠ 0 := by decide
  have hc := @calculateTopicLength_eq sw.base StateTopic hn hs hfit true
  have hc0 : calculateTopicLength sw.base.mqtt.discoveryPrefix sw.base.componentName sw.base.name
      StateTopic true ≠ 0 := by rw [hc]; simp
  refine ⟨_, HASwitch.switch_onMqttMessage_of_match sw topic "ON" 2 hname hlen htopic, ?_⟩
  simp only [HASwitch.setState, hoff, HASwitch.switch_publishState_eq, hc0, hok, if_false,
    if_true, decide_True, Bool.false_eq_true]
  constructor
  · split <;> rfl
  · split <;> rfl

/-- Witness of C15 (as amended): the switch `relay1`, off, receives "ON" on
its command topic. -/
theorem HASwitch.onMqttMessage_decodes_payload_length_witness :
    ∃ sw1, relay1.onMqttMessage "homeassistant/switch/relay1/cmd_t" "ON" 2 = .returned sw1
      ∧ sw1._currentState = true
      ∧ sw1.base.mqtt.log = relay1.base.mqtt.log ++ [.publish relay1.stateTopic StateOn true] :=
  (HASwitch.onMqttMessage_decodes_payload_length relay1 "homeassistant/switch/relay1/cmd_t"
    "ON" 2 (by decide) (by decide) ⟨"homeassistant/switch", by decide⟩).2.2 rfl
      (fun _ _ => rfl) (by decide)

theorem HASwitch.switch_onMqttMessage_of_long_discovery (d : String) (hd : d.length = 65514) :
    (HASwitch.new "relay1" false ⟨d, some sampleDevice, fun _ _ => true, []⟩).onMqttMessage
        (d ++ "/switch/relay1/cmd_t") "ON" 2
      = .returned (HASwitch.new "relay1" false ⟨d, some sampleDevice, fun _ _ => true, []⟩) := by
  rw [HASwitch.switch_onMqttMessage_of_match _ _ "ON" 2 (show ("relay1" : String) ≠ "" by decide)
    (show ("relay1" : String).length ≤ 247 by decide)
    ⟨d ++ "/switch", by simp [HASwitch.new, BaseDeviceType.new, CommandTopic, String.append_assoc]⟩]
  have h0 : calculateTopicLength d "switch" "relay1" StateTopic true = 0 := by
    have l1 : "switch".length = 6 := rfl
    have l2 : "relay1".length = 6 := rfl
    have l3 : StateTopic.length = 6 := rfl
    simp [calculateTopicLength, hd, l1, l2, l3, u16]
  simp [HASwitch.setState, HASwitch.switch_publishState_eq, HASwitch.new, BaseDeviceType.new, h0]

/-- C15 (as stated) fails. The switch `relay1`, off, on a transport on which
every call succeeds and whose discovery string has 65514 characters: its state
topic with the terminator has 65536 bytes, a size that is zero in 16 bits, so
on receiving "ON" on its command topic nothing is published and the state stays
off. And a switch whose object id has 248 characters, receiving "ON" on its
command topic: the `uint8_t` size of the suffix buffer is 0, the copy overruns
the buffer and the outcome is undefined. -/
theorem HASwitch.onMqttMessage_decodes_payload_length_counterexample :
    (relay1Far._currentState = false
        ∧ relay1Far.base.mqtt.log = []
        ∧ relay1Far.onMqttMessage (longDiscovery ++ "/switch/relay1/cmd_t") "ON" 2
          = .returned relay1Far)
      ∧ (wideName.length = 248
        ∧ wideSwitch.onMqttMessage ("homeassistant/switch/" ++ wideName ++ "/cmd_t") "ON" 2
          = .undefined wideSwitch) := by
  refine ⟨⟨rfl, rfl, ?_⟩, length_wideName, ?_⟩
  · unfold relay1Far
    exact HASwitch.switch_onMqttMessage_of_long_discovery longDiscovery length_longDiscovery
  · unfold wideSwitch
    exact HASwitch.switch_onMqttMessage_of_wide_name wideName length_wideName _ _ _

theorem HAUtils.no_match_of_endsWith (topic name t : String)
    (h : HAUtils.endsWith topic ("/" ++ name ++ "/" ++ t) = false) :
    ¬ ∃ p : String, topic = p ++ "/" ++ name ++ "/" ++ t := by
  rintro ⟨p, hp⟩
  have he : HAUtils.endsWith topic ("/" ++ name ++ "/" ++ t) = true :=
    (HAUtils.endsWith_iff _ _).mpr ⟨p, by rw [hp]; simp only [String.append_assoc]⟩
  rw [h] at he
  exact absurd he (by simp)

/-- C16 on the code: for every two different object ids without a slash, the
command topic of the second does not end with the suffix a switch with the
first object id builds, whatever the discovery string and the component of that
topic. A switch whose object id has at most 247 characters therefore returns
from `onMqttMessage` as it was (`setState` is not called, no call on the
transport, no callback, state unchanged). A switch whose object id has 248
characters or more overruns its suffix buffer before the test, and the outcome
is undefined: so it is for the switch `wideSwitch` of 248 characters on the
command topic of `kitchen2`. -/
theorem HASwitch.onMqttMessage_ignores_other_object_id :
    (∀ (sw : HASwitch) (discovery component b payload : String) (length : Nat),
        sw.base.name ≠ b → '/' ∉ sw.base.name.data → '/' ∉ b.data →
        HAUtils.endsWith (generateTopic discovery component b CommandTopic).1 sw.commandSuffix
            = false
          ∧ (sw.base.name.length ≤ 247 →
            sw.onMqttMessage (generateTopic discovery component b CommandTopic).1 payload length
              = .returned sw)
          ∧ (248 ≤ sw.base.name.length →
            sw.onMqttMessage (generateTopic discovery component b CommandTopic).1 payload length
              = .undefined sw))
      ∧ (wideName.length = 248
        ∧ wideSwitch.onMqttMessage "homeassistant/switch/kitchen2/cmd_t" "ON" 2
          = .undefined wideSwitch) := by
  refine ⟨?_, length_wideName, by
    unfold wideSwitch
    exact HASwitch.switch_onMqttMessage_of_wide_name wideName length_wideName _ _ _⟩
  intro sw discovery component b payload length hab ha hb
  have hno : ¬ ∃ p : String, (generateTopic discovery component b CommandTopic).1
      = p ++ "/" ++ sw.base.name ++ "/" ++ CommandTopic := by
    rintro ⟨p, hp⟩
    have hc : CommandTopic.length ≠ 0 := by decide
    by_cases hb0 : b.length = 0
    · have hl := congrArg String.length hp
      have l1 : "/".length = 1 := rfl
      simp [generateTopic, hb0, String.length_append, l1] at hl
      omega
    · simp only [generateTopic, hb0, hc, or_self, if_false] at hp
      have hd := congrArg String.data hp
      simp only [String.data_append] at hd
      have hd2 : (discovery.data ++ '/' :: component.data ++ '/' :: b.data)
            ++ '/' :: CommandTopic.data
          = (p.data ++ '/' :: sw.base.name.data) ++ '/' :: CommandTopic.data := by
        simpa [List.append_assoc] using hd
      have h2 := List.append_cancel_right hd2
      have h3 := List.eq_of_append_cons_eq hb ha h2
      exact hab (String.ext h3.symm)
  refine ⟨?_, fun hlen => HASwitch.switch_onMqttMessage_of_no_match sw _ payload length hlen hno,
    fun hlen => HASwitch.switch_onMqttMessage_of_long_name sw _ payload length hlen⟩
  rw [Bool.eq_false_iff]
  intro he
  obtain ⟨p, hp⟩ := (HAUtils.endsWith_iff _ _).mp he
  exact hno ⟨p, by rw [hp, HASwitch.commandSuffix_eq]⟩

/-- Witness of C16 on the code: the switch `kitchen` returns unchanged from a
message on the command topic of `kitchen2`. -/
theorem HASwitch.onMqttMessage_ignores_other_object_id_witness :
    (generateTopic "homeassistant" "switch" "kitchen2" CommandTopic).1
        = "homeassistant/switch/kitchen2/cmd_t"
      ∧ kitchen.onMqttMessage (generateTopic "homeassistant" "switch" "kitchen2" CommandTopic).1
          "ON" 2 = .returned kitchen :=
  ⟨by decide,
   (HASwitch.onMqttMessage_ignores_other_object_id.1 kitchen "homeassistant" "switch" "kitchen2"
    "ON" 2 (by decide) (by decide) (by decide)).2.1 (by decide)⟩

/-- C17 on the code: a switch whose object id has at most 247 characters
ignores every message whose topic does not end with a slash, its object id, a
slash and the command suffix, and a climate entity ignores every message whose
topic ends with none of its aux, away, hold and target-temperature command
topics after a slash, its object id and a slash: `onMqttMessage` returns the
entity as it was, so no call is made on the transport, no callback is called
and no state variable changes. A switch whose object id has 248 characters or
more overruns its suffix buffer on every message, before the topic is tested,
and the outcome is undefined: so it is for `wideSwitch` on the command topic of
`relay2`. -/
theorem onMqttMessage_ignores_unmatched_topic :
    (∀ (sw : HASwitch) (topic payload : String) (length : Nat),
        sw.base.name.length ≤ 247 →
        (¬ ∃ p : String, topic = p ++ "/" ++ sw.base.name ++ "/" ++ CommandTopic) →
        sw.onMqttMessage topic payload length = .returned sw)
      ∧ (∀ (sw : HASwitch) (topic payload : String) (length : Nat),
        248 ≤ sw.base.name.length →
        sw.onMqttMessage topic payload length = .undefined sw)
      ∧ (wideName.length = 248
        ∧ wideSwitch.onMqttMessage "homeassistant/switch/relay2/cmd_t" "ON" 2
          = .undefined wideSwitch)
      ∧ (∀ (H : FieldHelpers) (strToTemp : String → Double) (h : HAHVAC)
          (topic payload : String) (length : Nat),
        (∀ t ∈ [HAHVAC.AuxCommandTopic, HAHVAC.AwayCommandTopic, HAHVAC.HoldCommandTopic,
            HAHVAC.TargetTemperatureCommandTopic],
          ¬ ∃ p : String, topic = p ++ "/" ++ h.base.name ++ "/" ++ t) →
        h.onMqttMessage H strToTemp topic payload length = h) := by
  refine ⟨fun sw topic payload length hlen ht =>
      HASwitch.switch_onMqttMessage_of_no_match sw topic payload length hlen ht,
    fun sw topic payload length hlen =>
      HASwitch.switch_onMqttMessage_of_long_name sw topic payload length hlen,
    ⟨length_wideName, ?_⟩, ?_⟩
  · unfold wideSwitch
    exact HASwitch.switch_onMqttMessage_of_wide_name wideName length_wideName _ _ _
  intro H strToTemp h topic payload length ht
  have h1 := BaseDeviceType.isMyTopic_of_no_match h.base topic _ (ht HAHVAC.AuxCommandTopic (by simp))
  have h2 := BaseDeviceType.isMyTopic_of_no_match h.base topic _ (ht HAHVAC.AwayCommandTopic (by simp))
  have h3 := BaseDeviceType.isMyTopic_of_no_match h.base topic _ (ht HAHVAC.HoldCommandTopic (by simp))
  have h4 := BaseDeviceType.isMyTopic_of_no_match h.base topic _
    (ht HAHVAC.TargetTemperatureCommandTopic (by simp))
  simp [HAHVAC.onMqttMessage, h1, h2, h3, h4]

/-- Witness of C17 on the code: the switch `relay1` ignores a message on the
command topic of `relay2`, and the climate entity `hvac1` one on its own action
topic. -/
theorem onMqttMessage_ignores_unmatched_topic_witness :
    relay1.onMqttMessage "homeassistant/switch/relay2/cmd_t" "ON" 2 = .returned relay1
      ∧ hvac1.onMqttMessage specHelpers (fun _ => Double.ofInt 21)
          "homeassistant/climate/hvac1/at" "ON" 2 = hvac1 :=
  ⟨onMqttMessage_ignores_unmatched_topic.1 relay1 "homeassistant/switch/relay2/cmd_t" "ON" 2
      (by decide)
      (HAUtils.no_match_of_endsWith "homeassistant/switch/relay2/cmd_t" "relay1" CommandTopic
        (by decide)),
   onMqttMessage_ignores_unmatched_topic.2.2.2 specHelpers (fun _ => Double.ofInt 21) hvac1
      "homeassistant/climate/hvac1/at" "ON" 2
      (by
        intro t ht
        simp only [List.mem_cons, List.mem_singleton, List.not_mem_nil, or_false] at ht
        rcases ht with rfl | rfl | rfl | rfl <;>
          exact HAUtils.no_match_of_endsWith "homeassistant/climate/hvac1/at" "hvac1" _
            (by decide))⟩

/-! ## Connecting -/

theorem DeviceTypeSerializer.mqttPublishMessage_snd (dt : BaseDeviceType)
    (topicSuffix data : String) :
    (mqttPublishMessage dt topicSuffix data).2
      = dt.mqtt.appendLog (publishCalls dt topicSuffix data) := by
  rw [mqttPublishMessage_eq]
  unfold publishCalls
  split
  · exact (HAMqtt.appendLog_nil _).symm
  · rfl

theorem DeviceTypeSerializer.mqttSubscribeTopic_snd (dt : BaseDeviceType)
    (topicSuffix : String) :
    (mqttSubscribeTopic dt topicSuffix).2
      = dt.mqtt.appendLog (subscribeCalls dt topicSuffix) := by
  rw [mqttSubscribeTopic_eq]
  unfold subscribeCalls
  split
  · exact (HAMqtt.appendLog_nil _).symm
  · rfl

theorem DeviceTypeSerializer.publishCalls_of_empty_name (dt : BaseDeviceType)
    (topicSuffix data : String) (hn : dt.name.length = 0) :
    publishCalls dt topicSuffix data = [] := by
  simp [publishCalls, calculateTopicLength, hn]

theorem BaseDeviceType.publishAvailability_eq (dt : BaseDeviceType) (availability : String) :
    dt.publishAvailability availability
      = dt.mqtt.appendLog (if dt.isAvailabilityConfigured = true then
          publishCalls dt AvailabilityTopic availability else []) := by
  unfold BaseDeviceType.publishAvailability
  split
  · exact mqttPublishMessage_snd _ _ _
  · exact (HAMqtt.appendLog_nil _).symm

theorem HASwitch.switch_publishState_snd (sw : HASwitch) (v : Bool) :
    (sw.publishState v).2
      = sw.withMqtt (sw.base.mqtt.appendLog
          (publishCalls sw.base StateTopic (if v then StateOn else StateOff))) := by
  unfold HASwitch.publishState
  split
  · rename_i hn
    rw [publishCalls_of_empty_name _ _ _ hn, HAMqtt.appendLog_nil]
    rfl
  · simp only [mqttPublishMessage_snd]

theorem HASwitch.switch_publishConfig_log (H : FieldHelpers) (sw : HASwitch) :
    ∃ cfg : List MqttOp, sw.publishConfig H = sw.withMqtt (sw.base.mqtt.appendLog cfg)
      ∧ ∀ op ∈ cfg, op.isDiscovery = true := by
  rcases HASwitch.switch_publishConfig_cases H sw with he | ⟨device, -, -, -, -, -, hc⟩
  · exact ⟨[], by rw [he, HAMqtt.appendLog_nil]; rfl, by simp⟩
  · rcases hc with ⟨-, he⟩ | ⟨-, writes, he⟩
    · exact ⟨_, he, by simp [MqttOp.isDiscovery]⟩
    · refine ⟨_, he, ?_⟩
      intro op hop
      simp only [List.mem_append, List.mem_singleton, List.mem_map] at hop
      rcases hop with (rfl | ⟨w, -, rfl⟩) | rfl <;> rfl

theorem HASwitch.switch_onMqttConnected_eq (H : FieldHelpers) (availability : String)
    (sw : HASwitch) (hn : sw.base.name.length ≠ 0) (cfg : List MqttOp)
    (hcfg : sw.publishConfig H = sw.withMqtt (sw.base.mqtt.appendLog cfg)) :
    sw.onMqttConnected H availability
      = sw.withMqtt (sw.base.mqtt.appendLog (cfg
          ++ publishCalls sw.base StateTopic (if sw._currentState then StateOn else StateOff)
          ++ (if sw.base.isAvailabilityConfigured = true then
                publishCalls sw.base AvailabilityTopic availability else [])
          ++ subscribeCalls sw.base CommandTopic)) := by
  unfold HASwitch.onMqttConnected
  rw [if_neg hn]
  simp only [hcfg, HASwitch.switch_publishState_snd, BaseDeviceType.publishAvailability_eq,
    mqttSubscribeTopic_snd]
  simp only [HASwitch.withMqtt, HAMqtt.appendLog_appendLog]
  rfl

theorem HABinarySensor.sensor_publishState_snd (bs : HABinarySensor) (v : Bool) :
    (bs.publishState v).2
      = bs.withMqtt (bs.base.mqtt.appendLog
          (publishCalls bs.base StateTopic (if v then StateOn else StateOff))) := by
  unfold HABinarySensor.publishState publishCalls
  split
  · rename_i hn
    have h0 : calculateTopicLength bs.base.mqtt.discoveryPrefix bs.base.componentName
        bs.base.name StateTopic true = 0 := by simp [calculateTopicLength, hn]
    rw [if_pos h0, HAMqtt.appendLog_nil]
    rfl
  · dsimp only
    split
    · rw [HAMqtt.appendLog_nil]
      rfl
    · rename_i h0
      rw [if_neg (generateTopic_ne_empty_of_calculateTopicLength_ne_zero h0)]
      rfl

theorem HABinarySensor.sensor_publishConfig_log (H : FieldHelpers) (bs : HABinarySensor) :
    ∃ cfg : List MqttOp, bs.publishConfig H = bs.withMqtt (bs.base.mqtt.appendLog cfg)
      ∧ ∀ op ∈ cfg, op.isDiscovery = true := by
  rcases HABinarySensor.sensor_publishConfig_cases H bs with he | ⟨device, -, -, -, -, -, hc⟩
  · exact ⟨[], by rw [he, HAMqtt.appendLog_nil]; rfl, by simp⟩
  · rcases hc with ⟨-, he⟩ | ⟨-, writes, he⟩
    · exact ⟨_, he, by simp [MqttOp.isDiscovery]⟩
    · refine ⟨_, he, ?_⟩
      intro op hop
      simp only [List.mem_append, List.mem_singleton, List.mem_map] at hop
      rcases hop with (rfl | ⟨w, -, rfl⟩) | rfl <;> rfl

theorem HABinarySensor.sensor_onMqttConnected_eq (H : FieldHelpers) (availability : String)
    (bs : HABinarySensor) (hn : bs.base.name.length ≠ 0) (cfg : List MqttOp)
    (hcfg : bs.publishConfig H = bs.withMqtt (bs.base.mqtt.appendLog cfg)) :
    bs.onMqttConnected H availability
      = bs.withMqtt (bs.base.mqtt.appendLog (cfg
          ++ publishCalls bs.base StateTopic (if bs._currentState then StateOn else StateOff)
          ++ (if bs.base.isAvailabilityConfigured = true then
                publishCalls bs.base AvailabilityTopic availability else []))) := by
  unfold HABinarySensor.onMqttConnected
  rw [if_neg hn]
  simp only [hcfg, HABinarySensor.sensor_publishState_snd, BaseDeviceType.publishAvailability_eq]
  simp only [HABinarySensor.withMqtt, HAMqtt.appendLog_appendLog]
  rfl

theorem HAHVAC.hvac_publishConfig_log (H : FieldHelpers) (h : HAHVAC) :
    (∃ cfg : List MqttOp,
        h.publishConfig H = .returned (h.withMqtt (h.base.mqtt.appendLog cfg))
        ∧ (cfg = [] ∨ ∃ op, cfg = [op] ∧ op.isDiscovery = true
            ∧ h.base.mqtt.respond h.base.mqtt.log op = false))
      ∨ (∃ (op : MqttOp) (writes : List String),
        h.publishConfig H = .undefined (h.withMqtt (h.base.mqtt.appendLog
          ([op] ++ writes.map MqttOp.writePayload)))
        ∧ op.isDiscovery = true ∧ h.base.mqtt.respond h.base.mqtt.log op = true) := by
  rcases HAHVAC.hvac_publishConfig_cases H h with he | ⟨device, -, -, -, -, -, hc⟩
  · exact Or.inl ⟨[], by rw [he, HAMqtt.appendLog_nil]; rfl, Or.inl rfl⟩
  · rcases hc with ⟨hr, he⟩ | ⟨hr, writes, he⟩
    · exact Or.inl ⟨_, he, Or.inr ⟨_, rfl, rfl, hr⟩⟩
    · exact Or.inr ⟨_, writes, he, rfl, hr⟩

theorem HAHVAC.publishAction_snd (h : HAHVAC) (a : Action) (hn : h.base.name.length ≠ 0) :
    (h.publishAction a).2
      = h.withMqtt (h.base.mqtt.appendLog
          (match HAHVAC.actionStr a with
           | some str => publishCalls h.base HAHVAC.ActionTopic str
           | none => [])) := by
  unfold HAHVAC.publishAction
  rw [if_neg hn]
  cases ha : HAHVAC.actionStr a
  · simp only [HAMqtt.appendLog_nil]
    rfl
  · simp only [mqttPublishMessage_snd]

theorem HAHVAC.publishAuxHeatingState_snd (h : HAHVAC) (v : Bool)
    (hn : h.base.name.length ≠ 0) :
    (h.publishAuxHeatingState v).2
      = h.withMqtt (h.base.mqtt.appendLog
          (if h.hasFeature HAHVAC.AuxHeatingFeature = true then
            publishCalls h.base HAHVAC.AuxStateTopic (if v then StateOn else StateOff)
          else [])) := by
  unfold HAHVAC.publishAuxHeatingState
  cases hf : h.hasFeature HAHVAC.AuxHeatingFeature
  · simp [HAMqtt.appendLog_nil, HAHVAC.withMqtt]
  · simp [hn, mqttPublishMessage_snd]

theorem HAHVAC.publishAwayState_snd (h : HAHVAC) (v : Bool) (hn : h.base.name.length ≠ 0) :
    (h.publishAwayState v).2
      = h.withMqtt (h.base.mqtt.appendLog
          (if h.hasFeature HAHVAC.AwayModeFeature = true then
            publishCalls h.base HAHVAC.AwayStateTopic (if v then StateOn else StateOff)
          else [])) := by
  unfold HAHVAC.publishAwayState
  cases hf : h.hasFeature HAHVAC.AwayModeFeature
  · simp [HAMqtt.appendLog_nil, HAHVAC.withMqtt]
  · simp [hn, mqttPublishMessage_snd]

theorem HAHVAC.publishHoldState_snd (h : HAHVAC) (v : Bool) (hn : h.base.name.length ≠ 0) :
    (h.publishHoldState v).2
      = h.withMqtt (h.base.mqtt.appendLog
          (if h.hasFeature HAHVAC.HoldFeature = true then
            publishCalls h.base HAHVAC.HoldStateTopic (if v then StateOn else StateOff)
          else [])) := by
  unfold HAHVAC.publishHoldState
  cases hf : h.hasFeature HAHVAC.HoldFeature
  · simp [HAMqtt.appendLog_nil, HAHVAC.withMqtt]
  · simp [hn, mqttPublishMessage_snd]

theorem HAHVAC.publishCurrentTemperature_snd (H : FieldHelpers) (h : HAHVAC) (t : Double)
    (hn : h.base.name.length ≠ 0) :
    (h.publishCurrentTemperature H t).2
      = h.withMqtt (h.base.mqtt.appendLog
          (if h.hasFeature HAHVAC.CurrentTemperatureFeature = true
              ∧ Double.ge t (.ofInt 255) = false then
            publishCalls h.base HAHVAC.CurrentTemperatureTopic (H.tempToStr t)
          else [])) := by
  unfold HAHVAC.publishCurrentTemperature
  cases hf : h.hasFeature HAHVAC.CurrentTemperatureFeature
  · simp [HAMqtt.appendLog_nil, HAHVAC.withMqtt]
  · cases hg : Double.ge t (.ofInt 255)
    · simp [hn, mqttPublishMessage_snd]
    · simp [hn, HAMqtt.appendLog_nil, HAHVAC.withMqtt]

theorem HAHVAC.publishTargetTemperature_snd (H : FieldHelpers) (h : HAHVAC) (t : Double)
    (hn : h.base.name.length ≠ 0) :
    (h.publishTargetTemperature H t).2
      = h.withMqtt (h.base.mqtt.appendLog
          (if Double.ge t (.ofInt 255) = false then
            publishCalls h.base HAHVAC.TargetTemperatureStateTopic (H.tempToStr t)
          else [])) := by
  unfold HAHVAC.publishTargetTemperature
  cases hg : Double.ge t (.ofInt 255)
  · simp [hn, mqttPublishMessage_snd]
  · simp [hn, HAMqtt.appendLog_nil, HAHVAC.withMqtt]

theorem HAHVAC.subscribeTopics_eq (h : HAHVAC) :
    h.subscribeTopics
      = h.withMqtt (h.base.mqtt.appendLog (
          (if h.hasFeature HAHVAC.AuxHeatingFeature = true then
            subscribeCalls h.base HAHVAC.AuxCommandTopic else [])
          ++ (if h.hasFeature HAHVAC.AwayModeFeature = true then
            subscribeCalls h.base HAHVAC.AwayCommandTopic else [])
          ++ (if h.hasFeature HAHVAC.HoldFeature = true then
            subscribeCalls h.base HAHVAC.HoldCommandTopic else [])
          ++ subscribeCalls h.base HAHVAC.TargetTemperatureCommandTopic)) := by
  have e1 : ∀ (x : HAHVAC) (m : HAMqtt) (f : Nat), (x.withMqtt m).hasFeature f = x.hasFeature f :=
    fun _ _ _ => rfl
  have e2 : ∀ (x : HAHVAC) (m m2 : HAMqtt), (x.withMqtt m).withMqtt m2 = x.withMqtt m2 :=
    fun _ _ _ => rfl
  have e3 : ∀ (x : HAHVAC) (m : HAMqtt), (x.withMqtt m).base.mqtt = m := fun _ _ => rfl
  have e4 : ∀ (x : HAHVAC) (ops : List MqttOp) (s : String),
      subscribeCalls (x.withMqtt (x.base.mqtt.appendLog ops)).base s = subscribeCalls x.base s :=
    fun _ _ _ => rfl
  unfold HAHVAC.subscribeTopics
  simp only [mqttSubscribeTopic_snd]
  rcases hf1 : h.hasFeature HAHVAC.AuxHeatingFeature <;>
    rcases hf2 : h.hasFeature HAHVAC.AwayModeFeature <;>
    rcases hf3 : h.hasFeature HAHVAC.HoldFeature <;>
    simp only [hf1, hf2, hf3, e1, e2, e3, e4, if_true, if_false, Bool.false_eq_true,
      HAMqtt.appendLog_appendLog, List.append_assoc, List.nil_append]


theorem HAHVAC.hvac_onMqttConnected_of_undefined (H : FieldHelpers) (h h1 : HAHVAC)
    (hn : h.base.name.length ≠ 0) (hcfg : h.publishConfig H = .undefined h1) :
    h.onMqttConnected H = .undefined h1 := by
  unfold HAHVAC.onMqttConnected
  rw [if_neg hn, hcfg]
  rfl

theorem HAHVAC.hvac_onMqttConnected_eq (H : FieldHelpers) (h : HAHVAC)
    (hn : h.base.name.length ≠ 0) (cfg : List MqttOp)
    (hcfg : h.publishConfig H = .returned (h.withMqtt (h.base.mqtt.appendLog cfg))) :
    h.onMqttConnected H
      = .returned (h.withMqtt (h.base.mqtt.appendLog (cfg
          ++ (match HAHVAC.actionStr h._action with
              | some str => publishCalls h.base HAHVAC.ActionTopic str
              | none => [])
          ++ (if h.hasFeature HAHVAC.AuxHeatingFeature = true then
                publishCalls h.base HAHVAC.AuxStateTopic
                  (if h._auxHeatingState then StateOn else StateOff)
              else [])
          ++ (if h.hasFeature HAHVAC.AwayModeFeature = true then
                publishCalls h.base HAHVAC.AwayStateTopic
                  (if h._awayState then StateOn else StateOff)
              else [])
          ++ (if h.hasFeature HAHVAC.HoldFeature = true then
                publishCalls h.base HAHVAC.HoldStateTopic
                  (if h._holdState then StateOn else StateOff)
              else [])
          ++ (if h.hasFeature HAHVAC.CurrentTemperatureFeature = true
                  ∧ Double.ge h._currentTemperature (.ofInt 255) = false then
                publishCalls h.base HAHVAC.CurrentTemperatureTopic
                  (H.tempToStr h._currentTemperature)
              else [])
          ++ (if Double.ge h._targetTemperature (.ofInt 255) = false then
                publishCalls h.base HAHVAC.TargetTemperatureStateTopic
                  (H.tempToStr h._targetTemperature)
              else [])
          ++ ((if h.hasFeature HAHVAC.AuxHeatingFeature = true then
                subscribeCalls h.base HAHVAC.AuxCommandTopic else [])
            ++ (if h.hasFeature HAHVAC.AwayModeFeature = true then
                subscribeCalls h.base HAHVAC.AwayCommandTopic else [])
            ++ (if h.hasFeature HAHVAC.HoldFeature = true then
                subscribeCalls h.base HAHVAC.HoldCommandTopic else [])
            ++ subscribeCalls h.base HAHVAC.TargetTemperatureCommandTopic)))) := by
  have hn2 : ∀ m : HAMqtt, (h.withMqtt m).base.name.length ≠ 0 := fun _ => hn
  have e1 : ∀ (x : HAHVAC) (m : HAMqtt) (f : Nat), (x.withMqtt m).hasFeature f = x.hasFeature f :=
    fun _ _ _ => rfl
  have e2 : ∀ (x : HAHVAC) (m m2 : HAMqtt), (x.withMqtt m).withMqtt m2 = x.withMqtt m2 :=
    fun _ _ _ => rfl
  have e3 : ∀ (x : HAHVAC) (m : HAMqtt), (x.withMqtt m).base.mqtt = m := fun _ _ => rfl
  have e4 : ∀ (x : HAHVAC) (ops : List MqttOp) (s : String),
      subscribeCalls (x.withMqtt (x.base.mqtt.appendLog ops)).base s = subscribeCalls x.base s :=
    fun _ _ _ => rfl
  have e5 : ∀ (x : HAHVAC) (ops : List MqttOp) (s d : String),
      publishCalls (x.withMqtt (x.base.mqtt.appendLog ops)).base s d = publishCalls x.base s d :=
    fun _ _ _ _ => rfl
  have f1 : ∀ (x : HAHVAC) (m : HAMqtt), (x.withMqtt m)._action = x._action := fun _ _ => rfl
  have f2 : ∀ (x : HAHVAC) (m : HAMqtt), (x.withMqtt m)._auxHeatingState = x._auxHeatingState :=
    fun _ _ => rfl
  have f3 : ∀ (x : HAHVAC) (m : HAMqtt), (x.withMqtt m)._awayState = x._awayState :=
    fun _ _ => rfl
  have f4 : ∀ (x : HAHVAC) (m : HAMqtt), (x.withMqtt m)._holdState = x._holdState :=
    fun _ _ => rfl
  have f5 : ∀ (x : HAHVAC) (m : HAMqtt),
      (x.withMqtt m)._currentTemperature = x._currentTemperature := fun _ _ => rfl
  have f6 : ∀ (x : HAHVAC) (m : HAMqtt),
      (x.withMqtt m)._targetTemperature = x._targetTemperature := fun _ _ => rfl
  unfold HAHVAC.onMqttConnected
  rw [if_neg hn]
  simp only [hcfg, Outcome.andThen, f1, f2, f3, f4, f5, f6]
  rw [HAHVAC.publishAction_snd _ _ (hn2 _)]
  simp only [e1, e2, e3, e5, f1, f2, f3, f4, f5, f6, HAMqtt.appendLog_appendLog]
  rw [HAHVAC.publishAuxHeatingState_snd _ _ (hn2 _)]
  simp only [e1, e2, e3, e5, f1, f2, f3, f4, f5, f6, HAMqtt.appendLog_appendLog]
  rw [HAHVAC.publishAwayState_snd _ _ (hn2 _)]
  simp only [e1, e2, e3, e5, f1, f2, f3, f4, f5, f6, HAMqtt.appendLog_appendLog]
  rw [HAHVAC.publishHoldState_snd _ _ (hn2 _)]
  simp only [e1, e2, e3, e5, f1, f2, f3, f4, f5, f6, HAMqtt.appendLog_appendLog]
  rw [HAHVAC.publishCurrentTemperature_snd _ _ _ (hn2 _)]
  simp only [e1, e2, e3, e5, f1, f2, f3, f4, f5, f6, HAMqtt.appendLog_appendLog]
  rw [HAHVAC.publishTargetTemperature_snd _ _ _ (hn2 _)]
  simp only [e1, e2, e3, e5, f1, f2, f3, f4, f5, f6, HAMqtt.appendLog_appendLog]
  rw [HAHVAC.subscribeTopics_eq]
  simp only [e1, e2, e3, e4, HAMqtt.appendLog_appendLog]


theorem HASwitch.switch_publishConfig_of_zero_topic (H : FieldHelpers) (sw : HASwitch)
    (h0 : calculateTopicLength sw.base.mqtt.discoveryPrefix sw.base.componentName sw.base.name
      ConfigTopic true = 0) : sw.publishConfig H = sw := by
  rcases HASwitch.switch_publishConfig_cases H sw with he | ⟨device, -, -, -, h3, -, -⟩
  · exact he
  · exact absurd h0 h3

theorem HABinarySensor.sensor_publishConfig_of_zero_topic (H : FieldHelpers)
    (bs : HABinarySensor)
    (h0 : calculateTopicLength bs.base.mqtt.discoveryPrefix bs.base.componentName bs.base.name
      ConfigTopic true = 0) : bs.publishConfig H = bs := by
  rcases HABinarySensor.sensor_publishConfig_cases H bs with he | ⟨device, -, -, -, h3, -, -⟩
  · exact he
  · exact absurd h0 h3

theorem HAHVAC.hvac_publishConfig_of_zero_topic (H : FieldHelpers) (h : HAHVAC)
    (h0 : calculateTopicLength h.base.mqtt.discoveryPrefix h.base.componentName h.base.name
      ConfigTopic true = 0) : h.publishConfig H = .returned h := by
  rcases HAHVAC.hvac_publishConfig_cases H h with he | ⟨device, -, -, -, h3, -, -⟩
  · exact he
  · exact absurd h0 h3

theorem DeviceTypeSerializer.calculateTopicLength_of_empty (discovery component suffix : String)
    (objectId : String) (t : Bool) (hn : objectId.length = 0) :
    calculateTopicLength discovery component objectId suffix t = 0 := by
  simp [calculateTopicLength, hn]

theorem DeviceTypeSerializer.isDiscovery_publishCalls (dt : BaseDeviceType)
    (topicSuffix data : String) : ∀ op ∈ publishCalls dt topicSuffix data,
      op.isDiscovery = false := by
  unfold publishCalls
  split
  · simp
  · simp [MqttOp.isDiscovery]

theorem DeviceTypeSerializer.isDiscovery_subscribeCalls (dt : BaseDeviceType)
    (topicSuffix : String) : ∀ op ∈ subscribeCalls dt topicSuffix,
      op.isDiscovery = false := by
  unfold subscribeCalls
  split
  · simp
  · simp [MqttOp.isDiscovery]

theorem HASwitch.switch_onMqttConnected_log (H : FieldHelpers) (availability : String)
    (sw : HASwitch) (hn : sw.base.name.length ≠ 0) (cfg : List MqttOp)
    (hcfg : sw.publishConfig H = sw.withMqtt (sw.base.mqtt.appendLog cfg)) :
    sw.onMqttConnected H availability
      = sw.withMqtt (sw.base.mqtt.appendLog (cfg ++ sw.connectCalls availability)) := by
  rw [HASwitch.switch_onMqttConnected_eq H availability sw hn cfg hcfg]
  simp only [HASwitch.connectCalls, List.append_assoc]

theorem HABinarySensor.sensor_onMqttConnected_log (H : FieldHelpers) (availability : String)
    (bs : HABinarySensor) (hn : bs.base.name.length ≠ 0) (cfg : List MqttOp)
    (hcfg : bs.publishConfig H = bs.withMqtt (bs.base.mqtt.appendLog cfg)) :
    bs.onMqttConnected H availability
      = bs.withMqtt (bs.base.mqtt.appendLog (cfg ++ bs.connectCalls availability)) := by
  rw [HABinarySensor.sensor_onMqttConnected_eq H availability bs hn cfg hcfg]
  simp only [HABinarySensor.connectCalls, List.append_assoc]

theorem HAHVAC.hvac_onMqttConnected_log (H : FieldHelpers) (h : HAHVAC)
    (hn : h.base.name.length ≠ 0) (cfg : List MqttOp)
    (hcfg : h.publishConfig H = .returned (h.withMqtt (h.base.mqtt.appendLog cfg))) :
    h.onMqttConnected H
      = .returned (h.withMqtt (h.base.mqtt.appendLog (cfg ++ h.connectCalls H))) := by
  rw [HAHVAC.hvac_onMqttConnected_eq H h hn cfg hcfg]
  simp only [HAHVAC.connectCalls, HAHVAC.statePublishCalls, HAHVAC.subscribeTopicsCalls,
    List.append_assoc]

theorem HAHVAC.hvac_onMqttConnected_of_accepted (H : FieldHelpers) (h : HAHVAC)
    (device : HADevice) (hname : h.base.name ≠ "")
    (hdev : h.base.mqtt.getDevice = some device)
    (hlen : device.calculateSerializedLength ≠ 0) (hser : device.serialize.2 ≠ 0)
    (haccepted : h.base.mqtt.respond h.base.mqtt.log
      (.beginPublish (h.base.topic ConfigTopic)
        (h.calculateSerializedLength H (some device.serialize.1)) true) = true)
    (h3 : calculateTopicLength h.base.mqtt.discoveryPrefix h.base.componentName
      h.base.name ConfigTopic true ≠ 0)
    (hnz : h.calculateSerializedLength H (some device.serialize.1) ≠ 0) :
    ∃ writes : List String,
      h.onMqttConnected H = .undefined (h.withMqtt (h.base.mqtt.appendLog
        ([.beginPublish (h.base.topic ConfigTopic)
            (h.calculateSerializedLength H (some device.serialize.1)) true]
          ++ writes.map MqttOp.writePayload))) := by
  have hn := String.length_ne_zero_of_ne_empty hname
  rcases HAHVAC.hvac_publishConfig_of_ready H h device hdev hlen hser h3 hnz with
    ⟨hr, -⟩ | ⟨-, writes, hcfg⟩
  · have hr2 : h.base.mqtt.respond h.base.mqtt.log
        (.beginPublish (h.base.topic ConfigTopic)
          (h.calculateSerializedLength H (some device.serialize.1)) true) = false := hr
    rw [haccepted] at hr2
    exact absurd hr2 (by simp)
  · exact ⟨writes, HAHVAC.hvac_onMqttConnected_of_undefined H h _ hn hcfg⟩

theorem HASwitch.switch_isDiscovery_connectCalls (availability : String) (sw : HASwitch) :
    ∀ op ∈ sw.connectCalls availability, op.isDiscovery = false := by
  intro op hop
  simp only [HASwitch.connectCalls, List.mem_append] at hop
  rcases hop with (hop | hop) | hop
  · exact isDiscovery_publishCalls _ _ _ op hop
  · split at hop
    · exact isDiscovery_publishCalls _ _ _ op hop
    · exact absurd hop (by simp)
  · exact isDiscovery_subscribeCalls _ _ op hop

theorem HABinarySensor.sensor_isDiscovery_connectCalls (availability : String)
    (bs : HABinarySensor) :
    ∀ op ∈ bs.connectCalls availability, op.isDiscovery = false := by
  intro op hop
  simp only [HABinarySensor.connectCalls, List.mem_append] at hop
  rcases hop with hop | hop
  · exact isDiscovery_publishCalls _ _ _ op hop
  · split at hop
    · exact isDiscovery_publishCalls _ _ _ op hop
    · exact absurd hop (by simp)

theorem HAHVAC.hvac_isDiscovery_connectCalls (H : FieldHelpers) (h : HAHVAC) :
    ∀ op ∈ h.connectCalls H, op.isDiscovery = false := by
  intro op hop
  simp only [HAHVAC.connectCalls, HAHVAC.statePublishCalls, HAHVAC.subscribeTopicsCalls,
    List.mem_append] at hop
  have hp := isDiscovery_publishCalls h.base
  have hs := isDiscovery_subscribeCalls h.base
  rcases hop with (((((hop | hop) | hop) | hop) | hop) | hop) | ((hop | hop) | hop) | hop
  · split at hop
    · exact hp _ _ op hop
    · exact absurd hop (by simp)
  · split at hop
    · exact hp _ _ op hop
    · exact absurd hop (by simp)
  · split at hop
    · exact hp _ _ op hop
    · exact absurd hop (by simp)
  · split at hop
    · exact hp _ _ op hop
    · exact absurd hop (by simp)
  · split at hop
    · exact hp _ _ op hop
    · exact absurd hop (by simp)
  · split at hop
    · exact hp _ _ op hop
    · exact absurd hop (by simp)
  · split at hop
    · exact hs _ op hop
    · exact absurd hop (by simp)
  · split at hop
    · exact hs _ op hop
    · exact absurd hop (by simp)
  · split at hop
    · exact hs _ op hop
    · exact absurd hop (by simp)
  · exact hs _ op hop

theorem DeviceTypeSerializer.subscribeCalls_of_empty_name (dt : BaseDeviceType)
    (topicSuffix : String) (hn : dt.name.length = 0) :
    subscribeCalls dt topicSuffix = [] := by
  simp [subscribeCalls, calculateTopicLength, hn]

theorem HASwitch.switch_connectCalls_of_empty_name (availability : String) (sw : HASwitch)
    (hn : sw.base.name.length = 0) : sw.connectCalls availability = [] := by
  simp [HASwitch.connectCalls, publishCalls_of_empty_name _ _ _ hn,
    subscribeCalls_of_empty_name _ _ hn]

theorem HABinarySensor.sensor_connectCalls_of_empty_name (availability : String)
    (bs : HABinarySensor) (hn : bs.base.name.length = 0) : bs.connectCalls availability = [] := by
  simp [HABinarySensor.connectCalls, publishCalls_of_empty_name _ _ _ hn]

theorem HAHVAC.hvac_connectCalls_of_empty_name (H : FieldHelpers) (h : HAHVAC)
    (hn : h.base.name.length = 0) : h.connectCalls H = [] := by
  simp only [HAHVAC.connectCalls, HAHVAC.statePublishCalls, HAHVAC.subscribeTopicsCalls,
    publishCalls_of_empty_name _ _ _ hn, subscribeCalls_of_empty_name _ _ hn]
  cases HAHVAC.actionStr h._action <;> simp

/-- C14 (as amended): in every execution of `onMqttConnected` of a switch or a
binary sensor, the calls made on the transport are the calls of `publishConfig`
(the begin, write and end calls of the discovery publish, or none) followed by
the state publishes and command subscriptions of `connectCalls`: no state
publish or subscription comes before or between the calls of the discovery
publish. The state publishes and subscriptions do not depend on the discovery
publish: they are the same whether it was made, skipped or refused. The same
holds in every execution of `onMqttConnected` of a climate entity whose
discovery publish is skipped (no call) or refused (the begin-publish alone);
the one other execution of a climate entity is the one whose begin-publish is
accepted, where `writeSerializedData` runs off its end after the writes and
the outcome is undefined. -/
theorem onMqttConnected_discovery_first (H : FieldHelpers) (availability : String) :
    (∀ sw : HASwitch, ∃ discovery : List MqttOp,
        (sw.publishConfig H).base.mqtt.log = sw.base.mqtt.log ++ discovery
        ∧ (sw.onMqttConnected H availability).base.mqtt.log
          = sw.base.mqtt.log ++ discovery ++ sw.connectCalls availability
        ∧ (∀ op ∈ discovery, op.isDiscovery = true)
        ∧ (∀ op ∈ sw.connectCalls availability, op.isDiscovery = false))
      ∧ (∀ bs : HABinarySensor, ∃ discovery : List MqttOp,
        (bs.publishConfig H).base.mqtt.log = bs.base.mqtt.log ++ discovery
        ∧ (bs.onMqttConnected H availability).base.mqtt.log
          = bs.base.mqtt.log ++ discovery ++ bs.connectCalls availability
        ∧ (∀ op ∈ discovery, op.isDiscovery = true)
        ∧ (∀ op ∈ bs.connectCalls availability, op.isDiscovery = false))
      ∧ (∀ h : HAHVAC,
        (∃ discovery : List MqttOp,
          h.publishConfig H = .returned (h.withMqtt (h.base.mqtt.appendLog discovery))
          ∧ h.onMqttConnected H
            = .returned (h.withMqtt (h.base.mqtt.appendLog (discovery ++ h.connectCalls H)))
          ∧ (discovery = [] ∨ ∃ op, discovery = [op] ∧ op.isDiscovery = true
              ∧ h.base.mqtt.respond h.base.mqtt.log op = false)
          ∧ (∀ op ∈ h.connectCalls H, op.isDiscovery = false))
        ∨ (∃ (op : MqttOp) (writes : List String),
          op.isDiscovery = true ∧ h.base.mqtt.respond h.base.mqtt.log op = true
          ∧ h.publishConfig H = .undefined (h.withMqtt (h.base.mqtt.appendLog
              ([op] ++ writes.map MqttOp.writePayload)))
          ∧ h.onMqttConnected H = .undefined (h.withMqtt (h.base.mqtt.appendLog
              ([op] ++ writes.map MqttOp.writePayload))))) := by
  refine ⟨?_, ?_, ?_⟩
  · intro sw
    by_cases hn : sw.base.name.length = 0
    · refine ⟨[], ?_, ?_, by simp, HASwitch.switch_isDiscovery_connectCalls _ _⟩
      · rw [HASwitch.switch_publishConfig_of_zero_topic H sw
          (calculateTopicLength_of_empty _ _ _ _ _ hn)]
        simp
      · simp [HASwitch.onMqttConnected, hn, HASwitch.switch_connectCalls_of_empty_name _ _ hn]
    · obtain ⟨cfg, hcfg, hd⟩ := HASwitch.switch_publishConfig_log H sw
      refine ⟨cfg, by rw [hcfg]; rfl, ?_, hd, HASwitch.switch_isDiscovery_connectCalls _ _⟩
      rw [HASwitch.switch_onMqttConnected_log H availability sw hn cfg hcfg]
      simp only [HASwitch.withMqtt, HAMqtt.appendLog, List.append_assoc]
  · intro bs
    by_cases hn : bs.base.name.length = 0
    · refine ⟨[], ?_, ?_, by simp, HABinarySensor.sensor_isDiscovery_connectCalls _ _⟩
      · rw [HABinarySensor.sensor_publishConfig_of_zero_topic H bs
          (calculateTopicLength_of_empty _ _ _ _ _ hn)]
        simp
      · simp [HABinarySensor.onMqttConnected, hn,
          HABinarySensor.sensor_connectCalls_of_empty_name _ _ hn]
    · obtain ⟨cfg, hcfg, hd⟩ := HABinarySensor.sensor_publishConfig_log H bs
      refine ⟨cfg, by rw [hcfg]; rfl, ?_, hd, HABinarySensor.sensor_isDiscovery_connectCalls _ _⟩
      rw [HABinarySensor.sensor_onMqttConnected_log H availability bs hn cfg hcfg]
      simp only [HABinarySensor.withMqtt, HAMqtt.appendLog, List.append_assoc]
  · intro h
    by_cases hn : h.base.name.length = 0
    · refine Or.inl ⟨[], ?_, ?_, Or.inl rfl, HAHVAC.hvac_isDiscovery_connectCalls _ _⟩
      · rw [HAHVAC.hvac_publishConfig_of_zero_topic H h
          (calculateTopicLength_of_empty _ _ _ _ _ hn), HAMqtt.appendLog_nil]
        rfl
      · rw [HAHVAC.hvac_connectCalls_of_empty_name _ _ hn]
        simp only [HAHVAC.onMqttConnected, hn, if_true, List.append_nil, HAMqtt.appendLog_nil]
        rfl
    · rcases HAHVAC.hvac_publishConfig_log H h with ⟨cfg, hcfg, hd⟩ | ⟨op, writes, hcfg, ho, hr⟩
      · exact Or.inl ⟨cfg, hcfg, HAHVAC.hvac_onMqttConnected_log H h hn cfg hcfg, hd,
          HAHVAC.hvac_isDiscovery_connectCalls _ _⟩
      · exact Or.inr ⟨op, writes, ho, hr, hcfg,
          HAHVAC.hvac_onMqttConnected_of_undefined H h _ hn hcfg⟩

/-- C14 (as stated) fails. The switch `relay1` on a transport without a device
skips the discovery publish, and on a transport that refuses the begin-publish
the discovery publish fails; in both cases `onMqttConnected` still publishes
the state and subscribes to the command topic. And the climate entity `hvac1`
on a transport that accepts the begin-publish: `onMqttConnected` does not
return with a defined outcome. -/
theorem onMqttConnected_discovery_first_counterexample :
    ((relay1NoDevice.onMqttConnected specHelpers "online").base.mqtt.log
        = [.publish "homeassistant/switch/relay1/stat_t" "OFF" true,
           .subscribe "homeassistant/switch/relay1/cmd_t"]
      ∧ (relay1Refused.onMqttConnected specHelpers "online").base.mqtt.log
        = [.beginPublish "homeassistant/switch/relay1/config" 152 true,
           .publish "homeassistant/switch/relay1/stat_t" "OFF" true,
           .subscribe "homeassistant/switch/relay1/cmd_t"]
      ∧ (relay1Refused.onMqttConnected specHelpers "online").base.mqtt.results
        = [(.beginPublish "homeassistant/switch/relay1/config" 152 true, false),
           (.publish "homeassistant/switch/relay1/stat_t" "OFF" true, true),
           (.subscribe "homeassistant/switch/relay1/cmd_t", true)])
      ∧ (hvac1.onMqttConnected specHelpers).isReturned = false := by
  refine ⟨by decide, ?_⟩
  obtain ⟨writes, hw⟩ := HAHVAC.hvac_onMqttConnected_of_accepted specHelpers hvac1 sampleDevice
    (by decide) rfl (by decide) (by decide) rfl (by decide) (by decide)
  rw [hw]
  rfl


/-- Witness of C14 (as amended): the switch `relay1` on its first connection:
the calls of the discovery publish come first, then "OFF" to the state topic
and the subscription to the command topic. -/
theorem onMqttConnected_discovery_first_witness :
    (∃ discovery : List MqttOp,
        (relay1.publishConfig specHelpers).base.mqtt.log = relay1.base.mqtt.log ++ discovery
        ∧ (relay1.onMqttConnected specHelpers "online").base.mqtt.log
          = relay1.base.mqtt.log ++ discovery ++ relay1.connectCalls "online"
        ∧ (∀ op ∈ discovery, op.isDiscovery = true)
        ∧ (∀ op ∈ relay1.connectCalls "online", op.isDiscovery = false))
      ∧ relay1.connectCalls "online"
        = [.publish "homeassistant/switch/relay1/stat_t" "OFF" true,
           .subscribe "homeassistant/switch/relay1/cmd_t"] :=
  ⟨(onMqttConnected_discovery_first specHelpers "online").1 relay1, by decide⟩

/-! ## The sequence of a connection -/

theorem DeviceTypeSerializer.publishCalls_of_fit (dt : BaseDeviceType) (suffix data : String)
    (hn : dt.name.length ≠ 0) (hs : suffix.length ≠ 0) (hfit : topicLen dt suffix + 1 < 65536) :
    publishCalls dt suffix data = [.publish (dt.topic suffix) data true] := by
  have hc := @calculateTopicLength_eq dt suffix hn hs hfit true
  simp only [if_true] at hc
  simp [publishCalls, hc, BaseDeviceType.topic]

theorem DeviceTypeSerializer.subscribeCalls_of_fit (dt : BaseDeviceType) (suffix : String)
    (hn : dt.name.length ≠ 0) (hs : suffix.length ≠ 0) (hfit : topicLen dt suffix + 1 < 65536) :
    subscribeCalls dt suffix = [.subscribe (dt.topic suffix)] := by
  have hc := @calculateTopicLength_eq dt suffix hn hs hfit true
  simp only [if_true] at hc
  simp [subscribeCalls, hc, BaseDeviceType.topic]

theorem topicLen_le_config (dt : BaseDeviceType) (suffix : String) (hs : suffix.length ≤ 6)
    (hfit : topicLen dt ConfigTopic + 1 < 65536) : topicLen dt suffix + 1 < 65536 := by
  have l : ConfigTopic.length = 6 := rfl
  unfold topicLen at hfit ⊢
  omega

/-- C12 (as amended): for every switch with a non-empty object id, on a
transport on which every call succeeds and whose device descriptor is
available and serializes to a non-zero length, whose config topic with its
terminator is shorter than 65536 bytes and for which
`calculateSerializedLength` returns a non-zero value, `onMqttConnected` issues
exactly one discovery publish to the config topic (begin, writes, end), then
exactly one state publish carrying the literal of the current state, then the
availability publish of an entity with a distinct availability topic, then
exactly one subscription to the command topic, in that order, and nothing
else. -/
theorem HASwitch.onMqttConnected_sequence (H : FieldHelpers) (availability : String)
    (sw : HASwitch) (device : HADevice)
    (hname : sw.base.name ≠ "")
    (hdev : sw.base.mqtt.getDevice = some device)
    (hlen : device.calculateSerializedLength ≠ 0) (hser : device.serialize.2 ≠ 0)
    (hok : ∀ l op, sw.base.mqtt.respond l op = true)
    (hfit : topicLen sw.base ConfigTopic + 1 < 65536)
    (hnz : sw.calculateSerializedLength H (some device.serialize.1) ≠ 0) :
    ∃ writes : List String,
      (sw.onMqttConnected H availability).base.mqtt.log
        = sw.base.mqtt.log
          ++ [.beginPublish (sw.base.topic ConfigTopic)
                (sw.calculateSerializedLength H (some device.serialize.1)) true]
          ++ writes.map MqttOp.writePayload
          ++ [.endPublish,
              .publish (sw.base.topic StateTopic)
                (if sw._currentState then StateOn else StateOff) true]
          ++ (if sw.base.isAvailabilityConfigured = true then
                [.publish (sw.base.topic AvailabilityTopic) availability true]
              else [])
          ++ [.subscribe (sw.base.topic CommandTopic)] := by
  have hn := String.length_ne_zero_of_ne_empty hname
  have hc := @calculateTopicLength_eq sw.base ConfigTopic hn (by decide) hfit true
  have h3 : calculateTopicLength sw.base.mqtt.discoveryPrefix sw.base.componentName
      sw.base.name ConfigTopic true ≠ 0 := by rw [hc]; simp
  rcases HASwitch.switch_publishConfig_of_ready H sw device hdev hlen hser h3 hnz with
    ⟨hr, -⟩ | ⟨-, writes, hcfg⟩
  · rw [hok] at hr
    exact absurd hr (by simp)
  · refine ⟨writes, ?_⟩
    rw [HASwitch.switch_onMqttConnected_log H availability sw hn _ hcfg]
    simp only [HASwitch.connectCalls,
      publishCalls_of_fit sw.base StateTopic _ hn (by decide)
        (topicLen_le_config _ _ (by decide) hfit),
      publishCalls_of_fit sw.base AvailabilityTopic _ hn (by decide)
        (topicLen_le_config _ _ (by decide) hfit),
      subscribeCalls_of_fit sw.base CommandTopic hn (by decide)
        (topicLen_le_config _ _ (by decide) hfit)]
    simp [HASwitch.withMqtt, HAMqtt.appendLog, BaseDeviceType.topic]

/-- Witness of C12 (as amended): the switch `relay1`, initially off, on its
first connection: the discovery document of 152 bytes to
`homeassistant/switch/relay1/config`, then "OFF" to the state topic, then the
subscription to the command topic. -/
theorem HASwitch.onMqttConnected_sequence_witness :
    (∃ writes : List String,
      (relay1.onMqttConnected specHelpers "online").base.mqtt.log
        = [.beginPublish "homeassistant/switch/relay1/config" 152 true]
          ++ writes.map MqttOp.writePayload
          ++ [.endPublish,
              .publish "homeassistant/switch/relay1/stat_t" "OFF" true,
              .subscribe "homeassistant/switch/relay1/cmd_t"]) := by
  obtain ⟨writes, hw⟩ := HASwitch.onMqttConnected_sequence specHelpers "online" relay1
    sampleDevice (by decide) rfl (by decide) (by decide) (fun _ _ => rfl) (by decide) (by decide)
  have e1 : relay1.base.topic ConfigTopic = "homeassistant/switch/relay1/config" := by decide
  have e2 : relay1.calculateSerializedLength specHelpers (some sampleDevice.serialize.1) = 152 := by
    decide
  have e3 : relay1.base.topic StateTopic = "homeassistant/switch/relay1/stat_t" := by decide
  have e4 : relay1.base.topic CommandTopic = "homeassistant/switch/relay1/cmd_t" := by decide
  have e5 : relay1.base.mqtt.log = [] := rfl
  have e6 : relay1.base.isAvailabilityConfigured = false := rfl
  have e7 : relay1._currentState = false := rfl
  have e8 : StateOff = "OFF" := rfl
  rw [e1, e2, e3, e4, e5, e6, e7] at hw
  exact ⟨writes, by simpa [e8] using hw⟩

theorem HASwitch.switch_onMqttConnected_of_edge_name (n : String) (hn : n.length = 65507) :
    ((HASwitch.new n false okMqtt).onMqttConnected specHelpers "online").base.mqtt.log
      = [.subscribe ((HASwitch.new n false okMqtt).base.topic CommandTopic)] := by
  have l1 : "homeassistant".length = 13 := rfl
  have l2 : "switch".length = 6 := rfl
  have l3 : ConfigTopic.length = 6 := rfl
  have l4 : StateTopic.length = 6 := rfl
  have l5 : CommandTopic.length = 5 := rfl
  have hn0 : (HASwitch.new n false okMqtt).base.name.length ≠ 0 := by
    show n.length ≠ 0
    omega
  have h0 : calculateTopicLength "homeassistant" "switch" n ConfigTopic true = 0 := by
    simp [calculateTopicLength, hn, l1, l2, l3, u16]
  have h1 : calculateTopicLength "homeassistant" "switch" n StateTopic true = 0 := by
    simp [calculateTopicLength, hn, l1, l2, l4, u16]
  have h2 : calculateTopicLength "homeassistant" "switch" n CommandTopic true ≠ 0 := by
    simp [calculateTopicLength, hn, l1, l2, l5, u16]
  have hcfg := HASwitch.switch_publishConfig_of_zero_topic specHelpers
    (HASwitch.new n false okMqtt) h0
  rw [HASwitch.switch_onMqttConnected_log specHelpers "online" _ hn0 []
    (by rw [hcfg, HAMqtt.appendLog_nil]; rfl)]
  have c1 : publishCalls (HASwitch.new n false okMqtt).base StateTopic
      (if (HASwitch.new n false okMqtt)._currentState = true then StateOn else StateOff) = [] := by
    exact if_pos h1
  have c2 : subscribeCalls (HASwitch.new n false okMqtt).base CommandTopic
      = [.subscribe ((HASwitch.new n false okMqtt).base.topic CommandTopic)] := by
    exact if_neg h2
  have c3 : (HASwitch.new n false okMqtt).base.isAvailabilityConfigured = false := rfl
  simp only [HASwitch.connectCalls, c1, c2, c3]
  rfl

/-- C12 (as stated) fails. A switch whose object id has 65507 characters, on
the transport `okMqtt` on which every call succeeds and whose device is
available: its config topic and its state topic have 65536 bytes with the
terminator, a size that is zero in 16 bits, so `onMqttConnected` issues no
discovery publish and no state publish, only the subscription to the command
topic. -/
theorem HASwitch.onMqttConnected_sequence_counterexample :
    edgeName.length = 65507
      ∧ edgeSwitch.base.mqtt.getDevice = some sampleDevice
      ∧ (edgeSwitch.onMqttConnected specHelpers "online").base.mqtt.log
        = [.subscribe (edgeSwitch.base.topic CommandTopic)] := by
  refine ⟨length_edgeName, rfl, ?_⟩
  unfold edgeSwitch
  exact HASwitch.switch_onMqttConnected_of_edge_name edgeName length_edgeName

theorem HASwitch.publishedStates_withMqtt (sw : HASwitch) (ops : List MqttOp) :
    (sw.withMqtt (sw.base.mqtt.appendLog ops)).publishedStates
      = sw.publishedStates
        ++ (HAMqtt.resultsFrom sw.base.mqtt.respond sw.base.mqtt.log ops).filterMap
            (HASwitch.publishedOn sw.stateTopic) := by
  show ((sw.base.mqtt.appendLog ops).results).filterMap (HASwitch.publishedOn sw.stateTopic) = _
  rw [HAMqtt.results_appendLog, List.filterMap_append]
  rfl

theorem HAMqtt.filterMap_resultsFrom_eq_nil (respond : List MqttOp → MqttOp → Bool)
    (topic : String) (done ops : List MqttOp)
    (h : ∀ op ∈ ops, ∀ b, HASwitch.publishedOn topic (op, b) = none) :
    (HAMqtt.resultsFrom respond done ops).filterMap (HASwitch.publishedOn topic) = [] := by
  induction ops generalizing done with
  | nil => rfl
  | cons op ops ih =>
    simp only [HAMqtt.resultsFrom, List.filterMap_cons, h op (by simp)]
    exact ih _ (fun o ho => h o (by simp [ho]))

theorem HASwitch.publishedOn_of_isDiscovery (topic : String) (op : MqttOp) (b : Bool)
    (h : op.isDiscovery = true) : HASwitch.publishedOn topic (op, b) = none := by
  cases op <;> cases b <;> simp_all [MqttOp.isDiscovery, HASwitch.publishedOn]

theorem HASwitch.publishedOn_subscribeCalls (topic : String) (dt : BaseDeviceType)
    (suffix : String) :
    ∀ op ∈ subscribeCalls dt suffix, ∀ b, HASwitch.publishedOn topic (op, b) = none := by
  intro op hop b
  unfold subscribeCalls at hop
  split at hop
  · exact absurd hop (by simp)
  · rw [List.mem_singleton.mp hop]
    cases b <;> rfl

theorem HASwitch.publishedOn_availability (sw : HASwitch) (availability : String) :
    ∀ op ∈ publishCalls sw.base AvailabilityTopic availability, ∀ b,
      HASwitch.publishedOn sw.stateTopic (op, b) = none := by
  intro op hop b
  unfold publishCalls at hop
  split at hop
  · exact absurd hop (by simp)
  · rename_i h0
    rw [List.mem_singleton.mp hop]
    obtain ⟨hid, -⟩ := facts_of_calculateTopicLength_ne_zero h0
    have hne : (generateTopic sw.base.mqtt.discoveryPrefix sw.base.componentName sw.base.name
        AvailabilityTopic).1 ≠ sw.stateTopic := by
      intro he
      have hl := congrArg String.length he
      have l1 : AvailabilityTopic.length = 4 := rfl
      have l2 : StateTopic.length = 6 := rfl
      rw [HASwitch.stateTopic, generateTopic_length_of_nonempty hid (by decide),
        generateTopic_length_of_nonempty hid (by decide), l1, l2] at hl
      omega
    cases b <;> simp [HASwitch.publishedOn, hne]

theorem HASwitch.publishedStates_publishCalls (sw : HASwitch) (done : List MqttOp)
    (data : String) :
    (HAMqtt.resultsFrom sw.base.mqtt.respond done
        (publishCalls sw.base StateTopic data)).filterMap (HASwitch.publishedOn sw.stateTopic) = []
      ∨ (HAMqtt.resultsFrom sw.base.mqtt.respond done
        (publishCalls sw.base StateTopic data)).filterMap (HASwitch.publishedOn sw.stateTopic)
          = [data] := by
  unfold publishCalls
  split
  · exact Or.inl rfl
  · cases hr : sw.base.mqtt.respond done (.publish (generateTopic sw.base.mqtt.discoveryPrefix
        sw.base.componentName sw.base.name StateTopic).1 data true)
    · left
      simp [HAMqtt.resultsFrom, HASwitch.publishedOn, hr]
    · right
      simp [HAMqtt.resultsFrom, HASwitch.publishedOn, hr, HASwitch.stateTopic]

theorem HASwitch.publishedStates_congr (x y : HASwitch) (h : x.base = y.base) :
    x.publishedStates = y.publishedStates := by
  simp only [HASwitch.publishedStates, HASwitch.stateTopic, h]

theorem HASwitch.switch_setState_cases (sw : HASwitch) (v : Bool) :
    (sw.setState v).2 = sw
      ∨ (sw.base.mqtt.respond sw.base.mqtt.log (.publish sw.stateTopic
            (if v then StateOn else StateOff) true) = false
          ∧ (sw.setState v).2 = sw.withMqtt (sw.base.mqtt.appendLog [.publish sw.stateTopic
            (if v then StateOn else StateOff) true]))
      ∨ (sw.base.mqtt.respond sw.base.mqtt.log (.publish sw.stateTopic
            (if v then StateOn else StateOff) true) = true
          ∧ (sw.setState v).2.base = (sw.withMqtt (sw.base.mqtt.appendLog [.publish sw.stateTopic
            (if v then StateOn else StateOff) true])).base
          ∧ (sw.setState v).2._currentState = v) := by
  unfold HASwitch.setState
  by_cases hcur : sw._currentState = v
  · rw [if_pos hcur]
    exact Or.inl rfl
  · rw [if_neg hcur, HASwitch.switch_publishState_eq]
    by_cases h0 : calculateTopicLength sw.base.mqtt.discoveryPrefix sw.base.componentName
        sw.base.name StateTopic true = 0
    · rw [if_pos h0]
      exact Or.inl rfl
    · rw [if_neg h0]
      cases hr : sw.base.mqtt.respond sw.base.mqtt.log (.publish sw.stateTopic
          (if v then StateOn else StateOff) true)
      · exact Or.inr (Or.inl ⟨rfl, rfl⟩)
      · refine Or.inr (Or.inr ⟨rfl, ?_, ?_⟩)
        · by_cases hcb : sw._stateCallback = true <;> simp [hcb, HASwitch.withMqtt]
        · by_cases hcb : sw._stateCallback = true <;> simp [hcb, HASwitch.withMqtt]

theorem HASwitch.switch_setState_keeps_hub_state (sw : HASwitch) (v : Bool)
    (hinv : ∀ p, sw.publishedStates.getLast? = some p →
      p = (if sw._currentState then StateOn else StateOff)) :
    ∀ p, (sw.setState v).2.publishedStates.getLast? = some p →
      p = (if (sw.setState v).2._currentState then StateOn else StateOff) := by
  rcases HASwitch.switch_setState_cases sw v with he | ⟨hr, he⟩ | ⟨hr, hb, hc⟩
  · rw [he]
    exact hinv
  · rw [he, HASwitch.publishedStates_withMqtt]
    simpa [HAMqtt.resultsFrom, HASwitch.publishedOn, hr] using hinv
  · rw [HASwitch.publishedStates_congr _ _ hb, HASwitch.publishedStates_withMqtt, hc]
    intro p hp
    simp [HAMqtt.resultsFrom, hr, HASwitch.publishedOn, List.getLast?_append] at hp
    exact hp.symm

theorem HASwitch.switch_setState_name (sw : HASwitch) (v : Bool) :
    (sw.setState v).2.base.name = sw.base.name := by
  rcases HASwitch.switch_setState_cases sw v with he | ⟨-, he⟩ | ⟨-, hb, -⟩
  · rw [he]
  · rw [he]
    rfl
  · rw [hb]
    rfl

theorem HASwitch.switch_onMqttMessage_keeps_hub_state (sw : HASwitch) (topic payload : String)
    (length : Nat) (hlen : sw.base.name.length ≤ 247)
    (hinv : ∀ p, sw.publishedStates.getLast? = some p →
      p = (if sw._currentState then StateOn else StateOff)) :
    ∃ sw1, sw.onMqttMessage topic payload length = .returned sw1
      ∧ sw1.base.name = sw.base.name
      ∧ ∀ p, sw1.publishedStates.getLast? = some p →
        p = (if sw1._currentState then StateOn else StateOff) := by
  refine ⟨_, HASwitch.switch_onMqttMessage_of_short_name sw topic payload length hlen, ?_, ?_⟩
  · split
    · exact HASwitch.switch_setState_name sw _
    · rfl
  · split
    · exact HASwitch.switch_setState_keeps_hub_state sw _ hinv
    · exact hinv

theorem HASwitch.switch_onMqttConnected_keeps_hub_state (H : FieldHelpers) (availability : String)
    (sw : HASwitch)
    (hinv : ∀ p, sw.publishedStates.getLast? = some p →
      p = (if sw._currentState then StateOn else StateOff)) :
    ∀ p, (sw.onMqttConnected H availability).publishedStates.getLast? = some p →
      p = (if (sw.onMqttConnected H availability)._currentState
        then StateOn else StateOff) := by
  by_cases hn : sw.base.name.length = 0
  · have he : sw.onMqttConnected H availability = sw := by
      simp [HASwitch.onMqttConnected, hn]
    rw [he]
    exact hinv
  · obtain ⟨cfg, hcfg, hd⟩ := HASwitch.switch_publishConfig_log H sw
    rw [HASwitch.switch_onMqttConnected_log H availability sw hn cfg hcfg,
      HASwitch.publishedStates_withMqtt]
    simp only [HASwitch.connectCalls, HAMqtt.resultsFrom_append, List.filterMap_append]
    rw [HAMqtt.filterMap_resultsFrom_eq_nil _ _ _ cfg
        (fun op hop b => HASwitch.publishedOn_of_isDiscovery _ op b (hd op hop)),
      HAMqtt.filterMap_resultsFrom_eq_nil _ _ _ (subscribeCalls sw.base CommandTopic)
        (HASwitch.publishedOn_subscribeCalls _ _ _),
      HAMqtt.filterMap_resultsFrom_eq_nil _ _ _
        (if sw.base.isAvailabilityConfigured = true then
          publishCalls sw.base AvailabilityTopic availability else [])
        (by
          intro op hop b
          split at hop
          · exact HASwitch.publishedOn_availability sw availability op hop b
          · exact absurd hop (by simp))]
    show ∀ p, List.getLast? _ = some p → p = (if sw._currentState then StateOn else StateOff)
    rcases HASwitch.publishedStates_publishCalls sw (sw.base.mqtt.log ++ cfg)
        (if sw._currentState then StateOn else StateOff) with he | he
    · rw [he]
      simpa using hinv
    · rw [he]
      intro p hp
      simp [List.getLast?_append] at hp
      exact hp.symm

theorem HASwitch.switch_onMqttConnected_name (H : FieldHelpers) (availability : String)
    (sw : HASwitch) : (sw.onMqttConnected H availability).base.name = sw.base.name := by
  by_cases hn : sw.base.name.length = 0
  · simp [HASwitch.onMqttConnected, hn]
  · obtain ⟨cfg, hcfg, -⟩ := HASwitch.switch_publishConfig_log H sw
    rw [HASwitch.switch_onMqttConnected_log H availability sw hn cfg hcfg]
    rfl

theorem HASwitch.switch_run_keeps_hub_state (H : FieldHelpers) (availability : String)
    (calls : List SwitchCall) (sw : HASwitch) (hlen : sw.base.name.length ≤ 247)
    (hinv : ∀ p, sw.publishedStates.getLast? = some p →
      p = (if sw._currentState then StateOn else StateOff)) :
    ∃ sw1, sw.run H availability calls = .returned sw1
      ∧ ∀ p, sw1.publishedStates.getLast? = some p →
        p = (if sw1._currentState then StateOn else StateOff) := by
  induction calls generalizing sw with
  | nil => exact ⟨sw, rfl, hinv⟩
  | cons c calls ih =>
    have hstep : ∃ sw1, HASwitch.step H availability sw c = .returned sw1
        ∧ sw1.base.name = sw.base.name
        ∧ ∀ p, sw1.publishedStates.getLast? = some p →
          p = (if sw1._currentState then StateOn else StateOff) := by
      cases c with
      | onMqttConnected =>
        exact ⟨_, rfl, HASwitch.switch_onMqttConnected_name H availability sw,
          HASwitch.switch_onMqttConnected_keeps_hub_state H availability sw hinv⟩
      | setState v =>
        exact ⟨_, rfl, HASwitch.switch_setState_name sw v,
          HASwitch.switch_setState_keeps_hub_state sw v hinv⟩
      | onMqttMessage topic payload length =>
        exact HASwitch.switch_onMqttMessage_keeps_hub_state sw topic payload length hlen hinv
    obtain ⟨sw1, hs, hname, hinv1⟩ := hstep
    obtain ⟨sw2, hrun, hinv2⟩ := ih sw1 (by rw [hname]; exact hlen) hinv1
    refine ⟨sw2, ?_, hinv2⟩
    show (HASwitch.step H availability sw c).andThen
      (fun s => HASwitch.run H availability s calls) = _
    rw [hs]
    exact hrun

/-- C11 on the code: a switch whose object id has at most 247 characters and
that has not published a state payload yet returns from any sequence of
`onMqttConnected`, `setState` and `onMqttMessage` calls, whatever the transport
answers to each call, and if at least one state payload was successfully
published then the most recent successfully published state payload is the
literal (on or off) of the current in-memory state. A switch whose object id
has 248 characters, `wideSwitch`, overruns its suffix buffer on its first
`onMqttMessage`, whatever the message, and the outcome of the sequence is
undefined from there. -/
theorem HASwitch.published_state_matches_current_state (H : FieldHelpers)
    (availability : String) :
    (∀ (sw : HASwitch) (calls : List SwitchCall),
        sw.base.name.length ≤ 247 → sw.publishedStates = [] →
        ∃ sw1, sw.run H availability calls = .returned sw1
          ∧ ∀ payload, sw1.publishedStates.getLast? = some payload →
            payload = (if sw1._currentState then StateOn else StateOff))
      ∧ wideName.length = 248
      ∧ (∀ (topic payload : String) (length : Nat) (calls : List SwitchCall),
        wideSwitch.run H availability (.onMqttMessage topic payload length :: calls)
          = .undefined wideSwitch) := by
  refine ⟨fun sw calls hlen hfresh =>
    HASwitch.switch_run_keeps_hub_state H availability calls sw hlen
      (by rw [hfresh]; intro p hp; exact absurd hp (by simp)), length_wideName, ?_⟩
  intro topic payload length calls
  show (wideSwitch.onMqttMessage topic payload length).andThen
    (fun s => HASwitch.run H availability s calls) = _
  have hw : wideSwitch.onMqttMessage topic payload length = .undefined wideSwitch := by
    unfold wideSwitch
    exact HASwitch.switch_onMqttMessage_of_wide_name wideName length_wideName _ _ _
  rw [hw]
  rfl

/-- Witness of C11 on the code: the switch `relay1` on a transport on which
every second call fails; it connects, is switched on, receives "ON", is
switched off (the publish fails and the state stays on) and reconnects. The
hub has seen "OFF", "ON", "ON" and the switch is on. -/
theorem HASwitch.published_state_matches_current_state_witness :
    ∃ sw1, relay1Flaky.run specHelpers "online"
        [.onMqttConnected, .setState true,
          .onMqttMessage "homeassistant/switch/relay1/cmd_t" "ON" 2,
          .setState false, .onMqttConnected] = .returned sw1
      ∧ (∀ payload, sw1.publishedStates.getLast? = some payload →
          payload = (if sw1._currentState then StateOn else StateOff))
      ∧ (relay1Flaky.run specHelpers "online"
        [.onMqttConnected, .setState true,
          .onMqttMessage "homeassistant/switch/relay1/cmd_t" "ON" 2,
          .setState false, .onMqttConnected]).state.publishedStates = ["OFF", "ON", "ON"]
      ∧ (relay1Flaky.run specHelpers "online"
        [.onMqttConnected, .setState true,
          .onMqttMessage "homeassistant/switch/relay1/cmd_t" "ON" 2,
          .setState false, .onMqttConnected]).state._currentState = true := by
  obtain ⟨sw1, hrun, hinv⟩ :=
    (HASwitch.published_state_matches_current_state specHelpers "online").1 relay1Flaky
      [.onMqttConnected, .setState true,
        .onMqttMessage "homeassistant/switch/relay1/cmd_t" "ON" 2,
        .setState false, .onMqttConnected] (by decide) (by decide)
  exact ⟨sw1, hrun, hinv, by decide, by decide⟩

/-! ## Entities without an object id -/

theorem BaseDeviceType.publishAvailability_of_empty_name (dt : BaseDeviceType)
    (availability : String) (hn : dt.name.length = 0) :
    dt.publishAvailability availability = dt.mqtt := by
  rw [BaseDeviceType.publishAvailability_eq, publishCalls_of_empty_name _ _ _ hn]
  simp [HAMqtt.appendLog_nil]

theorem HAHVAC.hvac_setters_of_empty_name (H : FieldHelpers) (h : HAHVAC)
    (hn : h.base.name.length = 0) :
    (∀ a, (h.setAction a).2 = h)
      ∧ (∀ v, (h.setAuxHeatingState v).2 = h)
      ∧ (∀ v, (h.setAwayState v).2 = h)
      ∧ (∀ v, (h.setHoldState v).2 = h)
      ∧ (∀ t, (h.setCurrentTemperature H t).2 = h)
      ∧ (∀ t, (h.setTargetTemperature H t).2 = h) := by
  refine ⟨?_, ?_, ?_, ?_, ?_, ?_⟩
  · intro a
    simp only [HAHVAC.setAction, HAHVAC.publishAction, hn, if_true]
    split <;> rfl
  · intro v
    simp only [HAHVAC.setAuxHeatingState, HAHVAC.publishAuxHeatingState, hn, decide_True,
      Bool.or_true, if_true]
    split
    · rfl
    · split <;> rfl
  · intro v
    simp only [HAHVAC.setAwayState, HAHVAC.publishAwayState, hn, decide_True,
      Bool.or_true, if_true]
    split
    · rfl
    · split <;> rfl
  · intro v
    simp only [HAHVAC.setHoldState, HAHVAC.publishHoldState, hn, decide_True,
      Bool.or_true, if_true]
    split
    · rfl
    · split <;> rfl
  · intro t
    simp only [HAHVAC.setCurrentTemperature, HAHVAC.publishCurrentTemperature, hn, decide_True,
      Bool.or_true, if_true]
    split
    · rfl
    · split <;> rfl
  · intro t
    simp only [HAHVAC.setTargetTemperature, HAHVAC.publishTargetTemperature, hn, if_true]
    split <;> rfl

/-- C21: an entity whose object id is the empty string is inert. For a switch,
a binary sensor and a climate entity with an empty object id,
`onMqttConnected`, `onMqttMessage`, every state setter, `publishConfig` and
the availability publish return, leaving the entity as it was, with nothing
added to the log of the transport, and every `publishX` operation returns
false and leaves the entity as it was. -/
theorem empty_object_id_is_inert (H : FieldHelpers) (availability : String)
    (strToTemp : String → Double) :
    (∀ sw : HASwitch, sw.base.name = "" →
        sw.onMqttConnected H availability = sw
        ∧ (∀ topic payload length, sw.onMqttMessage topic payload length = .returned sw)
        ∧ (∀ v, (sw.setState v).2 = sw)
        ∧ (∀ v, sw.publishState v = (false, sw))
        ∧ sw.publishConfig H = sw
        ∧ sw.base.publishAvailability availability = sw.base.mqtt)
      ∧ (∀ bs : HABinarySensor, bs.base.name = "" →
        bs.onMqttConnected H availability = bs
        ∧ (∀ v, (bs.setState v).2 = bs)
        ∧ (∀ v, bs.publishState v = (false, bs))
        ∧ bs.publishConfig H = bs
        ∧ bs.base.publishAvailability availability = bs.base.mqtt)
      ∧ (∀ h : HAHVAC, h.base.name = "" →
        h.onMqttConnected H = .returned h
        ∧ (∀ topic payload length, h.onMqttMessage H strToTemp topic payload length = h)
        ∧ (∀ a, (h.setAction a).2 = h)
        ∧ (∀ v, (h.setAuxHeatingState v).2 = h)
        ∧ (∀ v, (h.setAwayState v).2 = h)
        ∧ (∀ v, (h.setHoldState v).2 = h)
        ∧ (∀ t, (h.setCurrentTemperature H t).2 = h)
        ∧ (∀ t, (h.setTargetTemperature H t).2 = h)
        ∧ (∀ a, h.publishAction a = (false, h))
        ∧ (∀ v, h.publishAuxHeatingState v = (false, h))
        ∧ (∀ v, h.publishAwayState v = (false, h))
        ∧ (∀ v, h.publishHoldState v = (false, h))
        ∧ (∀ t, h.publishCurrentTemperature H t = (false, h))
        ∧ (∀ t, h.publishTargetTemperature H t = (false, h))
        ∧ h.publishConfig H = .returned h) := by
  refine ⟨?_, ?_, ?_⟩
  · intro sw hname
    have hn : sw.base.name.length = 0 := by rw [hname]; rfl
    refine ⟨by simp [HASwitch.onMqttConnected, hn], ?_, ?_, ?_,
      HASwitch.switch_publishConfig_of_zero_topic H sw
        (calculateTopicLength_of_empty _ _ _ _ _ hn),
      BaseDeviceType.publishAvailability_of_empty_name _ _ hn⟩
    · intro topic payload length
      simp [HASwitch.onMqttMessage, hn]
    · intro v
      simp only [HASwitch.setState, HASwitch.publishState, hn, if_true]
      split <;> rfl
    · intro v
      simp [HASwitch.publishState, hn]
  · intro bs hname
    have hn : bs.base.name.length = 0 := by rw [hname]; rfl
    refine ⟨by simp [HABinarySensor.onMqttConnected, hn], ?_, ?_,
      HABinarySensor.sensor_publishConfig_of_zero_topic H bs
        (calculateTopicLength_of_empty _ _ _ _ _ hn),
      BaseDeviceType.publishAvailability_of_empty_name _ _ hn⟩
    · intro v
      simp only [HABinarySensor.setState, hn, if_true]
      split <;> rfl
    · intro v
      simp [HABinarySensor.publishState, hn]
  · intro h hname
    have hn : h.base.name.length = 0 := by rw [hname]; rfl
    obtain ⟨s1, s2, s3, s4, s5, s6⟩ := HAHVAC.hvac_setters_of_empty_name H h hn
    refine ⟨by simp [HAHVAC.onMqttConnected, hn], ?_, s1, s2, s3, s4, s5, s6, ?_, ?_, ?_, ?_, ?_,
      ?_, HAHVAC.hvac_publishConfig_of_zero_topic H h
        (calculateTopicLength_of_empty _ _ _ _ _ hn)⟩
    · intro topic payload length
      simp [HAHVAC.onMqttMessage, BaseDeviceType.isMyTopic, hn]
    · intro a
      simp [HAHVAC.publishAction, hn]
    · intro v
      simp [HAHVAC.publishAuxHeatingState, hn]
    · intro v
      simp [HAHVAC.publishAwayState, hn]
    · intro v
      simp [HAHVAC.publishHoldState, hn]
    · intro t
      simp [HAHVAC.publishCurrentTemperature, hn]
    · intro t
      simp [HAHVAC.publishTargetTemperature, hn]

/-- Witness of C21: the switch, the binary sensor and the climate entity with
an empty object id on `okMqtt`: connecting, a message and a change of state
leave each as it was. -/
theorem empty_object_id_is_inert_witness :
    (anonymousSwitch.onMqttConnected specHelpers "online" = anonymousSwitch
        ∧ (anonymousSwitch.setState true).2 = anonymousSwitch
        ∧ anonymousSwitch.publishState true = (false, anonymousSwitch))
      ∧ (anonymousSensor.onMqttConnected specHelpers "online" = anonymousSensor
        ∧ (anonymousSensor.setState true).2 = anonymousSensor)
      ∧ (anonymousHVAC.onMqttConnected specHelpers = .returned anonymousHVAC
        ∧ anonymousHVAC.onMqttMessage specHelpers (fun _ => Double.ofInt 21) "//ttct" "21" 2
          = anonymousHVAC
        ∧ anonymousHVAC.publishAction .HeatingAction = (false, anonymousHVAC)) :=
  ⟨⟨((empty_object_id_is_inert specHelpers "online" (fun _ => Double.ofInt 21)).1
        anonymousSwitch rfl).1,
    ((empty_object_id_is_inert specHelpers "online" (fun _ => Double.ofInt 21)).1
        anonymousSwitch rfl).2.2.1 true,
    ((empty_object_id_is_inert specHelpers "online" (fun _ => Double.ofInt 21)).1
        anonymousSwitch rfl).2.2.2.1 true⟩,
   ⟨((empty_object_id_is_inert specHelpers "online" (fun _ => Double.ofInt 21)).2.1
        anonymousSensor rfl).1,
    ((empty_object_id_is_inert specHelpers "online" (fun _ => Double.ofInt 21)).2.1
        anonymousSensor rfl).2.1 true⟩,
   ⟨((empty_object_id_is_inert specHelpers "online" (fun _ => Double.ofInt 21)).2.2
        anonymousHVAC rfl).1,
    ((empty_object_id_is_inert specHelpers "online" (fun _ => Double.ofInt 21)).2.2
        anonymousHVAC rfl).2.1 "//ttct" "21" 2,
    ((empty_object_id_is_inert specHelpers "online" (fun _ => Double.ofInt 21)).2.2
        anonymousHVAC rfl).2.2.2.2.2.2.2.2.1 .HeatingAction⟩⟩

/-! ## Temperatures and actions on the wire -/

theorem Double.eq_eq_false_of_ne {a b : Double} (h : a ≠ b) : Double.eq a b = false := by
  cases a <;> cases b <;> simp_all [Double.eq]

/-- C22: for every climate entity, `publishCurrentTemperature` and
`publishTargetTemperature` return false and make no call on the transport when
the temperature is 255 or greater; so `setTargetTemperature(t)` with `t` of
255 or greater and different from the stored target returns false and leaves
the entity, its target temperature included, as it was. -/
theorem HAHVAC.unset_temperature_is_not_published (H : FieldHelpers) (h : HAHVAC) (t : Double)
    (ht : Double.ge t (.ofInt 255) = true) :
    h.publishCurrentTemperature H t = (false, h)
      ∧ h.publishTargetTemperature H t = (false, h)
      ∧ (h._targetTemperature ≠ t → h.setTargetTemperature H t = (false, h)) := by
  refine ⟨?_, ?_, ?_⟩
  · unfold HAHVAC.publishCurrentTemperature
    split <;> simp [ht]
  · unfold HAHVAC.publishTargetTemperature
    split <;> simp [ht]
  · intro hne
    have hp : h.publishTargetTemperature H t = (false, h) := by
      unfold HAHVAC.publishTargetTemperature
      split <;> simp [ht]
    simp [HAHVAC.setTargetTemperature, Double.eq_eq_false_of_ne hne, hp]

/-- Witness of C22: on `hvac1Busy`, whose target is 22 degrees, the sentinel
255 is not published and `setTargetTemperature(255)` fails and keeps 22. -/
theorem HAHVAC.unset_temperature_is_not_published_witness :
    hvac1Busy.publishCurrentTemperature specHelpers (.ofInt 255) = (false, hvac1Busy)
      ∧ hvac1Busy.publishTargetTemperature specHelpers (.ofInt 255) = (false, hvac1Busy)
      ∧ hvac1Busy.setTargetTemperature specHelpers (.ofInt 255) = (false, hvac1Busy) :=
  ⟨(HAHVAC.unset_temperature_is_not_published specHelpers hvac1Busy (.ofInt 255)
      (by decide)).1,
   (HAHVAC.unset_temperature_is_not_published specHelpers hvac1Busy (.ofInt 255)
      (by decide)).2.1,
   (HAHVAC.unset_temperature_is_not_published specHelpers hvac1Busy (.ofInt 255)
      (by decide)).2.2 (by decide)⟩

theorem HAHVAC.publishAction_eq (h : HAHVAC) (a : Action) (payload : String)
    (hn : h.base.name.length ≠ 0) (ha : HAHVAC.actionStr a = some payload)
    (hfit : topicLen h.base HAHVAC.ActionTopic + 1 < 65536) :
    h.publishAction a
      = (h.base.mqtt.respond h.base.mqtt.log
            (.publish (h.base.topic HAHVAC.ActionTopic) payload true),
          h.withMqtt (h.base.mqtt.appendLog
            [.publish (h.base.topic HAHVAC.ActionTopic) payload true])) := by
  have hc := @calculateTopicLength_eq h.base HAHVAC.ActionTopic hn (by decide) hfit true
  simp only [if_true] at hc
  unfold HAHVAC.publishAction
  rw [if_neg hn]
  simp only [ha, mqttPublishMessage_eq, hc, Nat.add_one_ne_zero, if_false]
  rfl

/-- C23 (as amended): for every climate entity with a non-empty object id whose
action topic with its terminator is shorter than 65536 bytes, `publishAction`
makes exactly one call on the transport, the retained publish to the action
topic of the payload "off", "heating", "cooling", "drying", "idle" or "fan" for
the off, heating, cooling, drying, idle and fan actions respectively, and
returns the result of that call; the six payloads are distinct and each fits,
with its terminator, the 8-byte buffer; and for every climate entity and any
action value outside these six it returns false without a call on the
transport. -/
theorem HAHVAC.publishAction_payload (h : HAHVAC) :
    (h.base.name ≠ "" → topicLen h.base HAHVAC.ActionTopic + 1 < 65536 →
        ∀ a payload, (a, payload) ∈ [(Action.OffAction, "off"), (Action.HeatingAction, "heating"),
            (Action.CoolingAction, "cooling"), (Action.DryingAction, "drying"),
            (Action.IdleAction, "idle"), (Action.FanAction, "fan")] →
          h.publishAction a
            = (h.base.mqtt.respond h.base.mqtt.log
                  (.publish (h.base.topic HAHVAC.ActionTopic) payload true),
                h.withMqtt (h.base.mqtt.appendLog
                  [.publish (h.base.topic HAHVAC.ActionTopic) payload true])))
      ∧ ["off", "heating", "cooling", "drying", "idle", "fan"].Nodup
      ∧ (∀ payload ∈ ["off", "heating", "cooling", "drying", "idle", "fan"],
          payload.length + 1 ≤ HAHVAC.actionStrSize)
      ∧ (∀ raw, h.publishAction (.invalid raw) = (false, h)) := by
  refine ⟨?_, by decide, by decide, ?_⟩
  · intro hname hfit a payload hmem
    have hn := String.length_ne_zero_of_ne_empty hname
    simp only [List.mem_cons, Prod.mk.injEq, List.mem_singleton, List.not_mem_nil,
      or_false] at hmem
    rcases hmem with ⟨rfl, rfl⟩ | ⟨rfl, rfl⟩ | ⟨rfl, rfl⟩ | ⟨rfl, rfl⟩ | ⟨rfl, rfl⟩ | ⟨rfl, rfl⟩ <;>
      exact HAHVAC.publishAction_eq h _ _ hn rfl hfit
  · intro raw
    unfold HAHVAC.publishAction
    split <;> rfl

/-- Witness of C23 (as amended): `hvac1` publishes "heating" to
`homeassistant/climate/hvac1/at` for the heating action. -/
theorem HAHVAC.publishAction_payload_witness :
    (hvac1.publishAction .HeatingAction).1 = true
      ∧ (hvac1.publishAction .HeatingAction).2.base.mqtt.log
        = [.publish "homeassistant/climate/hvac1/at" "heating" true] := by
  have hw := (HAHVAC.publishAction_payload hvac1).1 (by decide) (by decide)
    .HeatingAction "heating" (by decide)
  rw [hw]
  exact ⟨rfl, by decide⟩

theorem HAHVAC.publishAction_of_edge_name (n : String) (hn : n.length = 65510) (a : Action) :
    (HAHVAC.new n 0 okMqtt).publishAction a = (false, HAHVAC.new n 0 okMqtt) := by
  have l1 : "homeassistant".length = 13 := rfl
  have l2 : "climate".length = 7 := rfl
  have l3 : HAHVAC.ActionTopic.length = 2 := rfl
  have h0 : calculateTopicLength "homeassistant" "climate" n HAHVAC.ActionTopic true = 0 := by
    simp [calculateTopicLength, hn, l1, l2, l3, u16]
  have hm : ∀ data, mqttPublishMessage (HAHVAC.new n 0 okMqtt).base HAHVAC.ActionTopic data
      = (false, (HAHVAC.new n 0 okMqtt).base.mqtt) := by
    intro data
    rw [mqttPublishMessage_eq]
    exact if_pos h0
  unfold HAHVAC.publishAction
  split
  · rfl
  · split
    · rfl
    · rw [hm]
      rfl

/-- C23 (as stated) fails. A climate entity whose unique id has 65510
characters, on `okMqtt`: its action topic has 65536 bytes with the terminator,
a size that is zero in 16 bits, so `publishAction` for the off action returns
false and publishes nothing. -/
theorem HAHVAC.publishAction_payload_counterexample :
    longObjectId.length = 65510
      ∧ edgeActionHVAC.publishAction .OffAction = (false, edgeActionHVAC) := by
  refine ⟨length_longObjectId, ?_⟩
  unfold edgeActionHVAC
  exact HAHVAC.publishAction_of_edge_name longObjectId length_longObjectId .OffAction

/-! ## The command topic of a switch -/

/-- C24 (as amended): for every switch with a non-empty object id of at most
247 characters and every inbound topic, `onMqttMessage` returns, and it calls
`setState` exactly when the topic ends with a slash, the object id, a slash and
the command suffix, and does nothing otherwise. The topic `generateTopic`
produces for the component of the switch, its object id and the command suffix
ends so, and so does the like topic of any other component or discovery
string: the switch reacts to all of them in the same way. -/
theorem HASwitch.onMqttMessage_matches_suffix (sw : HASwitch) (topic payload : String)
    (length : Nat) (hname : sw.base.name ≠ "") (hlen : sw.base.name.length ≤ 247) :
    sw.onMqttMessage topic payload length
        = .returned (if HAUtils.endsWith topic sw.commandSuffix = true then
            (sw.setState (decide (length = StateOn.length))).2
          else sw)
      ∧ (HAUtils.endsWith topic sw.commandSuffix = true
          ↔ ∃ p : String, topic = p ++ "/" ++ sw.base.name ++ "/" ++ CommandTopic)
      ∧ (∀ discovery component : String,
          HAUtils.endsWith (generateTopic discovery component sw.base.name CommandTopic).1
            sw.commandSuffix = true) := by
  have hn := String.length_ne_zero_of_ne_empty hname
  refine ⟨?_, ?_, ?_⟩
  · rw [HASwitch.switch_onMqttMessage_of_short_name sw topic payload length hlen]
    by_cases he : HAUtils.endsWith topic sw.commandSuffix = true
    · rw [if_pos ⟨hn, he⟩, if_pos he]
    · rw [if_neg (fun hc => he hc.2), if_neg he]
  · rw [HAUtils.endsWith_iff]
    constructor
    · rintro ⟨p, hp⟩
      exact ⟨p, by rw [hp, HASwitch.commandSuffix_eq]⟩
    · rintro ⟨p, hp⟩
      exact ⟨p, by rw [hp, HASwitch.commandSuffix_eq]⟩
  · intro discovery component
    rw [HAUtils.endsWith_iff]
    refine ⟨discovery ++ "/" ++ component, ?_⟩
    have hc : CommandTopic.length ≠ 0 := by decide
    simp only [generateTopic, hn, hc, or_self, if_false, HASwitch.commandSuffix,
      String.append_assoc]

/-- Witness of C24 (as amended): the switch `relay1`, off, reacts to a message
on its own command topic. -/
theorem HASwitch.onMqttMessage_matches_suffix_witness :
    relay1.onMqttMessage "homeassistant/switch/relay1/cmd_t" "ON" 2
      = .returned
        (if HAUtils.endsWith "homeassistant/switch/relay1/cmd_t" relay1.commandSuffix = true then
          (relay1.setState (decide (2 = StateOn.length))).2
        else relay1) :=
  (HASwitch.onMqttMessage_matches_suffix relay1 "homeassistant/switch/relay1/cmd_t" "ON" 2
    (by decide) (by decide)).1

/-- C24 (as stated) fails. The switch `relay1`, off, receives "ON" on
`zigbee2mqtt/light/relay1/cmd_t`, a topic of another discovery string and
another component, which is not the topic `generateTopic` produces for it: it
switches on and publishes "ON" to its state topic. And a switch whose object
id has 248 characters overruns its suffix buffer on a message on a topic of
another switch: the outcome is undefined. -/
theorem HASwitch.onMqttMessage_matches_suffix_counterexample :
    ("zigbee2mqtt/light/relay1/cmd_t"
        ≠ (generateTopic relay1.base.mqtt.discoveryPrefix "switch" relay1.base.name
            CommandTopic).1
      ∧ relay1._currentState = false
      ∧ (relay1.onMqttMessage "zigbee2mqtt/light/relay1/cmd_t" "ON" 2).isReturned = true
      ∧ (relay1.onMqttMessage "zigbee2mqtt/light/relay1/cmd_t" "ON" 2).state._currentState
        = true
      ∧ (relay1.onMqttMessage "zigbee2mqtt/light/relay1/cmd_t" "ON" 2).state.base.mqtt.log
        = [.publish "homeassistant/switch/relay1/stat_t" "ON" true])
      ∧ (wideName.length = 248
        ∧ wideSwitch.onMqttMessage "homeassistant/switch/relay1/cmd_t" "ON" 2
          = .undefined wideSwitch) := by
  refine ⟨by decide, length_wideName, ?_⟩
  unfold wideSwitch
  exact HASwitch.switch_onMqttMessage_of_wide_name wideName length_wideName _ _ _

/-! ## The suffix buffer of a switch -/

/-- C25 on the code: for a switch whose object id has 248 characters the
`uint8_t suffixLength` is (248 + 5 + 3) mod 256 = 0, while the string copied
into the buffer needs 256 bytes with its terminator; for object ids of at most
247 characters the size is the one needed. -/
theorem HASwitch.suffixLength_at_wideName :
    wideName.length = 248
      ∧ wideSwitch.suffixLength = 0
      ∧ wideSwitch.commandSuffix.length + 1 = 256
      ∧ relay1.suffixLength = relay1.commandSuffix.length + 1 := by
  refine ⟨length_wideName, ?_, ?_, by decide⟩
  · unfold wideSwitch
    exact (HASwitch.suffixLength_of_wide_name wideName length_wideName).1
  · unfold wideSwitch
    exact (HASwitch.suffixLength_of_wide_name wideName length_wideName).2

/-! ## The bounds of a climate entity -/

theorem Double.bounds_guard_iff (t : Double) :
    (Double.ge t (.ofInt 255) || Double.le t (.ofInt (-255))) = false
      ↔ (Double.strictlyBetween (-255) 255 t = true ∨ t = .nan) := by
  cases t with
  | nan => simp [Double.ge, Double.le, Double.ofInt]
  | negInf => simp [Double.ge, Double.le, Double.ofInt, Double.strictlyBetween]
  | posInf => simp [Double.ge, Double.le, Double.ofInt, Double.strictlyBetween]
  | fin q =>
    simp only [Double.ge, Double.le, Double.ofInt, Double.strictlyBetween, Bool.or_eq_false_iff,
      decide_eq_false_iff_not, decide_eq_true_eq, not_le, or_false, Int.cast_neg, Int.cast_ofNat,
      reduceCtorEq]
    constructor
    · rintro ⟨h1, h2⟩
      exact ⟨h2, h1⟩
    · rintro ⟨h1, h2⟩
      exact ⟨h2, h1⟩

theorem Double.step_guard_iff (t : Double) :
    (Double.le t (.ofInt 0) || Double.ge t (.ofInt 255)) = false
      ↔ (Double.strictlyBetween 0 255 t = true ∨ t = .nan) := by
  cases t with
  | nan => simp [Double.ge, Double.le, Double.ofInt]
  | negInf => simp [Double.ge, Double.le, Double.ofInt, Double.strictlyBetween]
  | posInf => simp [Double.ge, Double.le, Double.ofInt, Double.strictlyBetween]
  | fin q =>
    simp only [Double.ge, Double.le, Double.ofInt, Double.strictlyBetween, Bool.or_eq_false_iff,
      decide_eq_false_iff_not, decide_eq_true_eq, not_le, or_false, Int.cast_zero, Int.cast_ofNat,
      reduceCtorEq]

theorem HAHVAC.applyBounds_keeps_range (h : HAHVAC) (c : BoundsCall)
    (hmin : h._minTemp = .ofInt 255 ∨ h._minTemp = .nan
      ∨ Double.strictlyBetween (-255) 255 h._minTemp = true)
    (hmax : h._maxTemp = .ofInt 255 ∨ h._maxTemp = .nan
      ∨ Double.strictlyBetween (-255) 255 h._maxTemp = true)
    (hstep : h._tempStep = .nan ∨ Double.strictlyBetween 0 255 h._tempStep = true) :
    ((h.applyBounds c)._minTemp = .ofInt 255 ∨ (h.applyBounds c)._minTemp = .nan
        ∨ Double.strictlyBetween (-255) 255 (h.applyBounds c)._minTemp = true)
      ∧ ((h.applyBounds c)._maxTemp = .ofInt 255 ∨ (h.applyBounds c)._maxTemp = .nan
        ∨ Double.strictlyBetween (-255) 255 (h.applyBounds c)._maxTemp = true)
      ∧ ((h.applyBounds c)._tempStep = .nan
        ∨ Double.strictlyBetween 0 255 (h.applyBounds c)._tempStep = true) := by
  cases c with
  | setMinTemp t =>
    simp only [HAHVAC.applyBounds, HAHVAC.setMinTemp]
    cases hg : (Double.ge t (.ofInt 255) || Double.le t (.ofInt (-255)))
    · rcases (Double.bounds_guard_iff t).mp hg with hb | hb
      · exact ⟨Or.inr (Or.inr hb), hmax, hstep⟩
      · exact ⟨Or.inr (Or.inl hb), hmax, hstep⟩
    · exact ⟨hmin, hmax, hstep⟩
  | setMaxTemp t =>
    simp only [HAHVAC.applyBounds, HAHVAC.setMaxTemp]
    cases hg : (Double.ge t (.ofInt 255) || Double.le t (.ofInt (-255)))
    · rcases (Double.bounds_guard_iff t).mp hg with hb | hb
      · exact ⟨hmin, Or.inr (Or.inr hb), hstep⟩
      · exact ⟨hmin, Or.inr (Or.inl hb), hstep⟩
    · exact ⟨hmin, hmax, hstep⟩
  | setTempStep t =>
    simp only [HAHVAC.applyBounds, HAHVAC.setTempStep]
    cases hg : (Double.le t (.ofInt 0) || Double.ge t (.ofInt 255))
    · rcases (Double.step_guard_iff t).mp hg with hb | hb
      · exact ⟨hmin, hmax, Or.inr hb⟩
      · exact ⟨hmin, hmax, Or.inl hb⟩
    · exact ⟨hmin, hmax, hstep⟩

theorem HAHVAC.runBounds_keeps_range (calls : List BoundsCall) (h : HAHVAC)
    (hmin : h._minTemp = .ofInt 255 ∨ h._minTemp = .nan
      ∨ Double.strictlyBetween (-255) 255 h._minTemp = true)
    (hmax : h._maxTemp = .ofInt 255 ∨ h._maxTemp = .nan
      ∨ Double.strictlyBetween (-255) 255 h._maxTemp = true)
    (hstep : h._tempStep = .nan ∨ Double.strictlyBetween 0 255 h._tempStep = true) :
    ((h.runBounds calls)._minTemp = .ofInt 255 ∨ (h.runBounds calls)._minTemp = .nan
        ∨ Double.strictlyBetween (-255) 255 (h.runBounds calls)._minTemp = true)
      ∧ ((h.runBounds calls)._maxTemp = .ofInt 255 ∨ (h.runBounds calls)._maxTemp = .nan
        ∨ Double.strictlyBetween (-255) 255 (h.runBounds calls)._maxTemp = true)
      ∧ ((h.runBounds calls)._tempStep = .nan
        ∨ Double.strictlyBetween 0 255 (h.runBounds calls)._tempStep = true) := by
  induction calls generalizing h with
  | nil => exact ⟨hmin, hmax, hstep⟩
  | cons c calls ih =>
    obtain ⟨a, b, d⟩ := HAHVAC.applyBounds_keeps_range h c hmin hmax hstep
    exact ih (h.applyBounds c) a b d

/-- C26 (as amended): each of `setMinTemp`, `setMaxTemp` and `setTempStep`
returns true and stores its argument exactly when the argument is strictly
inside its range (between -255 and 255 for the bounds, between 0 and 255 for
the step) or is NaN, and otherwise returns false and leaves the entity as it
was; so, starting from a freshly constructed climate entity and after any
sequence of calls of the three setters, the stored minimum and maximum are each
the sentinel 255, NaN or strictly between -255 and 255, and the stored step is
NaN or strictly between 0 and 255. -/
theorem HAHVAC.bounds_stay_in_range :
    (∀ (h : HAHVAC) (t : Double),
        h.setMinTemp t
          = (if Double.strictlyBetween (-255) 255 t = true ∨ t = .nan then
              (true, { h with _minTemp := t })
            else (false, h)))
      ∧ (∀ (h : HAHVAC) (t : Double),
        h.setMaxTemp t
          = (if Double.strictlyBetween (-255) 255 t = true ∨ t = .nan then
              (true, { h with _maxTemp := t })
            else (false, h)))
      ∧ (∀ (h : HAHVAC) (t : Double),
        h.setTempStep t
          = (if Double.strictlyBetween 0 255 t = true ∨ t = .nan then
              (true, { h with _tempStep := t })
            else (false, h)))
      ∧ (∀ (uniqueId : String) (features : Nat) (mqtt : HAMqtt) (calls : List BoundsCall),
        (((HAHVAC.new uniqueId features mqtt).runBounds calls)._minTemp = .ofInt 255
            ∨ ((HAHVAC.new uniqueId features mqtt).runBounds calls)._minTemp = .nan
            ∨ Double.strictlyBetween (-255) 255
                ((HAHVAC.new uniqueId features mqtt).runBounds calls)._minTemp = true)
          ∧ (((HAHVAC.new uniqueId features mqtt).runBounds calls)._maxTemp = .ofInt 255
            ∨ ((HAHVAC.new uniqueId features mqtt).runBounds calls)._maxTemp = .nan
            ∨ Double.strictlyBetween (-255) 255
                ((HAHVAC.new uniqueId features mqtt).runBounds calls)._maxTemp = true)
          ∧ (((HAHVAC.new uniqueId features mqtt).runBounds calls)._tempStep = .nan
            ∨ Double.strictlyBetween 0 255
                ((HAHVAC.new uniqueId features mqtt).runBounds calls)._tempStep = true)) := by
  refine ⟨?_, ?_, ?_, ?_⟩
  · intro h t
    unfold HAHVAC.setMinTemp
    cases hg : (Double.ge t (.ofInt 255) || Double.le t (.ofInt (-255)))
    · rw [if_pos ((Double.bounds_guard_iff t).mp hg)]
      rfl
    · have hno : ¬ (Double.strictlyBetween (-255) 255 t = true ∨ t = .nan) := by
        intro hb
        rw [(Double.bounds_guard_iff t).mpr hb] at hg
        exact absurd hg (by simp)
      rw [if_neg hno]
      rfl
  · intro h t
    unfold HAHVAC.setMaxTemp
    cases hg : (Double.ge t (.ofInt 255) || Double.le t (.ofInt (-255)))
    · rw [if_pos ((Double.bounds_guard_iff t).mp hg)]
      rfl
    · have hno : ¬ (Double.strictlyBetween (-255) 255 t = true ∨ t = .nan) := by
        intro hb
        rw [(Double.bounds_guard_iff t).mpr hb] at hg
        exact absurd hg (by simp)
      rw [if_neg hno]
      rfl
  · intro h t
    unfold HAHVAC.setTempStep
    cases hg : (Double.le t (.ofInt 0) || Double.ge t (.ofInt 255))
    · rw [if_pos ((Double.step_guard_iff t).mp hg)]
      rfl
    · have hno : ¬ (Double.strictlyBetween 0 255 t = true ∨ t = .nan) := by
        intro hb
        rw [(Double.step_guard_iff t).mpr hb] at hg
        exact absurd hg (by simp)
      rw [if_neg hno]
      rfl
  · intro uniqueId features mqtt calls
    have h1 : Double.strictlyBetween 0 255 (.ofInt 1) = true := by decide
    exact HAHVAC.runBounds_keeps_range calls _ (Or.inl rfl) (Or.inl rfl) (Or.inr h1)

/-- Witness of C26 (as amended): on `hvac1`, a minimum of 16 and a step of 2
are stored, a maximum of 300 and a step of 0 are refused. -/
theorem HAHVAC.bounds_stay_in_range_witness :
    ((hvac1.runBounds [.setMinTemp (.ofInt 16), .setMaxTemp (.ofInt 300),
          .setTempStep (.ofInt 2), .setTempStep (.ofInt 0)])._minTemp = .ofInt 16
        ∧ (hvac1.runBounds [.setMinTemp (.ofInt 16), .setMaxTemp (.ofInt 300),
          .setTempStep (.ofInt 2), .setTempStep (.ofInt 0)])._maxTemp = .ofInt 255
        ∧ (hvac1.runBounds [.setMinTemp (.ofInt 16), .setMaxTemp (.ofInt 300),
          .setTempStep (.ofInt 2), .setTempStep (.ofInt 0)])._tempStep = .ofInt 2)
      ∧ (hvac1.setMaxTemp (.ofInt 300)).1 = false := by
  have hw := HAHVAC.bounds_stay_in_range.2.1 hvac1 (.ofInt 300)
  refine ⟨by decide, ?_⟩
  rw [hw]
  decide

/-- C26 (as stated) fails. `setMinTemp(NaN)` on `hvac1` returns true and stores
NaN, which is neither the sentinel 255 nor strictly between -255 and 255: both
comparisons of the guard are false for NaN; likewise `setTempStep(NaN)`. -/
theorem HAHVAC.bounds_stay_in_range_counterexample :
    (hvac1.setMinTemp .nan).1 = true
      ∧ (hvac1.setMinTemp .nan).2._minTemp = .nan
      ∧ Double.nan ≠ .ofInt 255
      ∧ Double.strictlyBetween (-255) 255 .nan = false
      ∧ (hvac1.setTempStep .nan).1 = true
      ∧ (hvac1.setTempStep .nan).2._tempStep = .nan
      ∧ Double.strictlyBetween 0 255 .nan = false := by
  decide

/-! ## What a climate setter leaves alone -/

theorem HAHVAC.hvac_withMqtt_appendLog_nil (h : HAHVAC) :
    h.withMqtt (h.base.mqtt.appendLog []) = h := by
  rw [HAMqtt.appendLog_nil]
  rfl

theorem HAHVAC.publish_logs (H : FieldHelpers) (h : HAHVAC) :
    (∀ a, ∃ ops, (h.publishAction a).2 = h.withMqtt (h.base.mqtt.appendLog ops))
      ∧ (∀ v, ∃ ops, (h.publishAuxHeatingState v).2 = h.withMqtt (h.base.mqtt.appendLog ops))
      ∧ (∀ v, ∃ ops, (h.publishAwayState v).2 = h.withMqtt (h.base.mqtt.appendLog ops))
      ∧ (∀ v, ∃ ops, (h.publishHoldState v).2 = h.withMqtt (h.base.mqtt.appendLog ops))
      ∧ (∀ t, ∃ ops, (h.publishCurrentTemperature H t).2
          = h.withMqtt (h.base.mqtt.appendLog ops))
      ∧ (∀ t, ∃ ops, (h.publishTargetTemperature H t).2
          = h.withMqtt (h.base.mqtt.appendLog ops)) := by
  by_cases hn : h.base.name.length = 0
  · have e := (HAHVAC.hvac_withMqtt_appendLog_nil h).symm
    refine ⟨fun a => ⟨[], ?_⟩, fun v => ⟨[], ?_⟩, fun v => ⟨[], ?_⟩, fun v => ⟨[], ?_⟩,
      fun t => ⟨[], ?_⟩, fun t => ⟨[], ?_⟩⟩
    · rw [← e]; simp [HAHVAC.publishAction, hn]
    · rw [← e]; simp [HAHVAC.publishAuxHeatingState, hn]
    · rw [← e]; simp [HAHVAC.publishAwayState, hn]
    · rw [← e]; simp [HAHVAC.publishHoldState, hn]
    · rw [← e]; simp [HAHVAC.publishCurrentTemperature, hn]
    · rw [← e]; simp [HAHVAC.publishTargetTemperature, hn]
  · exact ⟨fun a => ⟨_, HAHVAC.publishAction_snd h a hn⟩,
      fun v => ⟨_, HAHVAC.publishAuxHeatingState_snd h v hn⟩,
      fun v => ⟨_, HAHVAC.publishAwayState_snd h v hn⟩,
      fun v => ⟨_, HAHVAC.publishHoldState_snd h v hn⟩,
      fun t => ⟨_, HAHVAC.publishCurrentTemperature_snd H h t hn⟩,
      fun t => ⟨_, HAHVAC.publishTargetTemperature_snd H h t hn⟩⟩

/-- C27: each state setter of a climate entity changes at most its own field.
The entity a setter returns is the entity it was called on with, at most, calls
added to the log of the transport, the setter's own field changed and, for the
setters with a callback, calls added to the record of callback calls: the
feature flags, the bounds, the step, the unit, the label, the unique id, the
registered callbacks and the other state fields are the same. -/
theorem HAHVAC.setters_change_own_field_only (H : FieldHelpers) (h : HAHVAC) :
    (∀ a, ∃ ops, (h.setAction a).2
        = { h.withMqtt (h.base.mqtt.appendLog ops) with _action := (h.setAction a).2._action })
      ∧ (∀ v, ∃ ops, (h.setAuxHeatingState v).2
        = { h.withMqtt (h.base.mqtt.appendLog ops) with
            _auxHeatingState := (h.setAuxHeatingState v).2._auxHeatingState
            callbackCalls := (h.setAuxHeatingState v).2.callbackCalls })
      ∧ (∀ v, ∃ ops, (h.setAwayState v).2
        = { h.withMqtt (h.base.mqtt.appendLog ops) with
            _awayState := (h.setAwayState v).2._awayState
            callbackCalls := (h.setAwayState v).2.callbackCalls })
      ∧ (∀ v, ∃ ops, (h.setHoldState v).2
        = { h.withMqtt (h.base.mqtt.appendLog ops) with
            _holdState := (h.setHoldState v).2._holdState
            callbackCalls := (h.setHoldState v).2.callbackCalls })
      ∧ (∀ t, ∃ ops, (h.setCurrentTemperature H t).2
        = { h.withMqtt (h.base.mqtt.appendLog ops) with
            _currentTemperature := (h.setCurrentTemperature H t).2._currentTemperature })
      ∧ (∀ t, ∃ ops, (h.setTargetTemperature H t).2
        = { h.withMqtt (h.base.mqtt.appendLog ops) with
            _targetTemperature := (h.setTargetTemperature H t).2._targetTemperature
            callbackCalls := (h.setTargetTemperature H t).2.callbackCalls }) := by
  obtain ⟨p1, p2, p3, p4, p5, p6⟩ := HAHVAC.publish_logs H h
  have e := HAHVAC.hvac_withMqtt_appendLog_nil h
  refine ⟨?_, ?_, ?_, ?_, ?_, ?_⟩
  · intro a
    obtain ⟨ops, hops⟩ := p1 a
    unfold HAHVAC.setAction
    split
    · exact ⟨[], by rw [e]⟩
    · dsimp only
      rw [hops]
      split
      · exact ⟨ops, rfl⟩
      · exact ⟨ops, rfl⟩
  · intro v
    obtain ⟨ops, hops⟩ := p2 v
    unfold HAHVAC.setAuxHeatingState
    split
    · exact ⟨[], by rw [e]⟩
    · split
      · exact ⟨[], by rw [e]⟩
      · dsimp only
        rw [hops]
        split
        · split
          · exact ⟨ops, rfl⟩
          · exact ⟨ops, rfl⟩
        · exact ⟨ops, rfl⟩
  · intro v
    obtain ⟨ops, hops⟩ := p3 v
    unfold HAHVAC.setAwayState
    split
    · exact ⟨[], by rw [e]⟩
    · split
      · exact ⟨[], by rw [e]⟩
      · dsimp only
        rw [hops]
        split
        · split
          · exact ⟨ops, rfl⟩
          · exact ⟨ops, rfl⟩
        · exact ⟨ops, rfl⟩
  · intro v
    obtain ⟨ops, hops⟩ := p4 v
    unfold HAHVAC.setHoldState
    split
    · exact ⟨[], by rw [e]⟩
    · split
      · exact ⟨[], by rw [e]⟩
      · dsimp only
        rw [hops]
        split
        · split
          · exact ⟨ops, rfl⟩
          · exact ⟨ops, rfl⟩
        · exact ⟨ops, rfl⟩
  · intro t
    obtain ⟨ops, hops⟩ := p5 t
    unfold HAHVAC.setCurrentTemperature
    split
    · exact ⟨[], by rw [e]⟩
    · split
      · exact ⟨[], by rw [e]⟩
      · dsimp only
        rw [hops]
        split
        · exact ⟨ops, rfl⟩
        · exact ⟨ops, rfl⟩
  · intro t
    obtain ⟨ops, hops⟩ := p6 t
    unfold HAHVAC.setTargetTemperature
    split
    · exact ⟨[], by rw [e]⟩
    · dsimp only
      rw [hops]
      split
      · split
        · exact ⟨ops, rfl⟩
        · exact ⟨ops, rfl⟩
      · exact ⟨ops, rfl⟩

/-! ## The size of a climate document and the state of the entity -/

theorem specHelpers_readsConfiguration : specHelpers.ReadsConfiguration := by
  constructor
  intro dt1 dt2 hc hn ha hp _
  simp only [specHelpers, hc, hn, ha, hp]

theorem HAHVAC.calculateSerializedLength_congr (H : FieldHelpers) (hH : H.ReadsConfiguration)
    (h1 h2 : HAHVAC) (serializedDevice : Option String)
    (hcomponent : h1.base.componentName = h2.base.componentName)
    (hname : h1.base.name = h2.base.name)
    (havailability : h1.base.isAvailabilityConfigured = h2.base.isAvailabilityConfigured)
    (hdiscovery : h1.base.mqtt.discoveryPrefix = h2.base.mqtt.discoveryPrefix)
    (hdevice : h1.base.mqtt.device = h2.base.mqtt.device)
    (huid : h1._uniqueId = h2._uniqueId)
    (hfeatures : h1._features = h2._features)
    (hunit : h1._temperatureUnit = h2._temperatureUnit)
    (hmin : h1._minTemp = h2._minTemp) (hmax : h1._maxTemp = h2._maxTemp)
    (hstep : h1._tempStep = h2._tempStep) (hlabel : h1._label = h2._label) :
    h1.calculateSerializedLength H serializedDevice
      = h2.calculateSerializedLength H serializedDevice := by
  have ha := hH.availability h1.base h2.base hcomponent hname havailability hdiscovery hdevice
  simp only [HAHVAC.calculateSerializedLength, HAHVAC.calculateSerializedLengthPass,
    HAHVAC.hasFeature, Sizing.addTopic, HAMqtt.getDevice, hcomponent, hname, hdiscovery, hdevice,
    ha, huid, hfeatures, hunit, hmin, hmax, hstep, hlabel]

theorem HAHVAC.setters_keep_calculateSerializedLength (H G : FieldHelpers)
    (hH : H.ReadsConfiguration) (h : HAHVAC) (sd : Option String) :
    (∀ a, (h.setAction a).2.calculateSerializedLength H sd = h.calculateSerializedLength H sd)
      ∧ (∀ v, (h.setAuxHeatingState v).2.calculateSerializedLength H sd
          = h.calculateSerializedLength H sd)
      ∧ (∀ v, (h.setAwayState v).2.calculateSerializedLength H sd
          = h.calculateSerializedLength H sd)
      ∧ (∀ v, (h.setHoldState v).2.calculateSerializedLength H sd
          = h.calculateSerializedLength H sd)
      ∧ (∀ t, (h.setCurrentTemperature G t).2.calculateSerializedLength H sd
          = h.calculateSerializedLength H sd)
      ∧ (∀ t, (h.setTargetTemperature G t).2.calculateSerializedLength H sd
          = h.calculateSerializedLength H sd) := by
  obtain ⟨p1, p2, p3, p4, p5, p6⟩ := HAHVAC.publish_logs G h
  have hc : ∀ x : HAHVAC, x.base.componentName = h.base.componentName → x.base.name = h.base.name →
      x.base.isAvailabilityConfigured = h.base.isAvailabilityConfigured →
      x.base.mqtt.discoveryPrefix = h.base.mqtt.discoveryPrefix →
      x.base.mqtt.device = h.base.mqtt.device →
      x._uniqueId = h._uniqueId → x._features = h._features →
      x._temperatureUnit = h._temperatureUnit → x._minTemp = h._minTemp →
      x._maxTemp = h._maxTemp → x._tempStep = h._tempStep → x._label = h._label →
      x.calculateSerializedLength H sd = h.calculateSerializedLength H sd :=
    fun x => HAHVAC.calculateSerializedLength_congr H hH x h sd
  refine ⟨?_, ?_, ?_, ?_, ?_, ?_⟩
  · intro a
    obtain ⟨ops, hops⟩ := p1 a
    unfold HAHVAC.setAction
    split
    · rfl
    · dsimp only
      rw [hops]
      split <;> exact hc _ rfl rfl rfl rfl rfl rfl rfl rfl rfl rfl rfl rfl
  · intro v
    obtain ⟨ops, hops⟩ := p2 v
    unfold HAHVAC.setAuxHeatingState
    split
    · rfl
    · split
      · rfl
      · dsimp only
        rw [hops]
        split
        · split <;> exact hc _ rfl rfl rfl rfl rfl rfl rfl rfl rfl rfl rfl rfl
        · exact hc _ rfl rfl rfl rfl rfl rfl rfl rfl rfl rfl rfl rfl
  · intro v
    obtain ⟨ops, hops⟩ := p3 v
    unfold HAHVAC.setAwayState
    split
    · rfl
    · split
      · rfl
      · dsimp only
        rw [hops]
        split
        · split <;> exact hc _ rfl rfl rfl rfl rfl rfl rfl rfl rfl rfl rfl rfl
        · exact hc _ rfl rfl rfl rfl rfl rfl rfl rfl rfl rfl rfl rfl
  · intro v
    obtain ⟨ops, hops⟩ := p4 v
    unfold HAHVAC.setHoldState
    split
    · rfl
    · split
      · rfl
      · dsimp only
        rw [hops]
        split
        · split <;> exact hc _ rfl rfl rfl rfl rfl rfl rfl rfl rfl rfl rfl rfl
        · exact hc _ rfl rfl rfl rfl rfl rfl rfl rfl rfl rfl rfl rfl
  · intro t
    obtain ⟨ops, hops⟩ := p5 t
    unfold HAHVAC.setCurrentTemperature
    split
    · rfl
    · split
      · rfl
      · dsimp only
        rw [hops]
        split <;> exact hc _ rfl rfl rfl rfl rfl rfl rfl rfl rfl rfl rfl rfl
  · intro t
    obtain ⟨ops, hops⟩ := p6 t
    unfold HAHVAC.setTargetTemperature
    split
    · rfl
    · dsimp only
      rw [hops]
      split
      · split <;> exact hc _ rfl rfl rfl rfl rfl rfl rfl rfl rfl rfl rfl rfl
      · exact hc _ rfl rfl rfl rfl rfl rfl rfl rfl rfl rfl rfl rfl

/-- C28: the size of the discovery document of a climate entity does not depend
on its runtime state. For every family of field helpers whose availability
helper reads the configuration only, two climate entities with the same
component, object id, availability setting, discovery prefix, device
descriptor, unique id, feature flags, temperature unit, minimum, maximum, step
and label get the same value from `calculateSerializedLength`, whatever their
action, aux-heating, away and hold states, their current and target
temperatures, their registered callbacks, the calls made on their transports
and the answers of the transports are. In particular the value is the same
before and after a call of each of the six state setters, whether the call
succeeds or fails. -/
theorem HAHVAC.calculateSerializedLength_ignores_state (H : FieldHelpers)
    (hH : H.ReadsConfiguration) :
    (∀ (h1 h2 : HAHVAC) (serializedDevice : Option String),
        h1.base.componentName = h2.base.componentName →
        h1.base.name = h2.base.name →
        h1.base.isAvailabilityConfigured = h2.base.isAvailabilityConfigured →
        h1.base.mqtt.discoveryPrefix = h2.base.mqtt.discoveryPrefix →
        h1.base.mqtt.device = h2.base.mqtt.device →
        h1._uniqueId = h2._uniqueId →
        h1._features = h2._features →
        h1._temperatureUnit = h2._temperatureUnit →
        h1._minTemp = h2._minTemp → h1._maxTemp = h2._maxTemp →
        h1._tempStep = h2._tempStep → h1._label = h2._label →
        h1.calculateSerializedLength H serializedDevice
          = h2.calculateSerializedLength H serializedDevice)
      ∧ (∀ (G : FieldHelpers) (h : HAHVAC) (serializedDevice : Option String),
        (∀ a, (h.setAction a).2.calculateSerializedLength H serializedDevice
            = h.calculateSerializedLength H serializedDevice)
        ∧ (∀ v, (h.setAuxHeatingState v).2.calculateSerializedLength H serializedDevice
            = h.calculateSerializedLength H serializedDevice)
        ∧ (∀ v, (h.setAwayState v).2.calculateSerializedLength H serializedDevice
            = h.calculateSerializedLength H serializedDevice)
        ∧ (∀ v, (h.setHoldState v).2.calculateSerializedLength H serializedDevice
            = h.calculateSerializedLength H serializedDevice)
        ∧ (∀ t, (h.setCurrentTemperature G t).2.calculateSerializedLength H serializedDevice
            = h.calculateSerializedLength H serializedDevice)
        ∧ (∀ t, (h.setTargetTemperature G t).2.calculateSerializedLength H serializedDevice
            = h.calculateSerializedLength H serializedDevice)) := by
  refine ⟨?_, fun G h sd => HAHVAC.setters_keep_calculateSerializedLength H G hH h sd⟩
  intro h1 h2 sd hcomponent hname havailability hdiscovery hdevice huid hfeatures hunit hmin hmax
    hstep hlabel
  have ha := hH.availability h1.base h2.base hcomponent hname havailability hdiscovery hdevice
  simp only [HAHVAC.calculateSerializedLength, HAHVAC.calculateSerializedLengthPass,
    HAHVAC.hasFeature, Sizing.addTopic, HAMqtt.getDevice, hcomponent, hname, hdiscovery, hdevice,
    ha, huid, hfeatures, hunit, hmin, hmax, hstep, hlabel]

/-- Witness of C28: the climate entity `hvac1` before and after it was set,
through its setters, to heating with aux heating on, 21 degrees measured and
22 degrees wanted: four publishes were made and the state changed, and the
document has 542 bytes before and after. -/
theorem HAHVAC.calculateSerializedLength_ignores_state_witness :
    hvac1.calculateSerializedLength specHelpers (some sampleSerializedDevice) = 542
      ∧ hvac1Heating.calculateSerializedLength specHelpers (some sampleSerializedDevice) = 542
      ∧ hvac1Heating._action = .HeatingAction
      ∧ hvac1Heating._auxHeatingState = true
      ∧ hvac1Heating._currentTemperature = .ofInt 21
      ∧ hvac1Heating._targetTemperature = .ofInt 22
      ∧ hvac1Heating.base.mqtt.log.length = 4
      ∧ hvac1.base.mqtt.log = [] := by
  have hw := (HAHVAC.calculateSerializedLength_ignores_state specHelpers
    specHelpers_readsConfiguration).1 hvac1Heating hvac1 (some sampleSerializedDevice)
    (by decide) (by decide) (by decide) (by decide) rfl (by decide) (by decide)
    (by decide) (by decide) (by decide) (by decide) (by decide)
  have e : hvac1.calculateSerializedLength specHelpers (some sampleSerializedDevice) = 542 := by
    decide
  exact ⟨e, by rw [hw]; exact e, by decide, by decide, by decide, by decide, by decide, rfl⟩

end AHA
